import Mathlib

/-!
sense-logger: session client and round-robin archive writer

A shallow embedding of the Go packages `sense` (session client) and `rrd`
(archive writer), followed by theorems about them.

Conventions of the embedding:

* Go `int`/`int64` values are `Int`; where the Go runtime wraps or saturates
  (`time.Unix`, `Time.Sub`) the wrap is written out.
* `float64` values are carried as their IEEE-754 bit pattern; the code never
  does arithmetic on them, it only moves them around and supplies `0.0`.
* A nil-able pointer is an `Option`.
* The round-robin database engine and the file system are an explicit
  `Disk` state; whether an engine call succeeds is decided by an `Engine`
  function of the whole history, so every run of the real program is the run
  of the model under some `Engine`.
-/

namespace SenseLogger

/-! ## Go runtime values -/

/-- A Go float64, as its IEEE-754 bit pattern. -/
structure Float64 where
  bits : Nat
deriving DecidableEq, Repr

/-- The constant 0.0. -/
def Float64.zero : Float64 := ⟨0⟩

/-- The constant 0.5 (retention-tier consolidation threshold). -/
def Float64.half : Float64 := ⟨0x3FE0000000000000⟩

/-- The constant 0.9 (retention-tier consolidation threshold). -/
def Float64.ninetenths : Float64 := ⟨0x3FECCCCCCCCCCCCD⟩

/-- Reduce an integer to the signed 64-bit range, as Go int64 arithmetic does. -/
def wrap64 (x : Int) : Int := (x + 2 ^ 63) % 2 ^ 64 - 2 ^ 63

/-- Go time.Time without a monotonic reading: seconds since January 1 of
year 1 (the internal epoch) and nanoseconds within the second. The zero
value is the zero time. -/
structure Time where
  sec : Int := 0
  nsec : Int := 0
deriving DecidableEq, Repr

/-- Seconds between the internal epoch (year 1) and the Unix epoch (1970). -/
def unixToInternal : Int := 62135596800

/-- Go time.Unix(sec, 0): the int64 addition of the offset wraps. -/
def Time.Unix (sec : Int) : Time := { sec := wrap64 (sec + unixToInternal), nsec := 0 }

/-- The instant of a Time in nanoseconds since the internal epoch, as a
mathematical integer. -/
def Time.nanos (t : Time) : Int := t.sec * 1000000000 + t.nsec

/-- Largest time.Duration (nanoseconds in an int64). -/
def maxDuration : Int := 2 ^ 63 - 1

/-- Smallest time.Duration. -/
def minDuration : Int := -(2 ^ 63)

/-- Go time.Second as a Duration. -/
def Second : Int := 1000000000

/-- Go Time.Sub: the duration t-u in nanoseconds, saturated to the Duration
range (the standard library returns the minimum or maximum Duration when
the difference does not fit). -/
def Time.Sub (t u : Time) : Int :=
  let d := t.nanos - u.nanos
  if d < minDuration then minDuration
  else if maxDuration < d then maxDuration
  else d

/-- Go Time.Add for a duration that keeps the result in range. -/
def Time.Add (t : Time) (d : Int) : Time :=
  { sec := (t.nanos + d) / 1000000000, nsec := (t.nanos + d) % 1000000000 }

/-! ## Package sense: device records -/

/-- Go type StatusDetails. -/
structure StatusDetails where
  Watts : Float64 := Float64.zero
  Current : Float64 := Float64.zero
  Voltage : Float64 := Float64.zero
  EnergyUsed : Float64 := Float64.zero
deriving DecidableEq, Repr

/-- Go type LastMergedState. -/
structure LastMergedState where
  CombinedState : String := ""
  StateInts : List Int := []
deriving DecidableEq, Repr

/-- Go type StandbyConfig. -/
structure StandbyConfig where
  DefaultStandbyHysteresisSec : Int := 0
  DefaultStandbyThresholdWatt : Int := 0
  StandbyHysteresisSec : Int := 0
  StandbyThresholdWatt : Int := 0
deriving DecidableEq, Repr

/-- Go type PeerName. -/
structure PeerName where
  Name : String := ""
  UserDeviceType : String := ""
  Percent : Float64 := Float64.zero
  Icon : String := ""
  UserDeviceTypeDisplayString : String := ""
  Make : Option String := none
deriving DecidableEq, Repr

/-- Go type DeviceTags (the field Type of the source is Type_ here, Type being reserved). -/
structure DeviceTags where
  Alertable : Option String := none
  AlwaysOn : Option String := none
  ControlCapabilities : List String := []
  DCMActive : Option String := none
  DUID : Option String := none
  DateCreated : Option Time := none
  DateFirstUsage : Option String := none
  DateSuperseded : Option String := none
  DefaultUserDeviceType : Option String := none
  DeployToMonitor : Option String := none
  DeviceListAllowed : Option String := none
  ExpectedAOWattage : Option Int := none
  IntegratedDeviceType : Option String := none
  IntegrationType : Option String := none
  MergeId : Option String := none
  MergedDevices : Option String := none
  ModelCreatedVersion : Option String := none
  ModelUpdatedVersion : Option String := none
  NameUserEdit : Option String := none
  NameUserGuess : Option String := none
  OriginalName : Option String := none
  OtherSuperseded : Option String := none
  OtherSupersededType : Option String := none
  PeerNames : List PeerName := []
  Pending : Option String := none
  PreselectionIndex : Option Int := none
  Revoked : Option String := none
  SSIEnabled : Option String := none
  SSIModel : Option String := none
  SmartPlugModel : Option String := none
  SmartPlugName : Option String := none
  TimelineAllowed : Option String := none
  TimelineDefault : Option String := none
  Type_ : Option String := none
  UserControlLock : Option String := none
  UserDeletable : Option String := none
  UserDeleted : Option String := none
  UserDeviceType : Option String := none
  UserDeviceTypeDisplayString : Option String := none
  UserEditable : Option String := none
  UserEditableMeta : Option String := none
  UserMergeable : Option String := none
  UserShowBubble : Option String := none
  UserShowInDeviceList : Option String := none
  UserSupersededBy : Option String := none
  UserVisibleDeviceId : Option String := none
  Virtual : Option String := none
deriving DecidableEq, Repr

/-- Go type Device: mandatory fields, device-endpoint fields, and the
realtime-update fields. -/
structure Device where
  ID : String := ""
  Name : String := ""
  Tags : DeviceTags := {}
  GivenLocation : Option String := none
  GivenMake : Option String := none
  GivenModel : Option String := none
  Icon : Option String := none
  LastMergedState : Option LastMergedState := none
  LastState : Option String := none
  LastStateTime : Option Time := none
  Location : Option String := none
  Make : Option String := none
  Model : Option String := none
  MonitorID : Option Int := none
  StandbyConfig : Option StandbyConfig := none
  AlwaysOnState : Option Bool := none
  AlwaysOnWatts : Option Float64 := none
  Attrs : List String := []
  Cirumference : Option Int := none
  StatusDetails : Option StatusDetails := none
  Watts : Option Float64 := none
deriving DecidableEq, Repr

/-! ## Package sense: realtime samples -/

/-- Go type RealtimeUpdateStats. -/
structure RealtimeUpdateStats where
  BytesReceived : Float64 := Float64.zero
  MessagesReceived : Float64 := Float64.zero
  MessagesSent : Float64 := Float64.zero
deriving DecidableEq, Repr

/-- Go type RealtimeUpdatePowerFlow. -/
structure RealtimeUpdatePowerFlow where
  Grid : List String := []
deriving DecidableEq, Repr

/-- Go type RealtimeUpdatePayload. -/
structure RealtimeUpdatePayload where
  Voltage : List Float64 := []
  FrameNumber : Int := 0
  Devices : List Device := []
  DefaultCost : Int := 0
  Channels : List Float64 := []
  FrequencyHz : Float64 := Float64.zero
  TotalWatts : Float64 := Float64.zero
  C : Int := 0
  GridWatts : Int := 0
  Stats : RealtimeUpdateStats := {}
  PowerFlow : RealtimeUpdatePowerFlow := {}
  DeviceWatts : Int := 0
  EpochTimestamp : Int := 0
deriving DecidableEq, Repr

/-- Go type RealtimeUpdate (the field Type of the source is Type_ here). -/
structure RealtimeUpdate where
  Payload : RealtimeUpdatePayload := {}
  Type_ : String := ""
deriving DecidableEq, Repr

/-! ## Package rrd: the round-robin engine as a capability

The engine is the external library; the writer only builds a creator
(a file name, a start time, a step and a list of data-source and archive
arguments) and calls Create, or calls Update with a time and values. -/

/-- One argument added to a creator by its RRA or DS method, in call order. -/
inductive CreatorArg where
  | RRA (cf : String) (xff : Float64) (steps rows : Int)
  | DS (name compound : String) (heartbeat min max : Int)
deriving DecidableEq, Repr

/-- The engine library's Creator: what NewCreator, RRA and DS accumulate. -/
structure Creator where
  filename : String
  start : Time
  step : Nat
  args : List CreatorArg := []
deriving DecidableEq, Repr

/-- Engine library NewCreator. -/
def NewCreator (filename : String) (start : Time) (step : Nat) : Creator :=
  { filename := filename, start := start, step := step }

/-- Engine library Creator.RRA. -/
def Creator.RRA (c : Creator) (cf : String) (xff : Float64) (steps rows : Int) : Creator :=
  { c with args := c.args ++ [CreatorArg.RRA cf xff steps rows] }

/-- Engine library Creator.DS. -/
def Creator.DS (c : Creator) (name compound : String) (heartbeat min max : Int) : Creator :=
  { c with args := c.args ++ [CreatorArg.DS name compound heartbeat min max] }

/-- A value handed to Update: the writer passes float64 and int values. -/
inductive Value where
  | float (x : Float64)
  | int (n : Int)
deriving DecidableEq, Repr

/-- A call into the engine. -/
inductive Op where
  | create (c : Creator) (overwrite : Bool)
  | update (filename : String) (t : Time) (values : List Value)
deriving DecidableEq, Repr

/-- A call into the engine together with its outcome. -/
structure Event where
  op : Op
  ok : Bool
deriving DecidableEq, Repr

/-- The output directory as the writer has acted on it: every engine call
made so far, in order, with its outcome. Which files exist is not recorded
here: it is the world's to say, through os.Stat. -/
structure Disk where
  log : List Event := []
deriving DecidableEq, Repr

/-- The world outside the writer, each part as a function of the history so
far: whether an engine call succeeds, what the wall clock reads, and what
os.Stat reports. The field notExist is the value of os.IsNotExist(err) after
os.Stat(path): true only when the stat fails because nothing is found at the
path. It is false when a file is found, under whatever name that file was
created, and also when the stat fails for another reason (a name too long, a
permission refused). Nothing is assumed about it. -/
structure Engine where
  succeeds : Disk → Op → Bool
  now : Disk → Time
  notExist : Disk → String → Bool

/-- Perform one engine call: the call and its outcome are recorded. -/
def Disk.call (E : Engine) (d : Disk) (op : Op) : Bool × Disk :=
  let ok := E.succeeds d op
  (ok, { log := d.log ++ [{ op := op, ok := ok }] })

/-! ## Package rrd: writer.go -/

/-- Constant MainFile. -/
def MainFile : String := "monitor.rrd"

/-- Constant DeviceFile. -/
def DeviceFile : String := "device.json"

/-- Constant SampleRate. -/
def SampleRate : Int := 1

/-- Constant Heartbeat. -/
def Heartbeat : Int := 2 * SampleRate

/-- Constant VMax. -/
def VMax : Int := 250

/-- Constant IMax (maximum for 200-amp service). -/
def IMax : Int := 200

/-- Constant WMax. -/
def WMax : Int := VMax * IMax

/-- Go type Writer. -/
structure Writer where
  directory : String
  lastReport : Time := {}
deriving DecidableEq, Repr

/-- What Write returns: nil, an error, or a run-time panic of the process. -/
inductive Outcome where
  | ok
  | createError (path : String)
  | updateError (path : String)
  | indexPanic
deriving DecidableEq, Repr

/-- Whether an outcome is a returned (non-nil) error. -/
def Outcome.isError : Outcome → Bool
  | Outcome.createError _ => true
  | Outcome.updateError _ => true
  | _ => false

/-- Function setCreatorParameters: the five retention tiers. -/
def setCreatorParameters (c : Creator) : Creator :=
  -- Every second for a week = 604800 seconds
  let c := c.RRA "AVERAGE" Float64.ninetenths 1 604800
  -- Every minute for a year = 525600 minutes
  let c := c.RRA "AVERAGE" Float64.half 60 525600
  -- Every hour for 30 years = 262800 hours
  let c := c.RRA "AVERAGE" Float64.half 3600 262800
  -- Hourly high and low for 30 years
  let c := c.RRA "MIN" Float64.half 3600 262800
  c.RRA "MAX" Float64.half 3600 262800

/-- The creator Write builds for the aggregate store (writer.go 92-111). -/
def mainCreator (mainFilePath : String) (now : Time) : Creator :=
  let c := setCreatorParameters (NewCreator mainFilePath now 1)
  let c := c.DS "v1" "GAUGE" Heartbeat (-VMax) VMax
  let c := c.DS "v2" "GAUGE" Heartbeat (-VMax) VMax
  let c := c.DS "w1" "GAUGE" Heartbeat (-WMax) WMax
  let c := c.DS "w2" "GAUGE" Heartbeat (-WMax) WMax
  let c := c.DS "wt" "GAUGE" Heartbeat (-WMax) WMax
  let c := c.DS "wd" "GAUGE" Heartbeat (-WMax) WMax
  let c := c.DS "wg" "GAUGE" Heartbeat (-WMax) WMax
  c.DS "hz" "GAUGE" Heartbeat 0 120

/-- The creator Write builds for a device store (writer.go 139-145). -/
def deviceCreator (deviceFilePath : String) (now : Time) : Creator :=
  let c := setCreatorParameters (NewCreator deviceFilePath now 1)
  let c := c.DS "w" "GAUGE" Heartbeat (-WMax) WMax
  let c := c.DS "i" "GAUGE" Heartbeat 0 IMax
  let c := c.DS "v" "GAUGE" Heartbeat (-VMax) VMax
  let c := c.DS "e" "GAUGE" Heartbeat 0 1000000000
  c.DS "ao_w" "GAUGE" Heartbeat (-WMax) WMax

/-- The path of the aggregate store: directory/MainFile. -/
def mainFilePath (w : Writer) : String := w.directory ++ "/" ++ MainFile

/-- The path of a device store: directory/ID.rrd. -/
def deviceFilePath (w : Writer) (id : String) : String := w.directory ++ "/" ++ id ++ ".rrd"

/-- The values of the aggregate update (writer.go 120-129), or none when one
of the four index expressions is out of range. -/
def mainValues (p : RealtimeUpdatePayload) : Option (List Value) :=
  match p.Voltage[0]?, p.Voltage[1]?, p.Channels[0]?, p.Channels[1]? with
  | some v0, some v1, some c0, some c1 =>
    some [Value.float v0, Value.float v1, Value.float c0, Value.float c1,
          Value.float p.TotalWatts, Value.int p.DeviceWatts, Value.int p.GridWatts,
          Value.float p.FrequencyHz]
  | _, _, _, _ => none

/-- The values of a device update (writer.go 153-171). -/
def deviceValues (device : Device) : List Value :=
  let statusDetails : StatusDetails :=
    match device.StatusDetails with
    | none => {}
    | some sd => sd
  let watts : Float64 :=
    match device.Watts with
    | none => Float64.zero
    | some x => x
  let ao_watts : Float64 :=
    match device.AlwaysOnWatts with
    | none => Float64.zero
    | some x => x
  [Value.float watts, Value.float statusDetails.Current, Value.float statusDetails.Voltage,
   Value.float statusDetails.EnergyUsed, Value.float ao_watts]

/-- One pass of the loop body over a device (writer.go 136-174): create the
store when its file does not exist, then update it. -/
def writeDevice (E : Engine) (w : Writer) (reportTime : Time) (d : Disk) (device : Device) :
    Outcome × Disk :=
  let path := deviceFilePath w device.ID
  let created : Bool × Disk :=
    if E.notExist d path then d.call E (Op.create (deviceCreator path (E.now d)) true)
    else (true, d)
  if created.1 then
    let updated := created.2.call E (Op.update path reportTime (deviceValues device))
    if updated.1 then (Outcome.ok, updated.2) else (Outcome.updateError path, updated.2)
  else (Outcome.createError path, created.2)

/-- The loop over the sample's devices (writer.go 135-175); it stops at the
first failure. -/
def writeDevices (E : Engine) (w : Writer) (reportTime : Time) :
    Disk → List Device → Outcome × Disk
  | d, [] => (Outcome.ok, d)
  | d, device :: rest =>
    match writeDevice E w reportTime d device with
    | (Outcome.ok, d1) => writeDevices E w reportTime d1 rest
    | (o, d1) => (o, d1)

/-- The throttle test of Write (writer.go 84-85). -/
def throttled (w : Writer) (update : RealtimeUpdate) : Bool :=
  decide ((Time.Unix update.Payload.EpochTimestamp).Sub w.lastReport < SampleRate * Second)

/-- Method Writer.Write (writer.go 81-179). The console message printed
before a creation is not modelled. -/
def Write (E : Engine) (w : Writer) (d : Disk) (update : RealtimeUpdate) :
    Outcome × Writer × Disk :=
  let mainFilePath := mainFilePath w
  let reportTime := Time.Unix update.Payload.EpochTimestamp
  if throttled w update then (Outcome.ok, w, d)
  else
    -- Ensure the main RRD file exists
    let created : Bool × Disk :=
      if E.notExist d mainFilePath then d.call E (Op.create (mainCreator mainFilePath (E.now d)) true)
      else (true, d)
    if created.1 then
      -- Update the main RRD file
      match mainValues update.Payload with
      | none => (Outcome.indexPanic, w, created.2)
      | some values =>
        let updated := created.2.call E (Op.update mainFilePath reportTime values)
        if updated.1 then
          -- Update the device RRD files
          match writeDevices E w reportTime updated.2 update.Payload.Devices with
          | (Outcome.ok, d3) => (Outcome.ok, { w with lastReport := reportTime }, d3)
          | (o, d3) => (o, w, d3)
        else (Outcome.updateError mainFilePath, w, updated.2)
    else (Outcome.createError mainFilePath, w, created.2)

/-- Calling Write on each sample of a stream in turn, as the control loop
does: the first call that does not return nil ends the run (the loop aborts
the process on an archival error, and a panic is never recovered). -/
def writeAll (E : Engine) : Writer → Disk → List RealtimeUpdate → Outcome × Writer × Disk
  | w, d, [] => (Outcome.ok, w, d)
  | w, d, u :: rest =>
    let r := Write E w d u
    if r.1 = Outcome.ok then writeAll E r.2.1 r.2.2 rest else r

/-! ## Vocabulary for the writer's theorems -/

/-- The events of a run of engine calls that stopped at its first failure:
the last call failed and every call before it succeeded. -/
def StoppedAtFailure (evs : List Event) : Prop :=
  ∃ pre e, evs = pre ++ [e] ∧ e.ok = false ∧ ∀ x ∈ pre, x.ok = true

/-- The successful update of a device store at a report time. -/
def deviceUpdateEvent (w : Writer) (reportTime : Time) (device : Device) : Event :=
  { op := Op.update (deviceFilePath w device.ID) reportTime (deviceValues device), ok := true }

/-- The successful update of the aggregate store at a report time. -/
def mainUpdateEvent (w : Writer) (reportTime : Time) (values : List Value) : Event :=
  { op := Op.update (mainFilePath w) reportTime values, ok := true }

/-- Whether an event is a run of the store-creation path for a file. -/
def Event.isCreationOf (path : String) (e : Event) : Bool :=
  match e.op with
  | Op.create c _ => decide (c.filename = path)
  | Op.update _ _ _ => false

/-- How many times the store-creation path ran for a file in a history. -/
def creations (path : String) (log : List Event) : Nat :=
  log.countP (Event.isCreationOf path)

/-- The samples a stream keeps when only the first sample of each
one-second bucket is written: a sample is kept when no earlier sample of the
stream carries the same epoch second (seen lists the seconds met so far). -/
def firstOfBucketFrom (seen : List Int) : List RealtimeUpdate → List RealtimeUpdate
  | [] => []
  | u :: rest =>
    if u.Payload.EpochTimestamp ∈ seen then firstOfBucketFrom seen rest
    else u :: firstOfBucketFrom (u.Payload.EpochTimestamp :: seen) rest

/-- The first sample of each one-second bucket of a stream. -/
def firstOfBucket (samples : List RealtimeUpdate) : List RealtimeUpdate :=
  firstOfBucketFrom [] samples

/-- Whether a history holds a successful creation through a path. -/
def createdOk (path : String) (log : List Event) : Bool :=
  log.any (fun e => e.ok && Event.isCreationOf path e)

/-- An engine on which every call succeeds, with a fixed clock reading, over
a directory that is empty at the start and in which every path names a file
of its own: os.Stat never fails otherwise, and reports a path as not existing
until a creation through that very path has succeeded. -/
def Engine.allSucceed (clock : Time) : Engine :=
  { succeeds := fun _ _ => true, now := fun _ => clock,
    notExist := fun d path => !(createdOk path d.log) }

/-- The file at a path is found by os.Stat now and after any further engine
calls. -/
def Engine.keepsFinding (E : Engine) (d : Disk) (path : String) : Prop :=
  ∀ d1 : Disk, d.log <+: d1.log → E.notExist d1 path = false

/-- The report time of a successful update of a store, none for any other
engine call. A store is a file: file tells which file a path names, and the
update counts when its path names the store. -/
def Event.updateTimeOf {F : Type} [DecidableEq F] (file : String → F) (store : F)
    (e : Event) : Option Time :=
  match e.op with
  | Op.update f t _ => if e.ok = true ∧ file f = store then some t else none
  | Op.create _ _ => none

/-- The times at which a store was updated in a history, in call order,
through whatever path. -/
def updateTimes {F : Type} [DecidableEq F] (file : String → F) (store : F)
    (log : List Event) : List Time :=
  log.filterMap (Event.updateTimeOf file store)

/-- Instants listed in strictly increasing order. -/
def StrictlyIncreasing (ts : List Time) : Prop :=
  ts.Pairwise (fun a b => a.nanos < b.nanos)

instance (ts : List Time) : Decidable (StrictlyIncreasing ts) := by
  unfold StrictlyIncreasing
  infer_instance
/-! ## Package sense: credentials (auth_response.go) -/

/-- Go type MonitorAttributes. -/
structure MonitorAttributes where
  ID : Int := 0
  Name : String := ""
  State : String := ""
  Cost : Float64 := Float64.zero
  SellBackRate : Float64 := Float64.zero
  UserSetCost : Bool := false
  CycleStart : Int := 0
  BasementType : String := ""
  HomeSizeType : String := ""
  HomeType : String := ""
  NumberOfOccupants : String := ""
  OccupancyType : String := ""
  YearBuiltType : String := ""
  BasementTypeKey : Option String := none
  HomeSizeTypeKey : Option String := none
  HomeTypeKey : Option String := none
  OccupancyTypeKey : Option String := none
  YearBuiltTypeKey : Option String := none
  Address : Option String := none
  City : Option String := none
  PostalCode : String := ""
  ElectricityCost : Option String := none
  ShowCost : Bool := false
  TOUEnabled : Bool := false
  SolarTOUEnabled : Bool := false
  PowerRegion : Option String := none
  ToGridThreshold : Option String := none
  Panel : Option String := none
  HomeInfoSurveyProgress : String := ""
  DeviceSurveyProgress : String := ""
  UserSetSellBackRate : Bool := false
deriving DecidableEq, Repr

/-- Go type MonitorInfo. -/
structure MonitorInfo where
  ID : Int := 0
  DateCreated : String := ""
  SerialNumber : String := ""
  TimeZone : String := ""
  SolarConnected : Bool := false
  SolarConfigured : Bool := false
  Online : Bool := false
  Attributes : MonitorAttributes := {}
  SignalCheckCompletedTime : String := ""
  DataSharing : List String := []
  EthernetSupported : Bool := false
  PowerOverEthernetSupported : Bool := false
  AuxIgnore : Bool := false
  AuxPort : String := ""
  HardwareType : String := ""
  ZigbeeSupported : Bool := false
deriving DecidableEq, Repr

/-- Go map[string]map[string]bool, as association lists. -/
abbrev BoolTable : Type := List (String × List (String × Bool))

/-- Go type TimelineSettings. -/
structure TimelineSettings where
  ShowDevices : BoolTable := []
deriving DecidableEq, Repr

/-- Go type AlertSettings. -/
structure AlertSettings where
  Enabled : BoolTable := []
deriving DecidableEq, Repr

/-- Go type SettingsDetails (NotificationSettings is a map of the same shape). -/
structure SettingsDetails where
  Timeline : TimelineSettings := {}
  Alerts : AlertSettings := {}
  Notifications : BoolTable := []
  LabsEnabled : Bool := false
  HideTrendsCarbonCard : Bool := false
deriving DecidableEq, Repr

/-- Go type UserSettings. -/
structure UserSettings where
  UserID : Int := 0
  Settings : SettingsDetails := {}
  Version : Int := 0
deriving DecidableEq, Repr

/-- Go type AuthResponse: the credential the client holds. -/
structure AuthResponse where
  Authorized : Bool := false
  AccountID : Int := 0
  UserID : Int := 0
  AccessToken : String := ""
  Roles : String := ""
  RefreshToken : String := ""
  BridgeServer : String := ""
  DateCreated : String := ""
  TotpEnabled : Bool := false
  Settings : UserSettings := {}
  Monitors : List MonitorInfo := []
  Expires : Time := {}
deriving DecidableEq, Repr

/-- Go type Devices: the device registry. -/
structure Devices where
  Devices : List Device := []
  DeviceDataChecksum : String := ""
deriving DecidableEq, Repr

/-! ## The JSON decoder and the HTTP exchange, as seen by the client

The decoder and the HTTP client are library code. A received body is
described by what decoding it stores and whether decoding returns an
error; a reply is a transport failure or a response. -/

/-- What a JSON object from the authentication or renewal endpoint makes the
decoder store into an AuthResponse. A field is none when the object has no
usable member for it (no member, a null for a scalar, or a member the decoder
skipped). A scalar member stores its own value. A member for one of the two
composite fields is decoded into the value already there, so it is carried
as a function of that value. -/
structure AuthDoc where
  Authorized : Option Bool := none
  AccountID : Option Int := none
  UserID : Option Int := none
  AccessToken : Option String := none
  Roles : Option String := none
  RefreshToken : Option String := none
  BridgeServer : Option String := none
  DateCreated : Option String := none
  TotpEnabled : Option Bool := none
  Settings : Option (UserSettings → UserSettings) := none
  Monitors : Option (List MonitorInfo → List MonitorInfo) := none
  Expires : Option Time := none

/-- Storing the members of a decoded object into an existing AuthResponse:
a field the object does not set keeps its value. -/
def AuthDoc.store (doc : AuthDoc) (a : AuthResponse) : AuthResponse :=
  { Authorized := match doc.Authorized with | some v => v | none => a.Authorized,
    AccountID := match doc.AccountID with | some v => v | none => a.AccountID,
    UserID := match doc.UserID with | some v => v | none => a.UserID,
    AccessToken := match doc.AccessToken with | some v => v | none => a.AccessToken,
    Roles := match doc.Roles with | some v => v | none => a.Roles,
    RefreshToken := match doc.RefreshToken with | some v => v | none => a.RefreshToken,
    BridgeServer := match doc.BridgeServer with | some v => v | none => a.BridgeServer,
    DateCreated := match doc.DateCreated with | some v => v | none => a.DateCreated,
    TotpEnabled := match doc.TotpEnabled with | some v => v | none => a.TotpEnabled,
    Settings := match doc.Settings with | some f => f a.Settings | none => a.Settings,
    Monitors := match doc.Monitors with | some f => f a.Monitors | none => a.Monitors,
    Expires := match doc.Expires with | some v => v | none => a.Expires }

/-- A body received from the authentication or renewal endpoint. -/
inductive AuthBody where
  /-- Not a complete JSON value: the decoder returns an error and stores nothing. -/
  | invalid
  /-- The JSON value null: the decoder sets the target pointer to nil. -/
  | null
  /-- A JSON object (or another value, with an empty doc and mismatch set):
  the members of doc are stored; mismatch tells that the decoder returns an
  error all the same (a member of the wrong type, an unreadable timestamp). -/
  | object (doc : AuthDoc) (mismatch : Bool)

/-- The call json.NewDecoder(body).Decode(&c.authResponse): the new value of
the pointer, and whether an error is returned. -/
def decodeAuth (body : AuthBody) (target : Option AuthResponse) : Option AuthResponse × Bool :=
  match body with
  | AuthBody.invalid => (target, true)
  | AuthBody.null => (none, false)
  | AuthBody.object doc mismatch =>
    (some (doc.store (match target with | some a => a | none => {})), mismatch)

/-- The outcome of c.client.Do for the authentication or renewal request.
The status code of the response is not looked at by the client. -/
inductive AuthReply where
  | transportError
  | response (body : AuthBody)

/-- The body of a device-overview response with status 200. -/
inductive DevicesContent where
  /-- Reading the body failed (io.ReadAll). -/
  | unreadable
  /-- The body was read; decoded is what json.Unmarshal leaves in a fresh
  Devices value, err whether it returns an error. -/
  | json (decoded : Devices) (err : Bool)

/-- The outcome of c.client.Do for the device-overview request. -/
inductive DevicesReply where
  | transportError
  | response (status : Nat) (content : DevicesContent)

/-- A request handed to the HTTP client. -/
inductive Request where
  | authenticate (email password : String)
  | renew (user_id : Int) (refresh_token : String)
  | deviceOverview (monitorID : Int) (accessToken : String)
deriving DecidableEq, Repr

/-! ## Package sense: client.go -/

/-- The errors the client returns: the five package-level error values, and
the errors of the libraries it calls. -/
inductive Error where
  | ErrAuthenticationFailed
  | ErrNotAuthenticated
  | ErrNoDevicesLoaded
  | ErrDeviceNotFound
  | ErrFailedToLoadDevices (status : Nat)
  | transport
  | decode
  | read
  | connect
  | EOF
deriving DecidableEq, Repr

/-- How a method ends: it returns a value and an error (nil as none), or the
process panics (a nil dereference or an index out of range). -/
inductive Ret (α : Type) where
  | returned (value : α) (err : Option Error)
  | panicked
deriving DecidableEq, Repr

/-- The error a method returned, none for nil and for a panic. -/
def Ret.err {α : Type} : Ret α → Option Error
  | Ret.returned _ e => e
  | Ret.panicked => none

/-- Constant defaultTokenExpiry: 24 hours, in nanoseconds. -/
def defaultTokenExpiry : Int := 24 * (3600 * Second)

/-- Constant watchdogInterval: 5 seconds, in nanoseconds. -/
def watchdogInterval : Int := 5 * Second

/-- Go type Client: the fields the sequential code reads and writes. The
connection and the watchdog timer are kept as whether the handle is set; the
HTTP client, the mutex and the delivery channel are supplied from outside. -/
structure Client where
  clientId : String := ""
  authResponse : Option AuthResponse := none
  devices : Option Devices := none
  conn : Bool := false
  watchdog : Bool := false
deriving DecidableEq, Repr

/-- The guard c.authResponse == nil || !c.authResponse.Authorized. -/
def Client.notAuthenticated (c : Client) : Bool :=
  match c.authResponse with
  | none => true
  | some a => !a.Authorized

/-- Method Client.loadDevices (client.go 170-220). -/
def Client.loadDevices (c : Client) (reply : DevicesReply) : Ret Unit × Client × List Request :=
  match c.authResponse with
  | none => (Ret.returned () (some Error.ErrNotAuthenticated), c, [])
  | some a =>
    if !a.Authorized then (Ret.returned () (some Error.ErrNotAuthenticated), c, [])
    else
      match a.Monitors with
      | [] => (Ret.panicked, c, [])
      | m :: _ =>
        let req := Request.deviceOverview m.ID a.AccessToken
        match reply with
        | DevicesReply.transportError => (Ret.returned () (some Error.transport), c, [req])
        | DevicesReply.response status content =>
          if status ≠ 200 then
            (Ret.returned () (some (Error.ErrFailedToLoadDevices status)), c, [req])
          else
            match content with
            | DevicesContent.unreadable => (Ret.returned () (some Error.read), c, [req])
            | DevicesContent.json decoded err =>
              if err then
                (Ret.returned () (some Error.decode), { c with devices := some decoded }, [req])
              else (Ret.returned () none, { c with devices := some decoded }, [req])

/-- Method Client.Login (client.go 91-115): the result, the client
afterwards, and the requests sent. now is the reading of time.Now(). -/
def Client.Login (c : Client) (username password : String) (now : Time)
    (authReply : AuthReply) (devicesReply : DevicesReply) : Ret Unit × Client × List Request :=
  let req := Request.authenticate username password
  match authReply with
  | AuthReply.transportError => (Ret.returned () (some Error.transport), c, [req])
  | AuthReply.response body =>
    let decoded := decodeAuth body (some { Expires := now.Add defaultTokenExpiry })
    let c1 : Client := { c with authResponse := decoded.1 }
    if decoded.2 then (Ret.returned () (some Error.decode), c1, [req])
    else
      match c1.authResponse with
      | none => (Ret.panicked, c1, [req])
      | some a =>
        if !a.Authorized then (Ret.returned () (some Error.ErrAuthenticationFailed), c1, [req])
        else
          let r := c1.loadDevices devicesReply
          (r.1, r.2.1, req :: r.2.2)

/-- Method Client.Refresh (client.go 117-147): the returned time and error,
the client afterwards, and the requests sent. -/
def Client.Refresh (c : Client) (now : Time) (reply : AuthReply) :
    Ret Time × Client × List Request :=
  match c.authResponse with
  | none => (Ret.returned {} (some Error.ErrNotAuthenticated), c, [])
  | some a =>
    if !a.Authorized then (Ret.returned {} (some Error.ErrNotAuthenticated), c, [])
    else
      let req := Request.renew a.UserID a.RefreshToken
      match reply with
      | AuthReply.transportError => (Ret.returned {} (some Error.transport), c, [req])
      | AuthReply.response body =>
        -- We overwrite the authResponse with the new one, leaving any fields
        -- not present in the new response as-is
        let decoded := decodeAuth body (some { a with Expires := now.Add defaultTokenExpiry })
        let c1 : Client := { c with authResponse := decoded.1 }
        if decoded.2 then (Ret.returned {} (some Error.decode), c1, [req])
        else
          match c1.authResponse with
          | none => (Ret.panicked, c1, [req])
          | some a1 =>
            if !a1.Authorized then
              (Ret.returned {} (some Error.ErrAuthenticationFailed), c1, [req])
            else (Ret.returned a1.Expires none, c1, [req])

/-- Method Client.TokenExpiry (client.go 149-154). -/
def Client.TokenExpiry (c : Client) : Time :=
  match c.authResponse with
  | none => {}
  | some a => if !a.Authorized then {} else a.Expires

/-- Method Client.Close (client.go 156-168). -/
def Client.Close (c : Client) : Client :=
  { c with conn := false, watchdog := false }

/-- Method Client.GetDevices (client.go 222-227). -/
def Client.GetDevices (c : Client) : Except Error Devices :=
  match c.devices with
  | none => Except.error Error.ErrNoDevicesLoaded
  | some d => Except.ok d

/-- Method Devices.GetDeviceByID (devices.go 124-131): the address of the
loop variable is returned, so the caller gets a copy of the entry. -/
def Devices.GetDeviceByID (d : SenseLogger.Devices) (id : String) : Option Device :=
  d.Devices.find? (fun device => device.ID == id)

/-- Method Client.GetDeviceByID (client.go 229-238). -/
def Client.GetDeviceByID (c : Client) (id : String) : Except Error Device :=
  match c.devices with
  | none => Except.error Error.ErrNoDevicesLoaded
  | some d =>
    match d.GetDeviceByID id with
    | none => Except.error Error.ErrDeviceNotFound
    | some device => Except.ok device

/-- Method Client.startRealtimeUpdates (client.go 381-451), up to the start
of the reader: dialOk tells whether the handshake succeeds. -/
def Client.startRealtimeUpdates (c : Client) (dialOk : Bool) : Ret Unit × Client :=
  match c.authResponse with
  | none => (Ret.returned () (some Error.ErrNotAuthenticated), c)
  | some a =>
    if !a.Authorized then (Ret.returned () (some Error.ErrNotAuthenticated), c)
    else
      match a.Monitors with
      | [] => (Ret.panicked, c)
      | _ :: _ =>
        if dialOk then (Ret.returned () none, { c with conn := true })
        else (Ret.returned () (some Error.connect), { c with conn := false })

/-- One pass of the merge loop of GetRealtimeUpdate (client.go 310-324) over
a record of the sample: the record the sample holds afterwards. -/
def Client.mergeRecord (c : Client) (record : Device) : Device :=
  if record.ID = "" then record
  else
    match c.GetDeviceByID record.ID with
    | Except.error _ => record
    | Except.ok device =>
      -- Update the device with the latest data from the realtime update
      { device with
        Attrs := record.Attrs,
        Watts := record.Watts,
        Cirumference := record.Cirumference,
        StatusDetails := record.StatusDetails,
        AlwaysOnState := record.AlwaysOnState,
        AlwaysOnWatts := record.AlwaysOnWatts }

/-- Method Client.GetRealtimeUpdate (client.go 292-328): dialOk is the
outcome of the handshake when a connection has to be opened, received what
the delivery channel yields (none when it is closed). -/
def Client.GetRealtimeUpdate (c : Client) (dialOk : Bool) (received : Option RealtimeUpdate) :
    Ret (Option RealtimeUpdate) × Client :=
  if c.notAuthenticated then (Ret.returned none (some Error.ErrNotAuthenticated), c)
  else
    let started : Ret Unit × Client :=
      if !c.conn then
        match c.startRealtimeUpdates dialOk with
        | (Ret.returned () none, c1) => (Ret.returned () none, { c1 with watchdog := true })
        | r => r
      else (Ret.returned () none, c)
    match started with
    | (Ret.panicked, c1) => (Ret.panicked, c1)
    | (Ret.returned () (some e), c1) => (Ret.returned none (some e), c1)
    | (Ret.returned () none, c1) =>
      match received with
      | none => (Ret.returned none (some Error.EOF), c1)
      | some update =>
        (Ret.returned (some { update with
            Payload := { update.Payload with
              Devices := update.Payload.Devices.map c1.mergeRecord } }) none, c1)


/-- Calling Refresh again and again, one call for each clock reading and
reply, as the control loop does on its own client: what each call returned
and the requests it sent, in order, and the client at the end. A panic ends
the run. -/
def Client.refreshAll (c : Client) :
    List (Time × AuthReply) → List (Ret Time × List Request) × Client
  | [] => ([], c)
  | call :: rest =>
    let r := c.Refresh call.1 call.2
    match r.1 with
    | Ret.panicked => ([(r.1, r.2.2)], r.2.1)
    | Ret.returned _ _ =>
      let rs := Client.refreshAll r.2.1 rest
      ((r.1, r.2.2) :: rs.1, rs.2)
/-! ## Package rrd: the device name table (writer.go 46-79)

The table is the file directory/DeviceFile, a JSON object from device id to
display name. The outcomes of os.Open, os.Create and Encode are given from
outside; the content of the file is given by what decoding it stores. -/

/-- A value of the name table, which is a Go map[string]any: a string, or any
other JSON value (kept by its text). -/
inductive JValue where
  | str (s : String)
  | other (json : String)
deriving DecidableEq, Repr

/-- A Go map[string]any, as its lookup: none for a key the map does not hold. -/
abbrev NameTable : Type := String → Option JValue

/-- The empty map make(map[string]any). -/
def NameTable.empty : NameTable := fun _ => none

/-- What decoding an opened name-table file gives. -/
inductive NameFileContent where
  /-- Decode returns an error: the file holds no complete JSON value (an empty
  file too), holds a value that is not an object, or cannot be read. -/
  | undecodable
  /-- The JSON value null: Decode sets the map to nil. -/
  | null
  /-- A JSON object: its members are stored into the map. -/
  | object (T : NameTable)

/-- The outcome of os.Open on the name-table file. -/
inductive Opened where
  /-- The file is absent. -/
  | notExist
  /-- The call fails with any other error. -/
  | failed
  /-- The file is opened. -/
  | file (content : NameFileContent)

/-- What UpdateDeviceNames leaves of the name-table file. -/
inductive Written where
  /-- The file is as it was: os.Create was not reached, or failed. -/
  | untouched
  /-- The file was emptied by os.Create and Encode failed. -/
  | truncated
  /-- Encode wrote the map: none for the nil map (the text null). -/
  | table (T : Option NameTable)

/-- What UpdateDeviceNames returns: nil, one of its three errors, or the
run-time panic of an assignment to an entry of a nil map. -/
inductive NamesOutcome where
  | ok
  | decodeError
  | createError
  | encodeError
  | nilMapPanic
deriving DecidableEq, Repr

/-- The assignment names[device.ID] = device.Name. -/
def upsertName (names : NameTable) (device : Device) : NameTable :=
  fun id => if id = device.ID then some (JValue.str device.Name) else names id

/-- The loop over the devices (writer.go 61-63) on a map that may be nil:
none when an assignment panics. -/
def upsertNames (names : Option NameTable) (devices : List Device) : Option (Option NameTable) :=
  match names, devices with
  | none, [] => some none
  | none, _ :: _ => none
  | some T, _ => some (some (devices.foldl upsertName T))

/-- The map after the read block (writer.go 50-58): none when Decode returns
an error. Any failure of os.Open leaves the map empty. -/
def loadNames (opened : Opened) : Option (Option NameTable) :=
  match opened with
  | Opened.file NameFileContent.undecodable => none
  | Opened.file NameFileContent.null => some none
  | Opened.file (NameFileContent.object T) => some (some T)
  | Opened.notExist => some (some NameTable.empty)
  | Opened.failed => some (some NameTable.empty)

/-- Method Writer.UpdateDeviceNames (writer.go 46-79): what it returns and
what it leaves of the file. createOk and encodeOk tell whether os.Create and
Encode succeed. -/
def UpdateDeviceNames (devices : List Device) (opened : Opened) (createOk encodeOk : Bool) :
    NamesOutcome × Written :=
  -- Read the existing JSON file
  match loadNames opened with
  | none => (NamesOutcome.decodeError, Written.untouched)
  | some names =>
    -- Update the names map with device IDs and names
    match upsertNames names devices with
    | none => (NamesOutcome.nilMapPanic, Written.untouched)
    | some names1 =>
      -- Write the updated names map back to the JSON file
      if createOk then
        if encodeOk then (NamesOutcome.ok, Written.table names1)
        else (NamesOutcome.encodeError, Written.truncated)
      else (NamesOutcome.createError, Written.untouched)

/-- A table overlaid with a device list, in the words of the specification:
an id that occurs in the list takes the name of its last occurrence, every
other id keeps what the table holds. -/
def overlayNames (T : NameTable) (D : List Device) : NameTable :=
  fun id =>
    match (D.filter (fun d => d.ID = id)).getLast? with
    | some d => some (JValue.str d.Name)
    | none => T id

/-! ## Package sense: the stream manager as a step model

The steps are the critical sections of client.go that touch the connection,
the watchdog timer and the delivery channel: opening the connection in
GetRealtimeUpdate (296-304), one pass of the reader loop (422-447), the
reader's deferred teardown (415-421), the watchdog callback (302), Close
(156-168), and the receive of GetRealtimeUpdate (305-308). Connections and
timers are numbered in the order they are made. -/

/-- What the reader gets from one ReadMessage followed by json.Unmarshal. -/
inductive Inbound where
  /-- A frame for which json.Unmarshal returns an error. -/
  | malformed
  /-- A frame that decodes. -/
  | decoded (update : RealtimeUpdate)
deriving DecidableEq, Repr

/-- The run-time panics of the stream manager. -/
inductive StreamPanic where
  /-- A method is called on the nil connection handle. -/
  | nilConn
  /-- Reset is called on the nil watchdog timer. -/
  | nilWatchdog
  /-- The built-in close is applied to a closed channel. -/
  | closeOfClosedChannel
  /-- The built-in close is applied to the nil channel. -/
  | closeOfNilChannel
  /-- A send on a closed channel. -/
  | sendOnClosedChannel
deriving DecidableEq, Repr

/-- The state of the stream manager. -/
structure Stream where
  /-- Field c.conn: the number of the connection it points to, none for nil. -/
  conn : Option Nat := none
  /-- How many connections have been dialled. -/
  dialed : Nat := 0
  /-- The connections on which Close has been called. -/
  closedConns : List Nat := []
  /-- Field c.watchdog: the number of the timer it points to, none for nil. -/
  watchdog : Option Nat := none
  /-- How many timers have been made. -/
  timersMade : Nat := 0
  /-- The timers that will fire unless stopped. -/
  armed : List Nat := []
  /-- Whether field c.updates is set (it is nil before the first connection). -/
  hasQueue : Bool := false
  /-- The buffer of the channel c.updates. -/
  queue : List RealtimeUpdate := []
  /-- Whether the channel c.updates is closed. -/
  queueClosed : Bool := false
  /-- The reader goroutines, each by the connection its ReadMessage is on. -/
  readers : List Nat := []
  /-- The samples GetRealtimeUpdate has received from the channel so far. -/
  delivered : List RealtimeUpdate := []
  /-- How many times GetRealtimeUpdate found the channel closed and empty. -/
  endOfStream : Nat := 0
  /-- The panic that ended the process, if any. -/
  panic : Option StreamPanic := none
deriving DecidableEq, Repr

/-- The steps of the stream manager. -/
inductive Step where
  /-- GetRealtimeUpdate finds c.conn nil and opens a connection. -/
  | connect
  /-- The reader on a connection receives a frame and handles it. -/
  | receive (reader : Nat) (frame : Inbound)
  /-- The ReadMessage of a reader fails and its deferred teardown runs. -/
  | teardown (reader : Nat)
  /-- A watchdog timer fires and its callback calls Close. -/
  | watchdogFires (timer : Nat)
  /-- Close is called. -/
  | close
  /-- The receive of GetRealtimeUpdate completes. -/
  | take
deriving DecidableEq, Repr

/-- The capacity of the delivery channel (client.go 386). -/
def queueCapacity : Nat := 1024

/-- The body of Close (client.go 157-166). -/
def Stream.closeBody (s : Stream) : Stream :=
  let s1 : Stream :=
    match s.conn with
    | some k => { s with closedConns := k :: s.closedConns, conn := none }
    | none => s
  match s1.watchdog with
  | some t => { s1 with armed := s1.armed.erase t, watchdog := none }
  | none => s1

/-- The deferred teardown of a reader (client.go 415-421): close(c.updates),
c.conn.Close(), c.conn = nil. -/
def Stream.teardownBody (s : Stream) (reader : Nat) : Stream :=
  let s1 : Stream := { s with readers := s.readers.erase reader }
  if !s1.hasQueue then { s1 with panic := some StreamPanic.closeOfNilChannel }
  else if s1.queueClosed then { s1 with panic := some StreamPanic.closeOfClosedChannel }
  else
    let s2 : Stream := { s1 with queueClosed := true }
    match s2.conn with
    | none => { s2 with panic := some StreamPanic.nilConn }
    | some k => { s2 with closedConns := k :: s2.closedConns, conn := none }

/-- One pass of the reader loop on a frame it has read (client.go 431-446):
none when the send blocks. -/
def Stream.handleFrame (s : Stream) (frame : Inbound) : Option Stream :=
  match frame with
  | Inbound.malformed => some s
  | Inbound.decoded update =>
    if update.Type_ ≠ "realtime_update" then some s
    else
      let s1 : Stream :=
        if update.Payload.Devices.length > 0 then
          match s.watchdog with
          | none => { s with panic := some StreamPanic.nilWatchdog }
          | some t => { s with armed := if t ∈ s.armed then s.armed else t :: s.armed }
        else s
      if s1.panic.isSome then some s1
      else if !s1.hasQueue then none
      else if s1.queueClosed then some { s1 with panic := some StreamPanic.sendOnClosedChannel }
      else if s1.queue.length < queueCapacity then some { s1 with queue := s1.queue ++ [update] }
      else none

/-- One step of the stream manager: none when the step cannot be taken in
this state (the goroutine is blocked, does not exist, or the process has
panicked). A reader whose connection is not closed is reading the connection
the handle points to, every other connection having been closed. -/
def Stream.step (s : Stream) (st : Step) : Option Stream :=
  if s.panic.isSome then none
  else
    match st with
    | Step.connect =>
      match s.conn with
      | some _ => none
      | none =>
        some { s with
          hasQueue := true, queue := [], queueClosed := false,
          conn := some s.dialed, dialed := s.dialed + 1,
          readers := s.readers ++ [s.dialed],
          watchdog := some s.timersMade, armed := s.timersMade :: s.armed,
          timersMade := s.timersMade + 1 }
    | Step.receive reader frame =>
      if reader ∈ s.readers ∧ reader ∉ s.closedConns then s.handleFrame frame else none
    | Step.teardown reader =>
      if reader ∈ s.readers then some (s.teardownBody reader) else none
    | Step.watchdogFires timer =>
      if timer ∈ s.armed then some ({ s with armed := s.armed.erase timer } : Stream).closeBody
      else none
    | Step.close => some s.closeBody
    | Step.take =>
      match s.queue with
      | update :: rest => some { s with queue := rest, delivered := s.delivered ++ [update] }
      | [] => if s.queueClosed then some { s with endOfStream := s.endOfStream + 1 } else none

/-- A run of steps from a state: none when some step cannot be taken. -/
def Stream.run (s : Stream) : List Step → Option Stream
  | [] => some s
  | st :: rest => (s.step st).bind (fun s1 => s1.run rest)

/-- The frames the readers received in a run, in arrival order. -/
def framesOf : List Step → List Inbound
  | [] => []
  | Step.receive _ frame :: rest => frame :: framesOf rest
  | _ :: rest => framesOf rest

/-- The sample a frame carries, in the words of the specification: the frame
decodes and its type is realtime_update. -/
def sampleOf : Inbound → Option RealtimeUpdate
  | Inbound.decoded update => if update.Type_ = "realtime_update" then some update else none
  | Inbound.malformed => none

/-- The stream manager of a client that has just opened its first connection. -/
def Stream.connected : Stream :=
  { conn := some 0, dialed := 1, watchdog := some 0, timersMade := 1, armed := [0],
    hasQueue := true, readers := [0] }

/-- The first connection is up: its reader runs, nothing has closed it, the
watchdog timer and the channel are set, the channel is open, and the process
has not panicked. -/
def Stream.streaming (s : Stream) : Prop :=
  s.panic = none ∧ s.conn = some 0 ∧ 0 ∈ s.readers ∧ 0 ∉ s.closedConns ∧
  s.watchdog ≠ none ∧ s.hasQueue = true ∧ s.queueClosed = false

/-! ## Package sense: the streaming client identifier (client.go 84-89, 453-464) -/

/-- The constant charset of generateRandomClientID; its characters are one
byte each, so bytes and characters coincide. -/
def charset : String := "abcdefghijklmnopqrstuvwxyz0123456789"

/-- The loop of generateRandomClientID from call number i of rand.Read on,
for n more characters: none when a read fails or an index is out of range.
random gives the byte each call yields, none when the call fails; the modulus
is byte(len(charset)). -/
def randomChars (random : Nat → Option Nat) : Nat → Nat → Option (List Char)
  | _, 0 => some []
  | i, n + 1 =>
    match random i with
    | none => none
    | some b =>
      match charset.data[(b % 256) % (charset.length % 256)]? with
      | none => none
      | some ch => (randomChars random (i + 1) n).map (fun rest => ch :: rest)

/-- Function generateRandomClientID (client.go 453-464): none when it panics
(a negative length, a failed read of the random source, an index out of
range). -/
def generateRandomClientID (length : Int) (random : Nat → Option Nat) : Option String :=
  if length < 0 then none else (randomChars random 0 length.toNat).map String.mk

/-- Function NewClient (client.go 84-89). -/
def NewClient (random : Nat → Option Nat) : Option Client :=
  (generateRandomClientID 128 random).map (fun id => { clientId := id })

/-- A lowercase letter a-z or a digit 0-9. -/
def isLowerAlnum (ch : Char) : Prop :=
  ('a' ≤ ch ∧ ch ≤ 'z') ∨ ('0' ≤ ch ∧ ch ≤ '9')

instance (ch : Char) : Decidable (isLowerAlnum ch) := by
  unfold isLowerAlnum
  infer_instance

/-! ## Concrete scenarios -/

/-- An engine on which every call succeeds, over an empty directory in which
every path names a file of its own; the clock reads a fixed time. -/
def exampleEngine : Engine := Engine.allSucceed (Time.Unix 1747531300)

/-- A stricter world over the same directory. An update succeeds only on a
file that has been created, and only at a time later than every earlier
update through the same path. The creation of the file createRefused fails.
On the path statRefused os.Stat fails with an error other than not-exist.
The empty string stands for no such path. -/
def strictEngine (statRefused createRefused : String) : Engine :=
  { succeeds := fun d op =>
      match op with
      | Op.create c _ => c.filename != createRefused
      | Op.update f t _ =>
        createdOk f d.log &&
          (updateTimes (fun p => p) f d.log).all (fun t0 => decide (t0.nanos < t.nanos)),
    now := fun _ => Time.Unix 1747531300,
    notExist := fun d path => path != statRefused && !(createdOk path d.log) }

/-- The writer NewWriter returns for the directory out. -/
def freshWriter : Writer := { directory := "out" }

/-- A writer that has accepted a sample at epoch 1747531244. -/
def busyWriter : Writer := { directory := "out", lastReport := Time.Unix 1747531244 }

/-- The float64 150.0. -/
def watts150 : Float64 := ⟨0x4062C00000000000⟩

/-- The float64 120.0. -/
def volts120 : Float64 := ⟨0x405E000000000000⟩

/-- The sample of the end-to-end scenario: epoch T = 1747531244, device A at
150 W, device B absent, device C present with its wattage omitted. -/
def sampleT : RealtimeUpdate :=
  { Payload :=
      { Voltage := [volts120, volts120], Channels := [watts150, Float64.zero],
        TotalWatts := watts150, DeviceWatts := 150, GridWatts := 150,
        EpochTimestamp := 1747531244,
        Devices := [{ ID := "A", Name := "Kettle", Watts := some watts150 },
                    { ID := "C", Name := "Fridge" }] },
    Type_ := "realtime_update" }

/-- A later sample of the same second as sampleT, naming device C. -/
def sampleT' : RealtimeUpdate :=
  { Payload :=
      { Voltage := [volts120, volts120], Channels := [Float64.zero, watts150],
        TotalWatts := watts150, EpochTimestamp := 1747531244,
        Devices := [{ ID := "C", Name := "Fridge", Watts := some watts150 }] },
    Type_ := "realtime_update" }

/-- A sample one second after sampleT, naming device C. -/
def sampleT1 : RealtimeUpdate :=
  { Payload :=
      { Voltage := [volts120, volts120], Channels := [watts150, watts150],
        TotalWatts := watts150, EpochTimestamp := 1747531245,
        Devices := [{ ID := "C", Name := "Fridge", Watts := some watts150 }] },
    Type_ := "realtime_update" }

/-- A sample at epoch 1747531244 that names only device B. -/
def sampleB : RealtimeUpdate :=
  { Payload :=
      { Voltage := [volts120, volts120], Channels := [watts150, Float64.zero],
        EpochTimestamp := 1747531244,
        Devices := [{ ID := "B", Watts := some watts150 }] },
    Type_ := "realtime_update" }

/-- A credential as held after a login: authorized, with role owner. -/
def credOwner : AuthResponse :=
  { Authorized := true, AccountID := 3, UserID := 7, AccessToken := "token-old",
    Roles := "owner", RefreshToken := "refresh-old", Monitors := [{ ID := 42 }],
    Expires := Time.Unix 1747500000 }

/-- A client holding credOwner. -/
def ownerClient : Client := { clientId := "abc", authResponse := some credOwner }

/-- A renewal response that sets a new access token and nothing else. -/
def docNewToken : AuthDoc := { AccessToken := some "token-new" }

/-- A renewal response that reports the credential as no longer authorized. -/
def docRejected : AuthDoc := { Authorized := some false }

/-- A login response of an authorized account with one monitor. -/
def docLogin : AuthDoc :=
  { Authorized := some true, AccountID := some 3, UserID := some 7,
    AccessToken := some "token-old", RefreshToken := some "refresh-old",
    Monitors := some (fun _ => [{ ID := 42 }]) }

/-- A login response of a rejected account. -/
def docDenied : AuthDoc := { Authorized := some false }

/-- The wall-clock reading used in the scenarios. -/
def clock : Time := Time.Unix 1747531200

/-- A renewal response that sets a new access token and its own expiry. -/
def docWithExpiry : AuthDoc :=
  { AccessToken := some "token-new", Expires := some (Time.Unix 1747600000) }

/-- A device-overview reply with status 500. -/
def replyServerError : DevicesReply := DevicesReply.response 500 DevicesContent.unreadable

/-- A device-overview reply with status 200 and three devices A, B, C. -/
def replyThreeDevices : DevicesReply :=
  DevicesReply.response 200 (DevicesContent.json
    { Devices := [{ ID := "A", Name := "Kettle" }, { ID := "B", Name := "Oven" },
                  { ID := "C", Name := "Fridge" }],
      DeviceDataChecksum := "c0ffee" } false)

/-- The registry a successful snapshot load leaves: devices A, B and C with
their descriptive fields and no readings. -/
def registryABC : Devices :=
  { Devices := [{ ID := "A", Name := "Kettle", Location := some "kitchen" },
                { ID := "B", Name := "Oven" },
                { ID := "C", Name := "Fridge", Make := some "Acme" }],
    DeviceDataChecksum := "c0ffee" }

/-- A client after a successful login, with the registry loaded and the
streaming connection open. -/
def registryClient : Client :=
  { clientId := "abc", authResponse := some credOwner, devices := some registryABC,
    conn := true, watchdog := true }

/-- A streamed sample at epoch 1747531244 with a record for the known device
A at 150 W, a record with an empty id and a record for an unknown device Z. -/
def sampleMixed : RealtimeUpdate :=
  { Payload :=
      { Voltage := [volts120, volts120], Channels := [watts150, Float64.zero],
        TotalWatts := watts150, EpochTimestamp := 1747531244,
        Devices := [{ ID := "A", Watts := some watts150, Attrs := ["Idle"] },
                    { ID := "", Watts := some watts150 },
                    { ID := "Z", Name := "Ghost", Watts := some watts150 }] },
    Type_ := "realtime_update" }

/-- The record of sampleMixed for the unknown device Z. -/
def ghostRecord : Device := { ID := "Z", Name := "Ghost", Watts := some watts150 }

/-- A name table holding the device X only. -/
def tableX : NameTable := fun id => if id = "X" then some (JValue.str "Heater") else none

/-- A device list in which the id A occurs twice, with different names. -/
def devicesAA : List Device :=
  [{ ID := "A", Name := "Kettle" }, { ID := "B", Name := "Oven" }, { ID := "A", Name := "Teapot" }]

/-- A frame of another type than realtime_update. -/
def frameHello : Inbound := Inbound.decoded { Type_ := "hello" }


/-- A sample at epoch 1747531244 whose only device has the identifier monitor. -/
def sampleMonitor : RealtimeUpdate :=
  { Payload :=
      { Voltage := [volts120, volts120], Channels := [watts150, Float64.zero],
        TotalWatts := watts150, EpochTimestamp := 1747531244,
        Devices := [{ ID := "monitor", Watts := some watts150 }] },
    Type_ := "realtime_update" }

/-- A sample at epoch 1747531244 that carries a single voltage entry. -/
def sampleShort : RealtimeUpdate :=
  { Payload :=
      { Voltage := [volts120], Channels := [watts150, Float64.zero],
        TotalWatts := watts150, EpochTimestamp := 1747531244 },
    Type_ := "realtime_update" }

/-- Which file a path names in a directory where out/./monitor.rrd is, as a
file system resolves it, the file out/monitor.rrd; every other path names a
file of its own. -/
def dotFile (path : String) : String :=
  if path = "out/./monitor.rrd" then "out/monitor.rrd" else path

/-- An engine on which every call succeeds over that directory, empty at the
start: os.Stat reports a path as not existing until the file it names has
been created, through whatever path. -/
def dotEngine : Engine :=
  { succeeds := fun _ _ => true, now := fun _ => Time.Unix 1747531300,
    notExist := fun d path =>
      !(d.log.any (fun e => e.ok &&
          match e.op with
          | Op.create c _ => decide (dotFile c.filename = dotFile path)
          | Op.update _ _ _ => false)) }

/-- A sample at epoch 1747531244 whose only device has the identifier ./monitor. -/
def sampleDotMonitor : RealtimeUpdate :=
  { Payload :=
      { Voltage := [volts120, volts120], Channels := [watts150, Float64.zero],
        TotalWatts := watts150, EpochTimestamp := 1747531244,
        Devices := [{ ID := "./monitor", Watts := some watts150 }] },
    Type_ := "realtime_update" }
/-! ## Lemmas on the runtime values -/

theorem Time.Sub_lt_second_iff (t u : Time) : t.Sub u < SampleRate * Second ↔ t.nanos < u.nanos + Second := by
  unfold Time.Sub SampleRate Second minDuration maxDuration
  simp only []
  split_ifs <;> constructor <;> intro h <;> omega

theorem throttled_iff (w : Writer) (update : RealtimeUpdate) :
    throttled w update = true ↔
      (Time.Unix update.Payload.EpochTimestamp).nanos < w.lastReport.nanos + Second := by
  unfold throttled
  rw [decide_eq_true_iff]
  exact Time.Sub_lt_second_iff _ _

theorem throttled_false_iff (w : Writer) (update : RealtimeUpdate) :
    throttled w update = false ↔
      w.lastReport.nanos + Second ≤ (Time.Unix update.Payload.EpochTimestamp).nanos := by
  rw [← Bool.not_eq_true, throttled_iff]
  omega

theorem Disk.call_log (E : Engine) (d : Disk) (op : Op) :
    (d.call E op).2.log = d.log ++ [{ op := op, ok := (d.call E op).1 }] := rfl

/-- Claim C1 (throttle). For every writer whose last accepted timestamp is L
and every sample whose report time is less than one second after L, Write
returns nil, makes no engine call and creates no file (the disk, with its
history of creations and updates, is unchanged), and leaves the writer, hence
L, unchanged. -/
theorem Write_throttled_is_noop (E : Engine) (w : Writer) (d : Disk) (update : RealtimeUpdate)
    (h : (Time.Unix update.Payload.EpochTimestamp).nanos < w.lastReport.nanos + Second) :
    Write E w d update = (Outcome.ok, w, d) := by
  have ht : throttled w update = true := (throttled_iff w update).2 h
  simp [Write, ht]

theorem StoppedAtFailure.cons {e : Event} {evs : List Event} (he : e.ok = true)
    (h : StoppedAtFailure evs) : StoppedAtFailure (e :: evs) := by
  obtain ⟨pre, x, rfl, hx, hpre⟩ := h
  refine ⟨e :: pre, x, by simp, hx, ?_⟩
  intro y hy
  rcases List.mem_cons.1 hy with rfl | hy
  · exact he
  · exact hpre y hy

theorem StoppedAtFailure.append {pre evs : List Event} (hpre : ∀ e ∈ pre, e.ok = true)
    (h : StoppedAtFailure evs) : StoppedAtFailure (pre ++ evs) := by
  induction pre with
  | nil => simpa using h
  | cons a pre ih =>
    have := ih (fun e he => hpre e (List.mem_cons_of_mem _ he))
    exact StoppedAtFailure.cons (hpre a (List.mem_cons_self _ _)) this

theorem StoppedAtFailure.single {e : Event} (he : e.ok = false) : StoppedAtFailure [e] :=
  ⟨[], e, rfl, he, by simp⟩

theorem StoppedAtFailure.last {evs pre post : List Event} {e : Event}
    (h : StoppedAtFailure evs) (hsplit : evs = pre ++ e :: post) (he : e.ok = false) :
    post = [] := by
  obtain ⟨pre0, x, rfl, _, hpre0⟩ := h
  rcases List.eq_nil_or_concat post with hnil | ⟨post1, y, rfl⟩
  · exact hnil
  · exfalso
    have h1 : pre0 ++ [x] = (pre ++ e :: post1) ++ [y] := by simpa using hsplit
    have h2 := (List.append_inj' h1 rfl).1
    have : e ∈ pre0 := by rw [h2]; simp
    have := hpre0 e this
    simp [he] at this

theorem StoppedAtFailure.exists_failed {evs : List Event} (h : StoppedAtFailure evs) :
    ∃ e ∈ evs, e.ok = false := by
  obtain ⟨pre, x, rfl, hx, _⟩ := h
  exact ⟨x, by simp, hx⟩

theorem writeDevice_trace (E : Engine) (w : Writer) (t : Time) (d : Disk) (dev : Device) :
    ∃ evs, (writeDevice E w t d dev).2.log = d.log ++ evs ∧
      (((writeDevice E w t d dev).1 = Outcome.ok ∧ (∀ e ∈ evs, e.ok = true) ∧
          deviceUpdateEvent w t dev ∈ evs) ∨
       ((writeDevice E w t d dev).1.isError = true ∧ StoppedAtFailure evs)) := by
  unfold writeDevice
  simp only []
  generalize hcop : Op.create (deviceCreator (deviceFilePath w dev.ID) (E.now d)) true = cop
  have huop : deviceUpdateEvent w t dev
      = ⟨Op.update (deviceFilePath w dev.ID) t (deviceValues dev), true⟩ := rfl
  generalize Op.update (deviceFilePath w dev.ID) t (deviceValues dev) = uop at huop ⊢
  by_cases hex : E.notExist d (deviceFilePath w dev.ID) = true
  · rw [if_pos hex]
    cases hc : (d.call E cop).1
    · refine ⟨[⟨cop, false⟩], ?_, Or.inr ⟨?_, StoppedAtFailure.single rfl⟩⟩
      · simp [Disk.call_log, hc]
      · simp [Outcome.isError]
    · cases hu : ((d.call E cop).2.call E uop).1
      · refine ⟨[⟨cop, true⟩, ⟨uop, false⟩], ?_, Or.inr ⟨?_, ?_⟩⟩
        · simp [Disk.call_log, hc, hu]
        · simp [hu, Outcome.isError]
        · exact StoppedAtFailure.cons rfl (StoppedAtFailure.single rfl)
      · refine ⟨[⟨cop, true⟩, ⟨uop, true⟩], ?_, Or.inl ⟨?_, ?_, ?_⟩⟩
        · simp [Disk.call_log, hc, hu]
        · simp [hu]
        · simp
        · simp [huop]
  · rw [if_neg hex]
    cases hu : (d.call E uop).1
    · refine ⟨[⟨uop, false⟩], ?_, Or.inr ⟨?_, StoppedAtFailure.single rfl⟩⟩
      · simp [Disk.call_log, hu]
      · simp [hu, Outcome.isError]
    · refine ⟨[⟨uop, true⟩], ?_, Or.inl ⟨?_, ?_, ?_⟩⟩
      · simp [Disk.call_log, hu]
      · simp [hu]
      · simp
      · simp [huop]

theorem writeDevices_trace (E : Engine) (w : Writer) (t : Time) (devs : List Device) :
    ∀ d : Disk, ∃ evs, (writeDevices E w t d devs).2.log = d.log ++ evs ∧
      (((writeDevices E w t d devs).1 = Outcome.ok ∧ (∀ e ∈ evs, e.ok = true) ∧
          ∀ dev ∈ devs, deviceUpdateEvent w t dev ∈ evs) ∨
       ((writeDevices E w t d devs).1.isError = true ∧ StoppedAtFailure evs)) := by
  induction devs with
  | nil => intro d; exact ⟨[], by simp [writeDevices], Or.inl ⟨rfl, by simp, by simp⟩⟩
  | cons dev rest ih =>
    intro d
    obtain ⟨evs1, hlog1, h1⟩ := writeDevice_trace E w t d dev
    rcases h1 with ⟨hok, hall, hmem⟩ | ⟨herr, hstop⟩
    · obtain ⟨evs2, hlog2, h2⟩ := ih (writeDevice E w t d dev).2
      have hstep : writeDevices E w t d (dev :: rest)
          = writeDevices E w t (writeDevice E w t d dev).2 rest := by
        rw [writeDevices]
        generalize hr : writeDevice E w t d dev = r at hok
        obtain ⟨o, d1⟩ := r
        simp only at hok
        subst hok
        rfl
      rw [hstep]
      refine ⟨evs1 ++ evs2, by rw [hlog2, hlog1, List.append_assoc], ?_⟩
      rcases h2 with ⟨hok2, hall2, hmem2⟩ | ⟨herr2, hstop2⟩
      · refine Or.inl ⟨hok2, ?_, ?_⟩
        · intro e he
          rcases List.mem_append.1 he with he | he
          · exact hall e he
          · exact hall2 e he
        · intro x hx
          rcases List.mem_cons.1 hx with rfl | hx
          · exact List.mem_append_left _ hmem
          · exact List.mem_append_right _ (hmem2 x hx)
      · exact Or.inr ⟨herr2, StoppedAtFailure.append hall hstop2⟩
    · have hstep : writeDevices E w t d (dev :: rest) = writeDevice E w t d dev := by
        rw [writeDevices]
        generalize hr : writeDevice E w t d dev = r at herr
        obtain ⟨o, d1⟩ := r
        cases o <;> simp_all [Outcome.isError]
      rw [hstep]
      exact ⟨evs1, hlog1, Or.inr ⟨herr, hstop⟩⟩

theorem ensure_trace (E : Engine) (d : Disk) (c : Bool) (cop : Op) :
    ∃ pre, (if c = true then d.call E cop else (true, d)).2.log = d.log ++ pre ∧
      (((if c = true then d.call E cop else (true, d)).1 = true ∧ ∀ e ∈ pre, e.ok = true) ∨
       ((if c = true then d.call E cop else (true, d)).1 = false ∧ StoppedAtFailure pre)) := by
  cases c
  · exact ⟨[], by simp, Or.inl ⟨by simp, by simp⟩⟩
  · cases hc : (d.call E cop).1
    · exact ⟨[⟨cop, false⟩], by simp [Disk.call_log, hc],
        Or.inr ⟨by simp [hc], StoppedAtFailure.single rfl⟩⟩
    · exact ⟨[⟨cop, true⟩], by simp [Disk.call_log, hc], Or.inl ⟨by simp [hc], by simp⟩⟩

theorem Write_trace (E : Engine) (w : Writer) (d : Disk) (u : RealtimeUpdate)
    (hpass : throttled w u = false) :
    ∃ evs, (Write E w d u).2.2.log = d.log ++ evs ∧
      (((Write E w d u).1 = Outcome.ok ∧
          (Write E w d u).2.1 = { w with lastReport := Time.Unix u.Payload.EpochTimestamp } ∧
          (∀ e ∈ evs, e.ok = true) ∧
          (∃ values, mainValues u.Payload = some values ∧
            mainUpdateEvent w (Time.Unix u.Payload.EpochTimestamp) values ∈ evs) ∧
          ∀ dev ∈ u.Payload.Devices,
            deviceUpdateEvent w (Time.Unix u.Payload.EpochTimestamp) dev ∈ evs) ∨
       ((Write E w d u).1.isError = true ∧ (Write E w d u).2.1 = w ∧ StoppedAtFailure evs) ∨
       ((Write E w d u).1 = Outcome.indexPanic ∧ (Write E w d u).2.1 = w ∧
          mainValues u.Payload = none ∧ ∀ e ∈ evs, e.ok = true)) := by
  unfold Write
  simp only [hpass, Bool.false_eq_true, if_false]
  obtain ⟨pre, hpre, hc⟩ := ensure_trace E d (E.notExist d (mainFilePath w))
    (Op.create (mainCreator (mainFilePath w) (E.now d)) true)
  generalize (if E.notExist d (mainFilePath w) = true
    then d.call E (Op.create (mainCreator (mainFilePath w) (E.now d)) true) else (true, d)) = cr
    at hpre hc ⊢
  obtain ⟨c1, d1⟩ := cr
  simp only at hpre hc ⊢
  rcases hc with ⟨hc1, hallpre⟩ | ⟨hc1, hstop⟩
  · subst hc1
    simp only [if_true]
    cases hmv : mainValues u.Payload with
    | none =>
      exact ⟨pre, hpre, Or.inr (Or.inr ⟨rfl, rfl, rfl, hallpre⟩)⟩
    | some values =>
      simp only []
      cases hu : (d1.call E (Op.update (mainFilePath w)
          (Time.Unix u.Payload.EpochTimestamp) values)).1
      · refine ⟨pre ++ [⟨Op.update (mainFilePath w) (Time.Unix u.Payload.EpochTimestamp) values,
          false⟩], ?_, Or.inr (Or.inl ⟨?_, ?_, ?_⟩)⟩
        · simp [Disk.call_log, hu, hpre]
        · simp [Outcome.isError]
        · simp
        · exact StoppedAtFailure.append hallpre (StoppedAtFailure.single rfl)
      · simp only [if_true]
        obtain ⟨evs, hlog, hdev⟩ := writeDevices_trace E w (Time.Unix u.Payload.EpochTimestamp)
          u.Payload.Devices (d1.call E (Op.update (mainFilePath w)
            (Time.Unix u.Payload.EpochTimestamp) values)).2
        generalize hwd : writeDevices E w (Time.Unix u.Payload.EpochTimestamp)
          (d1.call E (Op.update (mainFilePath w) (Time.Unix u.Payload.EpochTimestamp) values)).2
          u.Payload.Devices = r at hlog hdev ⊢
        obtain ⟨o, d3⟩ := r
        simp only at hlog hdev
        refine ⟨pre ++ [mainUpdateEvent w (Time.Unix u.Payload.EpochTimestamp) values] ++ evs,
          ?_, ?_⟩
        · have : d3.log = d.log ++ (pre ++ [mainUpdateEvent w (Time.Unix u.Payload.EpochTimestamp)
              values] ++ evs) := by
            rw [hlog, Disk.call_log, hu, hpre]
            simp [mainUpdateEvent]
          cases o <;> simpa using this
        · have hpre2 : ∀ e ∈ pre ++ [mainUpdateEvent w (Time.Unix u.Payload.EpochTimestamp)
              values], e.ok = true := by
            intro e he
            rcases List.mem_append.1 he with he | he
            · exact hallpre e he
            · simp at he; subst he; rfl
          rcases hdev with ⟨hok, hall, hmem⟩ | ⟨herr, hstop⟩
          · subst hok
            refine Or.inl ⟨rfl, rfl, ?_, ⟨values, rfl, by simp⟩, ?_⟩
            · intro e he
              rcases List.mem_append.1 he with he | he
              · exact hpre2 e he
              · exact hall e he
            · intro dev hd
              exact List.mem_append_right _ (hmem dev hd)
          · refine Or.inr (Or.inl ⟨?_, ?_, StoppedAtFailure.append hpre2 hstop⟩)
            · cases o <;> simp_all [Outcome.isError]
            · cases o <;> simp_all [Outcome.isError]
  · subst hc1
    simp only [Bool.false_eq_true, if_false]
    exact ⟨pre, hpre, Or.inr (Or.inl ⟨by simp [Outcome.isError], trivial, hstop⟩)⟩


/-! ## Throttle idempotence -/

theorem Write_ok_lastReport (E : Engine) (w : Writer) (d : Disk) (u : RealtimeUpdate)
    (hok : (Write E w d u).1 = Outcome.ok) :
    ((Write E w d u).2.1 = w ∧ throttled w u = true) ∨
    ((Write E w d u).2.1 = { w with lastReport := Time.Unix u.Payload.EpochTimestamp } ∧
      throttled w u = false) := by
  cases ht : throttled w u
  · right
    obtain ⟨evs, _, h⟩ := Write_trace E w d u ht
    rcases h with ⟨_, hw, _⟩ | ⟨herr, _⟩ | ⟨hp, _⟩
    · exact ⟨hw, rfl⟩
    · rw [hok] at herr; simp [Outcome.isError] at herr
    · rw [hok] at hp; cases hp
  · left
    simp [Write, ht]

theorem throttled_after_ok (E : Engine) (w : Writer) (d : Disk) (u v : RealtimeUpdate)
    (hok : (Write E w d u).1 = Outcome.ok)
    (hv : v.Payload.EpochTimestamp = u.Payload.EpochTimestamp ∨ throttled w v = true) :
    throttled (Write E w d u).2.1 v = true := by
  rcases Write_ok_lastReport E w d u hok with ⟨hw, ht⟩ | ⟨hw, ht⟩
  · rw [hw]
    rcases hv with hv | hv
    · rw [throttled_iff] at ht ⊢
      rw [hv]; exact ht
    · exact hv
  · rw [hw]
    rw [throttled_false_iff] at ht
    rw [throttled_iff]
    rcases hv with hv | hv
    · rw [hv]; simp [Second]
    · rw [throttled_iff] at hv
      simp only [Second] at *
      omega

theorem writeAll_cons_ok (E : Engine) (w : Writer) (d : Disk) (u : RealtimeUpdate)
    (rest : List RealtimeUpdate) (hok : (Write E w d u).1 = Outcome.ok) :
    writeAll E w d (u :: rest) = writeAll E (Write E w d u).2.1 (Write E w d u).2.2 rest := by
  rw [writeAll]
  simp only [hok, if_true]

theorem writeAll_cons_stop (E : Engine) (w : Writer) (d : Disk) (u : RealtimeUpdate)
    (rest : List RealtimeUpdate) (hok : (Write E w d u).1 ≠ Outcome.ok) :
    writeAll E w d (u :: rest) = Write E w d u := by
  rw [writeAll]
  simp only [hok, if_false]

theorem writeAll_firstOfBucketFrom (E : Engine) (samples : List RealtimeUpdate) :
    ∀ (seen : List Int) (w : Writer) (d : Disk),
      (∀ v ∈ samples, v.Payload.EpochTimestamp ∈ seen → throttled w v = true) →
      writeAll E w d samples = writeAll E w d (firstOfBucketFrom seen samples) := by
  induction samples with
  | nil => intro seen w d _; rfl
  | cons u rest ih =>
    intro seen w d hinv
    by_cases hseen : u.Payload.EpochTimestamp ∈ seen
    · have ht := hinv u (List.mem_cons_self _ _) hseen
      have hW : Write E w d u = (Outcome.ok, w, d) := by simp [Write, ht]
      rw [firstOfBucketFrom, if_pos hseen, writeAll_cons_ok E w d u rest (by rw [hW]), hW]
      exact ih seen w d (fun v hv => hinv v (List.mem_cons_of_mem _ hv))
    · rw [firstOfBucketFrom, if_neg hseen]
      by_cases hok : (Write E w d u).1 = Outcome.ok
      · rw [writeAll_cons_ok E w d u rest hok, writeAll_cons_ok E w d u _ hok]
        apply ih
        intro v hv hmem
        apply throttled_after_ok E w d u v hok
        rcases List.mem_cons.1 hmem with h | h
        · exact Or.inl h
        · exact Or.inr (hinv v (List.mem_cons_of_mem _ hv) h)
      · rw [writeAll_cons_stop E w d u rest hok, writeAll_cons_stop E w d u _ hok]

/-- Claim C2 (throttle idempotence, P2). From any writer and disk, and under
any engine (in particular one on which every store operation succeeds),
calling Write on all the samples of a stream gives the same outcome, the same
last accepted timestamp and the same disk (the history of creations and
updates, hence the files that exist) as calling Write on only the first sample
of each one-second bucket. The equality does not even need the timestamps to
be non-decreasing. -/
theorem writeAll_firstOfBucket (E : Engine) (w : Writer) (d : Disk)
    (samples : List RealtimeUpdate) :
    writeAll E w d samples = writeAll E w d (firstOfBucket samples) :=
  writeAll_firstOfBucketFrom E samples [] w d (by simp)


/-! ## Failure handling and the values written -/

theorem Time.nanos_succ_le_ne {t u : Time} (h : u.nanos + Second ≤ t.nanos) : u ≠ t := by
  intro he
  subst he
  simp [Second] at h

theorem deviceValues_eq (dev : Device) :
    deviceValues dev =
      [Value.float (dev.Watts.getD Float64.zero),
       Value.float ((dev.StatusDetails.map StatusDetails.Current).getD Float64.zero),
       Value.float ((dev.StatusDetails.map StatusDetails.Voltage).getD Float64.zero),
       Value.float ((dev.StatusDetails.map StatusDetails.EnergyUsed).getD Float64.zero),
       Value.float (dev.AlwaysOnWatts.getD Float64.zero)] := by
  unfold deviceValues
  cases dev.Watts <;> cases dev.StatusDetails <;> cases dev.AlwaysOnWatts <;> rfl

theorem writeDevices_allSucceed (E : Engine) (hE : ∀ d op, E.succeeds d op = true)
    (w : Writer) (t : Time) (devs : List Device) :
    ∀ d : Disk, (writeDevices E w t d devs).1 = Outcome.ok := by
  induction devs with
  | nil => intro d; rfl
  | cons dev rest ih =>
    intro d
    have h1 : (writeDevice E w t d dev).1 = Outcome.ok := by
      unfold writeDevice
      by_cases hex : E.notExist d (deviceFilePath w dev.ID) = true <;>
        simp [hex, Disk.call, hE]
    rw [writeDevices]
    generalize writeDevice E w t d dev = r at h1
    obtain ⟨o, d1⟩ := r
    simp only at h1
    subst h1
    exact ih d1

theorem Write_allSucceed (E : Engine) (hE : ∀ d op, E.succeeds d op = true)
    (w : Writer) (d : Disk) (u : RealtimeUpdate) (hshape : mainValues u.Payload ≠ none) :
    (Write E w d u).1 = Outcome.ok := by
  cases ht : throttled w u
  · obtain ⟨values, hv⟩ := Option.ne_none_iff_exists'.1 hshape
    unfold Write
    simp only [ht, Bool.false_eq_true, if_false, hv]
    have hc : (if E.notExist d (mainFilePath w) = true
        then d.call E (Op.create (mainCreator (mainFilePath w) (E.now d)) true)
        else (true, d)).1 = true := by
      by_cases hex : E.notExist d (mainFilePath w) = true <;> simp [hex, Disk.call, hE]
    generalize (if E.notExist d (mainFilePath w) = true
        then d.call E (Op.create (mainCreator (mainFilePath w) (E.now d)) true)
        else (true, d)) = cr at hc
    obtain ⟨c1, d1⟩ := cr
    simp only at hc
    subst hc
    simp only [if_true]
    have hu : (d1.call E (Op.update (mainFilePath w)
        (Time.Unix u.Payload.EpochTimestamp) values)).1 = true := by simp [Disk.call, hE]
    simp only [hu, if_true]
    have hd := writeDevices_allSucceed E hE w (Time.Unix u.Payload.EpochTimestamp)
      u.Payload.Devices (d1.call E (Op.update (mainFilePath w)
        (Time.Unix u.Payload.EpochTimestamp) values)).2
    generalize writeDevices E w (Time.Unix u.Payload.EpochTimestamp)
      (d1.call E (Op.update (mainFilePath w) (Time.Unix u.Payload.EpochTimestamp) values)).2
      u.Payload.Devices = r at hd
    obtain ⟨o, d3⟩ := r
    simp only at hd
    subst hd
    rfl
  · simp [Write, ht]

/-- Claim C3 (failures keep the timestamp). For a sample that passes the
throttle, let evs be the engine calls Write makes. A failed call is the last
call Write makes, Write then returns an error and the writer is unchanged; an
error is returned only after a failed call; whenever Write does not return
nil the writer is unchanged; and the last accepted timestamp becomes the
sample's report time only when Write returns nil, every call succeeded, and
the aggregate update and the update of every device of the sample are among
them. -/
theorem Write_failure_keeps_lastReport (E : Engine) (w : Writer) (d : Disk) (u : RealtimeUpdate)
    (hpass : w.lastReport.nanos + Second ≤ (Time.Unix u.Payload.EpochTimestamp).nanos) :
    ∃ evs, (Write E w d u).2.2.log = d.log ++ evs ∧
      (∀ pre e post, evs = pre ++ e :: post → e.ok = false →
        post = [] ∧ (Write E w d u).1.isError = true ∧ (Write E w d u).2.1 = w) ∧
      ((Write E w d u).1.isError = true → ∃ e ∈ evs, e.ok = false) ∧
      ((Write E w d u).1 ≠ Outcome.ok → (Write E w d u).2.1 = w) ∧
      ((Write E w d u).2.1.lastReport = Time.Unix u.Payload.EpochTimestamp →
        (Write E w d u).1 = Outcome.ok ∧ (∀ e ∈ evs, e.ok = true) ∧
        (∃ values, mainUpdateEvent w (Time.Unix u.Payload.EpochTimestamp) values ∈ evs) ∧
        ∀ dev ∈ u.Payload.Devices,
          deviceUpdateEvent w (Time.Unix u.Payload.EpochTimestamp) dev ∈ evs) ∧
      ((Write E w d u).1 = Outcome.ok →
        (Write E w d u).2.1.lastReport = Time.Unix u.Payload.EpochTimestamp) := by
  have hne := Time.nanos_succ_le_ne hpass
  obtain ⟨evs, hlog, h⟩ := Write_trace E w d u ((throttled_false_iff w u).2 hpass)
  refine ⟨evs, hlog, ?_⟩
  rcases h with ⟨hok, hw, hall, ⟨values, _, hmain⟩, hdev⟩ | ⟨herr, hw, hstop⟩ | ⟨hp, hw, _, hall⟩
  · refine ⟨?_, ?_, ?_, ?_, ?_⟩
    · intro pre e post hsplit he
      have := hall e (by rw [hsplit]; simp)
      rw [he] at this; cases this
    · intro h; rw [hok] at h; simp [Outcome.isError] at h
    · intro h; exact absurd hok h
    · intro _; exact ⟨hok, hall, ⟨values, hmain⟩, hdev⟩
    · intro _; rw [hw]
  · have hnok : (Write E w d u).1 ≠ Outcome.ok := by
      intro h; rw [h] at herr; simp [Outcome.isError] at herr
    refine ⟨?_, ?_, ?_, ?_, ?_⟩
    · intro pre e post hsplit he
      exact ⟨hstop.last hsplit he, herr, hw⟩
    · intro _; exact hstop.exists_failed
    · intro _; exact hw
    · intro h; rw [hw] at h; exact absurd h hne
    · intro h; exact absurd h hnok
  · have hnok : (Write E w d u).1 ≠ Outcome.ok := by rw [hp]; simp
    refine ⟨?_, ?_, ?_, ?_, ?_⟩
    · intro pre e post hsplit he
      have := hall e (by rw [hsplit]; simp)
      rw [he] at this; cases this
    · intro h; rw [hp] at h; simp [Outcome.isError] at h
    · intro _; exact hw
    · intro h; rw [hw] at h; exact absurd h hne
    · intro h; exact absurd h hnok

/-- Claim C4 (device values). For a sample that passes the throttle and that
Write accepts (returns nil), the store of every device of the sample is
updated at the sample's report time with exactly five values, in the order
wattage, current, voltage, cumulative energy, always-on wattage, where an
absent wattage or always-on wattage is 0.0 and an absent status-detail block
gives 0.0 for current, voltage and energy. Write returns an error only after
a failed engine call, so an absent reading never causes one; and when every
engine call succeeds and the four aggregate index reads are in range, Write
returns nil, so no update is skipped. -/
theorem Write_device_values (E : Engine) (w : Writer) (d : Disk) (u : RealtimeUpdate)
    (hpass : w.lastReport.nanos + Second ≤ (Time.Unix u.Payload.EpochTimestamp).nanos) :
    ∃ evs, (Write E w d u).2.2.log = d.log ++ evs ∧
      ((Write E w d u).1 = Outcome.ok →
        ∀ dev ∈ u.Payload.Devices,
          ({ op := Op.update (deviceFilePath w dev.ID) (Time.Unix u.Payload.EpochTimestamp)
              [Value.float (dev.Watts.getD Float64.zero),
               Value.float ((dev.StatusDetails.map StatusDetails.Current).getD Float64.zero),
               Value.float ((dev.StatusDetails.map StatusDetails.Voltage).getD Float64.zero),
               Value.float ((dev.StatusDetails.map StatusDetails.EnergyUsed).getD Float64.zero),
               Value.float (dev.AlwaysOnWatts.getD Float64.zero)],
             ok := true } : Event) ∈ evs) ∧
      ((Write E w d u).1.isError = true → ∃ e ∈ evs, e.ok = false) ∧
      ((∀ d1 op, E.succeeds d1 op = true) → mainValues u.Payload ≠ none →
        (Write E w d u).1 = Outcome.ok) := by
  obtain ⟨evs, hlog, h⟩ := Write_trace E w d u ((throttled_false_iff w u).2 hpass)
  refine ⟨evs, hlog, ?_, ?_, fun hE hs => Write_allSucceed E hE w d u hs⟩
  · intro hok dev hdev
    rcases h with ⟨_, _, _, _, hmem⟩ | ⟨herr, _, _⟩ | ⟨hp, _⟩
    · have := hmem dev hdev
      rw [deviceUpdateEvent, deviceValues_eq] at this
      exact this
    · rw [hok] at herr; simp [Outcome.isError] at herr
    · rw [hok] at hp; cases hp
  · intro herr
    rcases h with ⟨hok, _⟩ | ⟨_, _, hstop⟩ | ⟨hp, _⟩
    · rw [hok] at herr; simp [Outcome.isError] at herr
    · exact hstop.exists_failed
    · rw [hp] at herr; simp [Outcome.isError] at herr

/-! ## Store creation -/

theorem creations_call (E : Engine) (d : Disk) (op : Op) (path : String) :
    creations path (d.call E op).2.log =
      creations path d.log + (if Event.isCreationOf path ⟨op, (d.call E op).1⟩ = true then 1 else 0) := by
  rw [Disk.call_log]
  simp [creations, List.countP_append, List.countP_cons]

theorem call_update_creations (E : Engine) (d : Disk) (f : String) (t : Time) (v : List Value)
    (path : String) :
    creations path (d.call E (Op.update f t v)).2.log = creations path d.log := by
  rw [creations_call]; simp [Event.isCreationOf]

theorem call_create_creations (E : Engine) (d : Disk) (c : Creator) (o : Bool) (path : String) :
    creations path (d.call E (Op.create c o)).2.log =
      creations path d.log + (if c.filename = path then 1 else 0) := by
  rw [creations_call]; simp [Event.isCreationOf]

theorem createdOk_append (path : String) (l1 l2 : List Event) :
    createdOk path (l1 ++ l2) = (createdOk path l1 || createdOk path l2) := by
  simp [createdOk, List.any_append]

theorem createdOk_extends {path : String} {l1 l2 : List Event} (h : l1 <+: l2)
    (hc : createdOk path l1 = true) : createdOk path l2 = true := by
  obtain ⟨t, rfl⟩ := h
  rw [createdOk_append, hc]
  rfl

theorem call_update_createdOk (E : Engine) (d : Disk) (f : String) (t : Time) (v : List Value)
    (path : String) :
    createdOk path (d.call E (Op.update f t v)).2.log = createdOk path d.log := by
  rw [Disk.call_log, createdOk_append]
  simp [createdOk, Event.isCreationOf]

theorem call_create_createdOk (E : Engine) (d : Disk) (c : Creator) (o : Bool) (path : String) :
    createdOk path (d.call E (Op.create c o)).2.log =
      (createdOk path d.log || ((d.call E (Op.create c o)).1 && decide (c.filename = path))) := by
  rw [Disk.call_log, createdOk_append]
  simp [createdOk, Event.isCreationOf]

theorem call_extends (E : Engine) (d : Disk) (op : Op) : d.log <+: (d.call E op).2.log := by
  rw [Disk.call_log]
  exact List.prefix_append _ _

theorem keepsFinding_now {E : Engine} {d : Disk} {path : String} (h : E.keepsFinding d path) :
    E.notExist d path = false :=
  h d (List.prefix_refl _)

theorem keepsFinding_extends {E : Engine} {d d1 : Disk} {path : String}
    (h : E.keepsFinding d path) (hp : d.log <+: d1.log) : E.keepsFinding d1 path :=
  fun d2 h2 => h d2 (List.IsPrefix.trans hp h2)

theorem keepsFinding_of_created {E : Engine} {path : String}
    (hstat : ∀ d0 : Disk, E.notExist d0 path = !(createdOk path d0.log)) {d : Disk}
    (hc : createdOk path d.log = true) : E.keepsFinding d path := by
  intro d1 hp
  rw [hstat, createdOk_extends hp hc]
  rfl

/-- The creation step shared by both stores: create when os.Stat reports
that the file does not exist. -/
theorem ensure_extends (E : Engine) (d : Disk) (c : Creator) :
    d.log <+: (if E.notExist d c.filename = true then d.call E (Op.create c true)
        else (true, d)).2.log := by
  by_cases hex : E.notExist d c.filename = true
  · rw [if_pos hex]
    exact call_extends E d _
  · rw [if_neg hex]

theorem ensure_found (E : Engine) (d : Disk) (c : Creator) (path : String)
    (h : E.notExist d path = false) :
    creations path (if E.notExist d c.filename = true then d.call E (Op.create c true)
        else (true, d)).2.log = creations path d.log := by
  by_cases hex : E.notExist d c.filename = true
  · rw [if_pos hex]
    have hne : c.filename ≠ path := by
      intro he
      rw [he, h] at hex
      cases hex
    rw [call_create_creations, if_neg hne, Nat.add_zero]
  · rw [if_neg hex]

theorem ensure_other (E : Engine) (d : Disk) (c : Creator) (path : String)
    (hne : c.filename ≠ path) :
    creations path (if E.notExist d c.filename = true then d.call E (Op.create c true)
        else (true, d)).2.log = creations path d.log ∧
    createdOk path (if E.notExist d c.filename = true then d.call E (Op.create c true)
        else (true, d)).2.log = createdOk path d.log := by
  by_cases hex : E.notExist d c.filename = true
  · rw [if_pos hex]
    exact ⟨by rw [call_create_creations, if_neg hne, Nat.add_zero],
      by rw [call_create_createdOk]; simp [hne]⟩
  · rw [if_neg hex]
    exact ⟨rfl, rfl⟩

theorem ensure_new (E : Engine) (d : Disk) (c : Creator)
    (habs : E.notExist d c.filename = true)
    (hok : (if E.notExist d c.filename = true then d.call E (Op.create c true)
        else (true, d)).1 = true) :
    creations c.filename (if E.notExist d c.filename = true then d.call E (Op.create c true)
        else (true, d)).2.log = creations c.filename d.log + 1 ∧
    createdOk c.filename (if E.notExist d c.filename = true then d.call E (Op.create c true)
        else (true, d)).2.log = true := by
  rw [if_pos habs] at hok ⊢
  exact ⟨by rw [call_create_creations, if_pos rfl],
    by rw [call_create_createdOk, hok]; simp⟩

theorem deviceCreator_filename (p : String) (now : Time) : (deviceCreator p now).filename = p := rfl

theorem mainCreator_filename (p : String) (now : Time) : (mainCreator p now).filename = p := rfl

/-- The disk a device pass leaves is the disk after its creation step,
followed by the update when the creation step succeeded. -/
theorem writeDevice_disk (E : Engine) (w : Writer) (t : Time) (d : Disk) (dev : Device) :
    (writeDevice E w t d dev).2 =
      (if (if E.notExist d (deviceFilePath w dev.ID) = true
            then d.call E (Op.create (deviceCreator (deviceFilePath w dev.ID) (E.now d)) true)
            else (true, d)).1 = true
       then ((if E.notExist d (deviceFilePath w dev.ID) = true
            then d.call E (Op.create (deviceCreator (deviceFilePath w dev.ID) (E.now d)) true)
            else (true, d)).2.call E
              (Op.update (deviceFilePath w dev.ID) t (deviceValues dev))).2
       else (if E.notExist d (deviceFilePath w dev.ID) = true
            then d.call E (Op.create (deviceCreator (deviceFilePath w dev.ID) (E.now d)) true)
            else (true, d)).2) := by
  unfold writeDevice
  simp only []
  split_ifs <;> rfl

theorem writeDevice_ok_created (E : Engine) (w : Writer) (t : Time) (d : Disk) (dev : Device)
    (hok : (writeDevice E w t d dev).1 = Outcome.ok) :
    (if E.notExist d (deviceFilePath w dev.ID) = true
      then d.call E (Op.create (deviceCreator (deviceFilePath w dev.ID) (E.now d)) true)
      else (true, d)).1 = true := by
  unfold writeDevice at hok
  simp only [] at hok
  by_contra hc
  rw [if_neg hc] at hok
  cases hok

theorem writeDevice_extends (E : Engine) (w : Writer) (t : Time) (d : Disk) (dev : Device) :
    d.log <+: (writeDevice E w t d dev).2.log := by
  obtain ⟨evs, h, _⟩ := writeDevice_trace E w t d dev
  rw [h]
  exact List.prefix_append _ _

theorem writeDevices_extends (E : Engine) (w : Writer) (t : Time) (devs : List Device) (d : Disk) :
    d.log <+: (writeDevices E w t d devs).2.log := by
  obtain ⟨evs, h, _⟩ := writeDevices_trace E w t devs d
  rw [h]
  exact List.prefix_append _ _

theorem writeDevice_found (E : Engine) (w : Writer) (t : Time) (d : Disk) (dev : Device)
    (path : String) (h : E.notExist d path = false) :
    creations path (writeDevice E w t d dev).2.log = creations path d.log := by
  have he := ensure_found E d (deviceCreator (deviceFilePath w dev.ID) (E.now d)) path h
  rw [deviceCreator_filename] at he
  rw [writeDevice_disk]
  generalize (if E.notExist d (deviceFilePath w dev.ID) = true
    then d.call E (Op.create (deviceCreator (deviceFilePath w dev.ID) (E.now d)) true)
    else (true, d)) = cr at he ⊢
  split
  · rw [call_update_creations]
    exact he
  · exact he

theorem writeDevice_other (E : Engine) (w : Writer) (t : Time) (d : Disk) (dev : Device)
    (path : String) (hne : deviceFilePath w dev.ID ≠ path) :
    creations path (writeDevice E w t d dev).2.log = creations path d.log ∧
    createdOk path (writeDevice E w t d dev).2.log = createdOk path d.log := by
  have he := ensure_other E d (deviceCreator (deviceFilePath w dev.ID) (E.now d)) path
    (by rw [deviceCreator_filename]; exact hne)
  rw [deviceCreator_filename] at he
  rw [writeDevice_disk]
  generalize (if E.notExist d (deviceFilePath w dev.ID) = true
    then d.call E (Op.create (deviceCreator (deviceFilePath w dev.ID) (E.now d)) true)
    else (true, d)) = cr at he ⊢
  split
  · rw [call_update_creations, call_update_createdOk]
    exact he
  · exact he

theorem writeDevice_new (E : Engine) (w : Writer) (t : Time) (d : Disk) (dev : Device)
    (habs : E.notExist d (deviceFilePath w dev.ID) = true)
    (hok : (writeDevice E w t d dev).1 = Outcome.ok) :
    creations (deviceFilePath w dev.ID) (writeDevice E w t d dev).2.log
      = creations (deviceFilePath w dev.ID) d.log + 1 ∧
    createdOk (deviceFilePath w dev.ID) (writeDevice E w t d dev).2.log = true := by
  have hc := writeDevice_ok_created E w t d dev hok
  have he := ensure_new E d (deviceCreator (deviceFilePath w dev.ID) (E.now d))
    (by rw [deviceCreator_filename]; exact habs) (by rw [deviceCreator_filename]; exact hc)
  rw [deviceCreator_filename] at he
  rw [writeDevice_disk, if_pos hc, call_update_creations, call_update_createdOk]
  exact he

theorem writeDevices_cons_ok (E : Engine) (w : Writer) (t : Time) (d : Disk) (dev : Device)
    (rest : List Device) (hok : (writeDevice E w t d dev).1 = Outcome.ok) :
    writeDevices E w t d (dev :: rest) = writeDevices E w t (writeDevice E w t d dev).2 rest := by
  rw [writeDevices]
  generalize writeDevice E w t d dev = r at hok
  obtain ⟨o, d1⟩ := r
  simp only at hok
  subst hok
  rfl

theorem writeDevices_cons_stop (E : Engine) (w : Writer) (t : Time) (d : Disk) (dev : Device)
    (rest : List Device) (hok : (writeDevice E w t d dev).1 ≠ Outcome.ok) :
    writeDevices E w t d (dev :: rest) = writeDevice E w t d dev := by
  rw [writeDevices]
  generalize writeDevice E w t d dev = r at hok
  obtain ⟨o, d1⟩ := r
  cases o <;> simp_all

theorem writeDevices_found (E : Engine) (w : Writer) (t : Time) (path : String)
    (devs : List Device) :
    ∀ d : Disk, E.keepsFinding d path →
      creations path (writeDevices E w t d devs).2.log = creations path d.log := by
  induction devs with
  | nil => intro d _; rfl
  | cons dev rest ih =>
    intro d h
    have h1 := writeDevice_found E w t d dev path (keepsFinding_now h)
    by_cases hok : (writeDevice E w t d dev).1 = Outcome.ok
    · rw [writeDevices_cons_ok E w t d dev rest hok]
      have h2 := ih _ (keepsFinding_extends h (writeDevice_extends E w t d dev))
      exact h2.trans h1
    · rw [writeDevices_cons_stop E w t d dev rest hok]
      exact h1

theorem writeDevices_new (E : Engine) (w : Writer) (t : Time) (path : String)
    (hstat : ∀ d0 : Disk, E.notExist d0 path = !(createdOk path d0.log))
    (devs : List Device) :
    ∀ d : Disk, createdOk path d.log = false →
      (∃ dev ∈ devs, deviceFilePath w dev.ID = path) →
      (writeDevices E w t d devs).1 = Outcome.ok →
      creations path (writeDevices E w t d devs).2.log = creations path d.log + 1 ∧
      createdOk path (writeDevices E w t d devs).2.log = true := by
  induction devs with
  | nil => intro d _ h; obtain ⟨dev, hd, _⟩ := h; cases hd
  | cons dev rest ih =>
    intro d hnew hex hok
    have hok1 : (writeDevice E w t d dev).1 = Outcome.ok := by
      by_contra hc
      rw [writeDevices_cons_stop E w t d dev rest hc] at hok
      exact hc hok
    rw [writeDevices_cons_ok E w t d dev rest hok1] at hok ⊢
    by_cases hp : deviceFilePath w dev.ID = path
    · have habs : E.notExist d (deviceFilePath w dev.ID) = true := by
        rw [hp, hstat, hnew]
        rfl
      have h1 := writeDevice_new E w t d dev habs hok1
      rw [hp] at h1
      have h2 := writeDevices_found E w t path rest _ (keepsFinding_of_created hstat h1.2)
      exact ⟨h2.trans h1.1, createdOk_extends (writeDevices_extends E w t rest _) h1.2⟩
    · have h1 := writeDevice_other E w t d dev path hp
      have hex2 : ∃ dev ∈ rest, deviceFilePath w dev.ID = path := by
        obtain ⟨x, hx, hxp⟩ := hex
        rcases List.mem_cons.1 hx with rfl | hx
        · exact absurd hxp hp
        · exact ⟨x, hx, hxp⟩
      have h2 := ih _ (by rw [h1.2]; exact hnew) hex2 hok
      exact ⟨by rw [h2.1, h1.1], h2.2⟩

theorem deviceFilePath_eq_main_iff (w : Writer) (id : String) :
    deviceFilePath w id = mainFilePath w ↔ id = "monitor" := by
  constructor
  · intro h
    have h1 := congrArg String.data h
    simp only [deviceFilePath, mainFilePath, MainFile, String.data_append,
      List.append_assoc] at h1
    have h2 := List.append_cancel_left (List.append_cancel_left h1)
    have h3 : id.data ++ ".rrd".data = "monitor".data ++ ".rrd".data := by
      rw [h2]; rfl
    exact String.ext (List.append_cancel_right h3)
  · intro h
    subst h
    simp only [deviceFilePath, mainFilePath, MainFile]
    apply String.ext
    simp only [String.data_append, List.append_assoc]
    rfl

theorem Write_throttled (E : Engine) (w : Writer) (d : Disk) (u : RealtimeUpdate)
    (ht : throttled w u = true) : Write E w d u = (Outcome.ok, w, d) := by
  simp [Write, ht]

theorem Write_extends (E : Engine) (w : Writer) (d : Disk) (u : RealtimeUpdate) :
    d.log <+: (Write E w d u).2.2.log := by
  cases ht : throttled w u
  · obtain ⟨evs, h, _⟩ := Write_trace E w d u ht
    rw [h]
    exact List.prefix_append _ _
  · rw [Write_throttled E w d u ht]

theorem Write_found (E : Engine) (w : Writer) (d : Disk) (u : RealtimeUpdate)
    (path : String) (hfind : E.keepsFinding d path) :
    creations path (Write E w d u).2.2.log = creations path d.log := by
  cases ht : throttled w u
  · have he := ensure_found E d (mainCreator (mainFilePath w) (E.now d)) path
      (keepsFinding_now hfind)
    have hpre := ensure_extends E d (mainCreator (mainFilePath w) (E.now d))
    rw [mainCreator_filename] at he hpre
    unfold Write
    simp only [ht, Bool.false_eq_true, if_false]
    generalize (if E.notExist d (mainFilePath w) = true
      then d.call E (Op.create (mainCreator (mainFilePath w) (E.now d)) true)
      else (true, d)) = cr at he hpre ⊢
    obtain ⟨c1, d1⟩ := cr
    simp only at he hpre ⊢
    cases c1
    · simpa using he
    · simp only [if_true]
      cases mainValues u.Payload with
      | none => exact he
      | some values =>
        simp only []
        have hu1 := call_update_creations E d1 (mainFilePath w)
          (Time.Unix u.Payload.EpochTimestamp) values path
        have hu2 := call_extends E d1 (Op.update (mainFilePath w)
          (Time.Unix u.Payload.EpochTimestamp) values)
        generalize d1.call E (Op.update (mainFilePath w) (Time.Unix u.Payload.EpochTimestamp)
          values) = ur at hu1 hu2 ⊢
        obtain ⟨c2, d2⟩ := ur
        simp only at hu1 hu2 ⊢
        cases c2
        · simp only [Bool.false_eq_true, if_false]
          rw [hu1]; exact he
        · simp only [if_true]
          have hd := writeDevices_found E w (Time.Unix u.Payload.EpochTimestamp) path
            u.Payload.Devices d2 (keepsFinding_extends hfind (List.IsPrefix.trans hpre hu2))
          generalize writeDevices E w (Time.Unix u.Payload.EpochTimestamp) d2
            u.Payload.Devices = r at hd ⊢
          obtain ⟨o, d3⟩ := r
          simp only at hd
          have : creations path d3.log = creations path d.log := by rw [hd, hu1, he]
          cases o <;> exact this
  · rw [Write_throttled E w d u ht]

theorem Write_new (E : Engine) (w : Writer) (d : Disk) (u : RealtimeUpdate)
    (path : String) (hstat : ∀ d0 : Disk, E.notExist d0 path = !(createdOk path d0.log))
    (hnew : createdOk path d.log = false) (hmain : mainFilePath w ≠ path)
    (hpass : throttled w u = false)
    (hdev : ∃ dev ∈ u.Payload.Devices, deviceFilePath w dev.ID = path)
    (hok : (Write E w d u).1 = Outcome.ok) :
    creations path (Write E w d u).2.2.log = creations path d.log + 1 ∧
    createdOk path (Write E w d u).2.2.log = true := by
  have he := ensure_other E d (mainCreator (mainFilePath w) (E.now d)) path
    (by rw [mainCreator_filename]; exact hmain)
  rw [mainCreator_filename] at he
  unfold Write at hok ⊢
  simp only [hpass, Bool.false_eq_true, if_false] at hok ⊢
  generalize (if E.notExist d (mainFilePath w) = true
    then d.call E (Op.create (mainCreator (mainFilePath w) (E.now d)) true)
    else (true, d)) = cr at he hok ⊢
  obtain ⟨c1, d1⟩ := cr
  simp only at he hok ⊢
  cases c1
  · simp at hok
  · simp only [if_true] at hok ⊢
    cases hmv : mainValues u.Payload with
    | none => rw [hmv] at hok; simp at hok
    | some values =>
      rw [hmv] at hok
      simp only [] at hok ⊢
      have hu1 := call_update_creations E d1 (mainFilePath w)
        (Time.Unix u.Payload.EpochTimestamp) values path
      have hu2 := call_update_createdOk E d1 (mainFilePath w)
        (Time.Unix u.Payload.EpochTimestamp) values path
      generalize d1.call E (Op.update (mainFilePath w) (Time.Unix u.Payload.EpochTimestamp)
        values) = ur at hu1 hu2 hok ⊢
      obtain ⟨c2, d2⟩ := ur
      simp only at hu1 hu2 hok ⊢
      cases c2
      · simp at hok
      · simp only [if_true] at hok ⊢
        have hd := writeDevices_new E w (Time.Unix u.Payload.EpochTimestamp) path hstat
          u.Payload.Devices d2 (by rw [hu2, he.2]; exact hnew) hdev
        generalize writeDevices E w (Time.Unix u.Payload.EpochTimestamp) d2
          u.Payload.Devices = r at hd hok ⊢
        obtain ⟨o, d3⟩ := r
        cases o
        · have hd' := hd rfl
          simp only at hd' ⊢
          exact ⟨by rw [hd'.1, hu1, he.1], hd'.2⟩
        all_goals simp at hok

theorem writeAll_found (E : Engine) (path : String) (samples : List RealtimeUpdate) :
    ∀ (w : Writer) (d : Disk), E.keepsFinding d path →
      creations path (writeAll E w d samples).2.2.log = creations path d.log := by
  induction samples with
  | nil => intro w d _; rfl
  | cons u rest ih =>
    intro w d h
    have h1 := Write_found E w d u path h
    by_cases hok : (Write E w d u).1 = Outcome.ok
    · rw [writeAll_cons_ok E w d u rest hok]
      have h2 := ih (Write E w d u).2.1 (Write E w d u).2.2
        (keepsFinding_extends h (Write_extends E w d u))
      exact h2.trans h1
    · rw [writeAll_cons_stop E w d u rest hok]
      exact h1

/-- Claim C5, as amended (store creation). Take a run of Write calls that
all return nil, whose first sample passes the throttle and names a device id
other than monitor. Let os.Stat report the path of that device's store as not
existing exactly as long as no creation through that path has succeeded, and
let none have succeeded beforehand: nothing exists at the path at the start,
the path names a file of its own, and the stat does not fail for another
reason. Then the creation path for that store runs exactly once in the first
call, and exactly once in the whole run, so calls 2..N never create it. In
any run, with any engine, a store that os.Stat keeps finding is never created
again; and a call that finds the device's store, passes the throttle and
returns nil has not run the creation path for it and has updated it. -/
theorem creation_exactly_once (E : Engine) (w : Writer) (d : Disk) (u : RealtimeUpdate)
    (rest : List RealtimeUpdate) (id : String)
    (hid : ∃ dev ∈ u.Payload.Devices, dev.ID = id)
    (hstat : ∀ d0 : Disk,
      E.notExist d0 (deviceFilePath w id) = !(createdOk (deviceFilePath w id) d0.log))
    (hnew : createdOk (deviceFilePath w id) d.log = false)
    (hmon : id ≠ "monitor")
    (hpass : w.lastReport.nanos + Second ≤ (Time.Unix u.Payload.EpochTimestamp).nanos)
    (hok : (writeAll E w d (u :: rest)).1 = Outcome.ok) :
    E.notExist d (deviceFilePath w id) = true ∧
    creations (deviceFilePath w id) (Write E w d u).2.2.log
      = creations (deviceFilePath w id) d.log + 1 ∧
    creations (deviceFilePath w id) (writeAll E w d (u :: rest)).2.2.log
      = creations (deviceFilePath w id) d.log + 1 ∧
    (∀ (path : String) (w0 : Writer) (d0 : Disk) (samples : List RealtimeUpdate),
      (∀ d1 : Disk, d0.log <+: d1.log → E.notExist d1 path = false) →
      creations path (writeAll E w0 d0 samples).2.2.log = creations path d0.log) ∧
    (∀ (w0 : Writer) (d0 : Disk) (s : RealtimeUpdate), w0.directory = w.directory →
      (∀ d1 : Disk, d0.log <+: d1.log → E.notExist d1 (deviceFilePath w id) = false) →
      w0.lastReport.nanos + Second ≤ (Time.Unix s.Payload.EpochTimestamp).nanos →
      (Write E w0 d0 s).1 = Outcome.ok →
      ∀ dev ∈ s.Payload.Devices, dev.ID = id →
        creations (deviceFilePath w id) (Write E w0 d0 s).2.2.log
          = creations (deviceFilePath w id) d0.log ∧
        deviceUpdateEvent w0 (Time.Unix s.Payload.EpochTimestamp) dev
          ∈ (Write E w0 d0 s).2.2.log) := by
  have hok1 : (Write E w d u).1 = Outcome.ok := by
    by_contra hc
    rw [writeAll_cons_stop E w d u rest hc] at hok
    exact hc hok
  have hmain : mainFilePath w ≠ deviceFilePath w id := by
    intro h
    exact hmon ((deviceFilePath_eq_main_iff w id).1 h.symm)
  have hdev : ∃ dev ∈ u.Payload.Devices, deviceFilePath w dev.ID = deviceFilePath w id := by
    obtain ⟨dev, hd, hd2⟩ := hid
    exact ⟨dev, hd, by rw [hd2]⟩
  have h1 := Write_new E w d u _ hstat hnew hmain ((throttled_false_iff w u).2 hpass) hdev hok1
  refine ⟨by rw [hstat, hnew]; rfl, h1.1, ?_,
    fun path w0 d0 samples h => writeAll_found E path samples w0 d0 h, ?_⟩
  · rw [writeAll_cons_ok E w d u rest hok1]
    rw [writeAll_found E _ rest (Write E w d u).2.1 (Write E w d u).2.2
      (keepsFinding_of_created hstat h1.2), h1.1]
  · intro w0 d0 s _ hex hp hok0 dev hdev0 _
    refine ⟨Write_found E w0 d0 s _ hex, ?_⟩
    obtain ⟨evs, hlog, h⟩ := Write_trace E w0 d0 s ((throttled_false_iff w0 s).2 hp)
    rcases h with ⟨_, _, _, _, hmem⟩ | ⟨herr, _, _⟩ | ⟨hpanic, _⟩
    · rw [hlog]
      exact List.mem_append_right _ (hmem dev hdev0)
    · rw [hok0] at herr; simp [Outcome.isError] at herr
    · rw [hok0] at hpanic; cases hpanic


/-! ## The writer on concrete inputs -/

/-- Claim C1 on a concrete input: a second sample of the second a writer has just accepted
is discarded without touching the disk. -/
theorem Write_throttled_is_noop_witness :
    (Time.Unix sampleT'.Payload.EpochTimestamp).nanos < busyWriter.lastReport.nanos + Second ∧
    Write exampleEngine busyWriter {} sampleT' = (Outcome.ok, busyWriter, {}) :=
  ⟨by decide, Write_throttled_is_noop exampleEngine busyWriter {} sampleT' (by decide)⟩

/-- Claim C3 on a concrete input: the sample of the end-to-end scenario on a fresh writer
passes the throttle, and a nil return means the timestamp is the sample's. -/
theorem Write_failure_keeps_lastReport_witness :
    freshWriter.lastReport.nanos + Second ≤ (Time.Unix sampleT.Payload.EpochTimestamp).nanos ∧
    ((Write exampleEngine freshWriter {} sampleT).1 = Outcome.ok →
      (Write exampleEngine freshWriter {} sampleT).2.1.lastReport = Time.Unix 1747531244) := by
  refine ⟨by decide, ?_⟩
  obtain ⟨evs, _, _, _, _, _, h⟩ :=
    Write_failure_keeps_lastReport exampleEngine freshWriter {} sampleT (by decide)
  exact h

/-- Claim C4 on the end-to-end scenario: Write accepts the sample at epoch T
in which device C has no wattage, and the store of C receives 0.0 for all
five channels at T. -/
theorem Write_device_values_witness :
    freshWriter.lastReport.nanos + Second ≤ (Time.Unix sampleT.Payload.EpochTimestamp).nanos ∧
    (Write exampleEngine freshWriter {} sampleT).1 = Outcome.ok ∧
    ({ op := Op.update "out/C.rrd" (Time.Unix 1747531244)
          [Value.float Float64.zero, Value.float Float64.zero, Value.float Float64.zero,
           Value.float Float64.zero, Value.float Float64.zero],
       ok := true } : Event) ∈ (Write exampleEngine freshWriter {} sampleT).2.2.log := by
  refine ⟨by decide, by decide, ?_⟩
  obtain ⟨evs, hlog, h, _⟩ :=
    Write_device_values exampleEngine freshWriter {} sampleT (by decide)
  rw [hlog]
  exact List.mem_append_right _ (h (by decide) { ID := "C", Name := "Fridge" } (by decide))

/-- Claim C5, counterexample. In each of four runs the samples name a device
for which no store exists beforehand, and the creation path for that device
does not run exactly once. (1) A fresh writer accepts a sample at epoch
1747531244 that names only device B; two more samples of the same second both
name device C: both are throttled, both calls return nil, and the creation
path for C has run zero times. (2) os.Stat fails on the path of C with an
error other than not-exist: Write skips the creation, the update of the
missing file fails, and the creation path has run zero times. (3) The device
is named monitor: its path is the aggregate store's, which Write has just
created, so the only creation in the history is the aggregate one, with the
aggregate schema, and the device's update of that store at the same second is
refused. (4) The creation of C's file fails: the next call that names C runs
the creation path again, twice in all. (5) The device is named ./monitor in
a directory that resolves its path to the aggregate file: os.Stat finds the
file Write has just created, although nothing was ever created through the
device's path, and the creation path for the device has run zero times. -/
theorem creation_path_not_exactly_once :
    ((Write exampleEngine freshWriter {} sampleB).1 = Outcome.ok ∧
      (∀ s ∈ [sampleT, sampleT'], ∃ dev ∈ s.Payload.Devices, dev.ID = "C") ∧
      exampleEngine.notExist (Write exampleEngine freshWriter {} sampleB).2.2
        (deviceFilePath freshWriter "C") = true ∧
      (writeAll exampleEngine (Write exampleEngine freshWriter {} sampleB).2.1
        (Write exampleEngine freshWriter {} sampleB).2.2 [sampleT, sampleT']).1 = Outcome.ok ∧
      creations (deviceFilePath freshWriter "C")
        (writeAll exampleEngine (Write exampleEngine freshWriter {} sampleB).2.1
          (Write exampleEngine freshWriter {} sampleB).2.2 [sampleT, sampleT']).2.2.log = 0) ∧
    ((Write (strictEngine "out/C.rrd" "") freshWriter {} sampleT).1
        = Outcome.updateError "out/C.rrd" ∧
      creations "out/C.rrd"
        (Write (strictEngine "out/C.rrd" "") freshWriter {} sampleT).2.2.log = 0) ∧
    (deviceFilePath freshWriter "monitor" = "out/monitor.rrd" ∧
      (Write (strictEngine "" "") freshWriter {} sampleMonitor).1
        = Outcome.updateError "out/monitor.rrd" ∧
      (Write (strictEngine "" "") freshWriter {} sampleMonitor).2.2.log.filter
          (Event.isCreationOf "out/monitor.rrd")
        = [{ op := Op.create (mainCreator "out/monitor.rrd" (Time.Unix 1747531300)) true,
             ok := true }] ∧
      mainCreator "out/monitor.rrd" (Time.Unix 1747531300)
        ≠ deviceCreator "out/monitor.rrd" (Time.Unix 1747531300)) ∧
    ((Write (strictEngine "" "out/C.rrd") freshWriter {} sampleT).1
        = Outcome.createError "out/C.rrd" ∧
      (Write (strictEngine "" "out/C.rrd")
        (Write (strictEngine "" "out/C.rrd") freshWriter {} sampleT).2.1
        (Write (strictEngine "" "out/C.rrd") freshWriter {} sampleT).2.2 sampleT1).1
        = Outcome.createError "out/C.rrd" ∧
      creations "out/C.rrd"
        (Write (strictEngine "" "out/C.rrd")
          (Write (strictEngine "" "out/C.rrd") freshWriter {} sampleT).2.1
          (Write (strictEngine "" "out/C.rrd") freshWriter {} sampleT).2.2 sampleT1).2.2.log
        = 2) ∧
    (deviceFilePath freshWriter "./monitor" = "out/./monitor.rrd" ∧
      dotEngine.notExist {} "out/./monitor.rrd" = true ∧
      dotEngine.notExist (Write dotEngine freshWriter {} sampleDotMonitor).2.2
        "out/./monitor.rrd" = false ∧
      createdOk "out/./monitor.rrd"
        (Write dotEngine freshWriter {} sampleDotMonitor).2.2.log = false ∧
      creations "out/./monitor.rrd"
        (Write dotEngine freshWriter {} sampleDotMonitor).2.2.log = 0) := by
  refine ⟨by decide, by decide, by decide, by decide, by decide⟩

/-- Claim C5 as amended, on a concrete input: three writes naming the new device C on a
fresh writer, the second throttled, run the creation path for C once. -/
theorem creation_exactly_once_witness :
    (∃ dev ∈ sampleT.Payload.Devices, dev.ID = "C") ∧
    (∀ d0 : Disk, exampleEngine.notExist d0 (deviceFilePath freshWriter "C")
      = !(createdOk (deviceFilePath freshWriter "C") d0.log)) ∧
    createdOk (deviceFilePath freshWriter "C") ({} : Disk).log = false ∧
    "C" ≠ "monitor" ∧
    freshWriter.lastReport.nanos + Second ≤ (Time.Unix sampleT.Payload.EpochTimestamp).nanos ∧
    (writeAll exampleEngine freshWriter {} [sampleT, sampleT', sampleT1]).1 = Outcome.ok ∧
    creations (deviceFilePath freshWriter "C")
      (writeAll exampleEngine freshWriter {} [sampleT, sampleT', sampleT1]).2.2.log = 1 := by
  refine ⟨by decide, fun _ => rfl, by decide, by decide, by decide, by decide, ?_⟩
  have h := (creation_exactly_once exampleEngine freshWriter {} sampleT [sampleT', sampleT1] "C"
    (by decide) (fun _ => rfl) (by decide) (by decide) (by decide) (by decide)).2.2.1
  simpa [creations] using h

/-! ## The credential session -/

theorem decodeAuth_object (doc : AuthDoc) (mismatch : Bool) (a : AuthResponse) :
    decodeAuth (AuthBody.object doc mismatch) (some a) = (some (doc.store a), mismatch) := rfl

theorem Refresh_object (c : Client) (a : AuthResponse) (now : Time) (doc : AuthDoc)
    (mismatch : Bool) (hc : c.authResponse = some a) (ha : a.Authorized = true) :
    c.Refresh now (AuthReply.response (AuthBody.object doc mismatch)) =
      (if mismatch = true then Ret.returned {} (some Error.decode)
       else if (doc.store { a with Expires := now.Add defaultTokenExpiry }).Authorized = true
         then Ret.returned (doc.store { a with Expires := now.Add defaultTokenExpiry }).Expires none
         else Ret.returned {} (some Error.ErrAuthenticationFailed),
       { c with authResponse := some (doc.store { a with Expires := now.Add defaultTokenExpiry }) },
       [Request.renew a.UserID a.RefreshToken]) := by
  unfold Client.Refresh
  rw [hc]
  simp only [decodeAuth_object]
  generalize doc.store { a with Expires := now.Add defaultTokenExpiry } = a1
  cases mismatch <;> cases h : a1.Authorized <;> simp [h, ha]

theorem Login_object (c : Client) (username password : String) (now : Time) (doc : AuthDoc)
    (mismatch : Bool) (devicesReply : DevicesReply) :
    c.Login username password now (AuthReply.response (AuthBody.object doc mismatch)) devicesReply =
      (if mismatch = true then
        (Ret.returned () (some Error.decode),
         { c with authResponse := some (doc.store { Expires := now.Add defaultTokenExpiry }) },
         [Request.authenticate username password])
       else if (doc.store { Expires := now.Add defaultTokenExpiry }).Authorized = true then
        ((({ c with authResponse := some (doc.store { Expires := now.Add defaultTokenExpiry }) }
            : Client).loadDevices devicesReply).1,
         (({ c with authResponse := some (doc.store { Expires := now.Add defaultTokenExpiry }) }
            : Client).loadDevices devicesReply).2.1,
         Request.authenticate username password ::
           (({ c with authResponse := some (doc.store { Expires := now.Add defaultTokenExpiry }) }
            : Client).loadDevices devicesReply).2.2)
       else
        (Ret.returned () (some Error.ErrAuthenticationFailed),
         { c with authResponse := some (doc.store { Expires := now.Add defaultTokenExpiry }) },
         [Request.authenticate username password])) := by
  unfold Client.Login
  simp only [decodeAuth_object]
  generalize doc.store { Expires := now.Add defaultTokenExpiry } = a1
  cases mismatch <;> cases h : a1.Authorized <;> simp [h]

theorem loadDevices_authResponse (c : Client) (reply : DevicesReply) :
    (c.loadDevices reply).2.1.authResponse = c.authResponse := by
  unfold Client.loadDevices
  repeat' split
  all_goals rfl

theorem store_Expires (doc : AuthDoc) (a : AuthResponse) :
    (doc.store a).Expires = doc.Expires.getD a.Expires := by
  unfold AuthDoc.store
  cases doc.Expires <;> rfl

theorem store_Authorized (doc : AuthDoc) (a : AuthResponse) :
    (doc.store a).Authorized = doc.Authorized.getD a.Authorized := by
  unfold AuthDoc.store
  cases doc.Authorized <;> rfl

/-- Claim C6, counterexample. The renewal response sets no expiry, yet the
credential's expiry after Refresh is the clock reading plus 24 hours and not
the expiry the credential had before. -/
theorem Refresh_resets_expiry :
    docNewToken.Expires = none ∧
    (ownerClient.Refresh clock
        (AuthReply.response (AuthBody.object docNewToken false))).2.1.authResponse.map
      AuthResponse.Expires = some (clock.Add defaultTokenExpiry) ∧
    clock.Add defaultTokenExpiry ≠ credOwner.Expires := by
  decide

/-- Claim C6, as amended (credential overlay, P1). For every authorized
credential a and every renewal response that is a JSON object, the credential
held after Refresh has, for every field other than the expiry, the response's
value when the response sets the field and the prior value when it does not
(a member for the composite fields Settings and Monitors being decoded over
the prior value); the expiry is the response's when it sets one and the clock
reading plus 24 hours otherwise. Nothing else of the client changes. -/
theorem Refresh_overlay (c : Client) (a : AuthResponse) (now : Time) (doc : AuthDoc)
    (mismatch : Bool) (hc : c.authResponse = some a) (ha : a.Authorized = true) :
    ∃ a1, (c.Refresh now (AuthReply.response (AuthBody.object doc mismatch))).2.1
        = { c with authResponse := some a1 } ∧
      a1.Authorized = doc.Authorized.getD a.Authorized ∧
      a1.AccountID = doc.AccountID.getD a.AccountID ∧
      a1.UserID = doc.UserID.getD a.UserID ∧
      a1.AccessToken = doc.AccessToken.getD a.AccessToken ∧
      a1.Roles = doc.Roles.getD a.Roles ∧
      a1.RefreshToken = doc.RefreshToken.getD a.RefreshToken ∧
      a1.BridgeServer = doc.BridgeServer.getD a.BridgeServer ∧
      a1.DateCreated = doc.DateCreated.getD a.DateCreated ∧
      a1.TotpEnabled = doc.TotpEnabled.getD a.TotpEnabled ∧
      a1.Settings = (match doc.Settings with | some f => f a.Settings | none => a.Settings) ∧
      a1.Monitors = (match doc.Monitors with | some f => f a.Monitors | none => a.Monitors) ∧
      a1.Expires = doc.Expires.getD (now.Add defaultTokenExpiry) := by
  refine ⟨doc.store { a with Expires := now.Add defaultTokenExpiry }, ?_, ?_⟩
  · rw [Refresh_object c a now doc mismatch hc ha]
  · unfold AuthDoc.store
    refine ⟨?_, ?_, ?_, ?_, ?_, ?_, ?_, ?_, ?_, rfl, rfl, ?_⟩
    · cases doc.Authorized <;> rfl
    · cases doc.AccountID <;> rfl
    · cases doc.UserID <;> rfl
    · cases doc.AccessToken <;> rfl
    · cases doc.Roles <;> rfl
    · cases doc.RefreshToken <;> rfl
    · cases doc.BridgeServer <;> rfl
    · cases doc.DateCreated <;> rfl
    · cases doc.TotpEnabled <;> rfl
    · cases doc.Expires <;> rfl

/-- Claim C6 as amended, on a concrete input: the credential has role owner, the response
omits the role and sets a new access token; the merged credential has role
owner and the new token. -/
theorem Refresh_overlay_witness :
    ownerClient.authResponse = some credOwner ∧ credOwner.Authorized = true ∧
    credOwner.Roles = "owner" ∧ docNewToken.Roles = none ∧
    ∃ a1, (ownerClient.Refresh clock
        (AuthReply.response (AuthBody.object docNewToken false))).2.1.authResponse = some a1 ∧
      a1.Roles = "owner" ∧ a1.AccessToken = "token-new" := by
  refine ⟨rfl, rfl, rfl, rfl, ?_⟩
  obtain ⟨a1, h, _, _, _, htok, hroles, _⟩ :=
    Refresh_overlay ownerClient credOwner clock docNewToken false rfl rfl
  exact ⟨a1, by rw [h], hroles, htok⟩

theorem Refresh_err_notAuthenticated_iff (c : Client) (now : Time) (reply : AuthReply) :
    (c.Refresh now reply).1.err = some Error.ErrNotAuthenticated ↔
      (c.authResponse = none ∨ ∃ a, c.authResponse = some a ∧ a.Authorized = false) := by
  cases hc : c.authResponse with
  | none => simp [Client.Refresh, hc, Ret.err]
  | some a =>
    cases ha : a.Authorized
    · simp [Client.Refresh, hc, ha, Ret.err]
    · simp only [reduceCtorEq, Option.some.injEq, false_or, exists_eq_left', ha,
        Bool.true_eq_false, iff_false]
      cases reply with
      | transportError => simp [Client.Refresh, hc, ha, Ret.err]
      | response body =>
        cases body with
        | invalid => simp [Client.Refresh, hc, ha, Ret.err, decodeAuth]
        | null => simp [Client.Refresh, hc, ha, Ret.err, decodeAuth]
        | object doc mismatch =>
          rw [Refresh_object c a now doc mismatch hc ha]
          split_ifs <;> simp [Ret.err]

theorem Login_authorized (c : Client) (username password : String) (now : Time)
    (doc : AuthDoc) (devicesReply : DevicesReply) (h : doc.Authorized = some true) :
    c.Login username password now (AuthReply.response (AuthBody.object doc false)) devicesReply
      = ((({ c with authResponse := some (doc.store { Expires := now.Add defaultTokenExpiry }) }
            : Client).loadDevices devicesReply).1,
         (({ c with authResponse := some (doc.store { Expires := now.Add defaultTokenExpiry }) }
            : Client).loadDevices devicesReply).2.1,
         Request.authenticate username password ::
           (({ c with authResponse := some (doc.store { Expires := now.Add defaultTokenExpiry }) }
            : Client).loadDevices devicesReply).2.2) := by
  rw [Login_object]
  have : (doc.store { Expires := now.Add defaultTokenExpiry }).Authorized = true := by
    rw [store_Authorized, h]; rfl
  simp [this]

theorem Time.Add_nanos (t : Time) (d : Int) :
    (t.Add d).nanos = t.nanos + d ∧ 0 ≤ (t.Add d).nsec ∧ (t.Add d).nsec < 1000000000 := by
  unfold Time.Add
  simp only [Time.nanos]
  have h1 := Int.emod_add_ediv (t.sec * 1000000000 + t.nsec + d) 1000000000
  have h2 := Int.emod_nonneg (t.sec * 1000000000 + t.nsec + d)
    (show (1000000000 : Int) ≠ 0 by decide)
  have h3 := Int.emod_lt_of_pos (t.sec * 1000000000 + t.nsec + d)
    (show (0 : Int) < 1000000000 by decide)
  refine ⟨by omega, h2, h3⟩

theorem defaultExpiry_nanos (now : Time) :
    (now.Add defaultTokenExpiry).nanos = now.nanos + 86400000000000 ∧
    0 ≤ (now.Add defaultTokenExpiry).nsec ∧ (now.Add defaultTokenExpiry).nsec < 1000000000 := by
  have h := Time.Add_nanos now defaultTokenExpiry
  have hd : defaultTokenExpiry = 86400000000000 := by decide
  rw [hd] at h
  rw [hd]
  exact h

/-- Claim C7 (token lifetime). After a Login or a Refresh performed at time
now, the credential's expiry is the expiry the response supplies when it
supplies one, and now plus 24 hours when it does not: when the response is a
JSON object without an expiry, and when the body is not JSON at all, so that
decoding stores nothing. A successful Login leaves that expiry as the token
expiry, and a successful Refresh returns it. The default is the instant
86 400 000 000 000 nanoseconds, that is 24 hours, after now. A body that is
the JSON value null leaves no credential. -/
theorem expiry_from_response_or_default (c : Client) (username password : String) (now : Time)
    (doc : AuthDoc) (mismatch : Bool) (devicesReply : DevicesReply) :
    ((c.Login username password now (AuthReply.response (AuthBody.object doc mismatch))
        devicesReply).2.1.authResponse.map AuthResponse.Expires
      = some (match doc.Expires with
              | some e => e
              | none => now.Add defaultTokenExpiry)) ∧
    ((c.Login username password now (AuthReply.response (AuthBody.object doc mismatch))
        devicesReply).1 = Ret.returned () none →
      (c.Login username password now (AuthReply.response (AuthBody.object doc mismatch))
        devicesReply).2.1.TokenExpiry
        = (match doc.Expires with
           | some e => e
           | none => now.Add defaultTokenExpiry)) ∧
    (∀ a, c.authResponse = some a → a.Authorized = true →
      ((c.Refresh now (AuthReply.response (AuthBody.object doc mismatch))).2.1.authResponse.map
          AuthResponse.Expires
        = some (match doc.Expires with
                | some e => e
                | none => now.Add defaultTokenExpiry)) ∧
      ∀ t, (c.Refresh now (AuthReply.response (AuthBody.object doc mismatch))).1
          = Ret.returned t none →
        t = (match doc.Expires with
             | some e => e
             | none => now.Add defaultTokenExpiry) ∧
        (c.Refresh now (AuthReply.response (AuthBody.object doc mismatch))).2.1.TokenExpiry = t) ∧
    ((now.Add defaultTokenExpiry).nanos = now.nanos + 86400000000000 ∧
      0 ≤ (now.Add defaultTokenExpiry).nsec ∧ (now.Add defaultTokenExpiry).nsec < 1000000000) ∧
    ((c.Login username password now (AuthReply.response AuthBody.invalid)
        devicesReply).2.1.authResponse.map AuthResponse.Expires
      = some (now.Add defaultTokenExpiry)) ∧
    (∀ a, c.authResponse = some a → a.Authorized = true →
      (c.Refresh now (AuthReply.response AuthBody.invalid)).2.1.authResponse.map
          AuthResponse.Expires
        = some (now.Add defaultTokenExpiry)) ∧
    ((c.Login username password now (AuthReply.response AuthBody.null)
        devicesReply).2.1.authResponse = none) ∧
    (∀ a, c.authResponse = some a → a.Authorized = true →
      (c.Refresh now (AuthReply.response AuthBody.null)).2.1.authResponse = none) := by
  have hexp : ∀ a : AuthResponse, a.Expires = now.Add defaultTokenExpiry →
      (doc.store a).Expires = (match doc.Expires with
        | some e => e
        | none => now.Add defaultTokenExpiry) := by
    intro a ha
    rw [store_Expires, ← ha]
    cases doc.Expires <;> rfl
  refine ⟨?_, ?_, ?_, defaultExpiry_nanos now, ?_, ?_, ?_, ?_⟩
  · rw [Login_object]
    split_ifs
    · simp [hexp]
    · simp [loadDevices_authResponse, hexp]
    · simp [hexp]
  · rw [Login_object]
    split_ifs with hm ha
    · intro h; simp at h
    · intro _
      have h2 := loadDevices_authResponse
        ({ c with authResponse := some (doc.store { Expires := now.Add defaultTokenExpiry }) } :
          Client) devicesReply
      simp only [Client.TokenExpiry, h2, ha, Bool.not_true, Bool.false_eq_true, if_false]
      exact hexp _ rfl
    · intro h; simp at h
  · intro a hc ha
    rw [Refresh_object c a now doc mismatch hc ha]
    refine ⟨by simp [hexp], ?_⟩
    intro t ht
    split_ifs at ht with hm hauth
    · simp at ht
    · simp only [Ret.returned.injEq, and_true] at ht
      refine ⟨by rw [← ht]; exact hexp _ rfl, ?_⟩
      simp only [Client.TokenExpiry, hauth, Bool.not_true, Bool.false_eq_true, if_false]
      exact ht
    · simp at ht
  · simp [Client.Login, decodeAuth]
  · intro a hc ha
    simp [Client.Refresh, hc, ha, decodeAuth]
  · simp [Client.Login, decodeAuth]
  · intro a hc ha
    simp [Client.Refresh, hc, ha, decodeAuth]

/-- Claim C7 on concrete inputs, the clock reading 1747531200. A renewal
response with its own expiry makes Refresh return that expiry, which is the
token expiry afterwards. A renewal response without an expiry makes Refresh
return 1747617600, which is the clock reading plus 86400 seconds, and not the
expiry the credential had. A login response without an expiry gives the same
token expiry. -/
theorem expiry_from_response_or_default_witness :
    ownerClient.authResponse = some credOwner ∧ credOwner.Authorized = true ∧
    (ownerClient.Refresh clock (AuthReply.response (AuthBody.object docWithExpiry false))).1
      = Ret.returned (Time.Unix 1747600000) none ∧
    (ownerClient.Refresh clock
        (AuthReply.response (AuthBody.object docWithExpiry false))).2.1.TokenExpiry
      = Time.Unix 1747600000 ∧
    docNewToken.Expires = none ∧
    (ownerClient.Refresh clock (AuthReply.response (AuthBody.object docNewToken false))).1
      = Ret.returned (Time.Unix (1747531200 + 86400)) none ∧
    (ownerClient.Refresh clock
        (AuthReply.response (AuthBody.object docNewToken false))).2.1.TokenExpiry
      = Time.Unix 1747617600 ∧
    docLogin.Expires = none ∧
    (({} : Client).Login "u" "p" clock (AuthReply.response (AuthBody.object docLogin false))
        replyThreeDevices).1 = Ret.returned () none ∧
    (({} : Client).Login "u" "p" clock (AuthReply.response (AuthBody.object docLogin false))
        replyThreeDevices).2.1.TokenExpiry = Time.Unix 1747617600 := by
  have h := (expiry_from_response_or_default ownerClient "" "" clock docWithExpiry false
    replyServerError).2.2.1 credOwner rfl rfl
  have h1 : (ownerClient.Refresh clock
      (AuthReply.response (AuthBody.object docWithExpiry false))).1
      = Ret.returned (Time.Unix 1747600000) none := by decide
  have g := (expiry_from_response_or_default ownerClient "" "" clock docNewToken false
    replyServerError).2.2.1 credOwner rfl rfl
  have g1 : (ownerClient.Refresh clock
      (AuthReply.response (AuthBody.object docNewToken false))).1
      = Ret.returned (Time.Unix (1747531200 + 86400)) none := by decide
  have g2 := (g.2 _ g1).2
  have l := (expiry_from_response_or_default {} "u" "p" clock docLogin false
    replyThreeDevices).2.1
  have l1 : (({} : Client).Login "u" "p" clock
      (AuthReply.response (AuthBody.object docLogin false)) replyThreeDevices).1
      = Ret.returned () none := by decide
  have l2 := l l1
  exact ⟨rfl, rfl, h1, (h.2 _ h1).2, rfl, g1, by rw [g2]; decide, rfl, l1, by rw [l2]; decide⟩

/-- Claim C8 (Refresh errors). Refresh returns NotAuthenticated exactly when
the client holds no credential or a credential that is not authorized; it
then returns the zero time, sends no request and leaves the client unchanged.
When an authorized client's renewal response decodes with authorized false,
Refresh returns the zero time and AuthenticationFailed. -/
theorem Refresh_notAuthenticated (c : Client) (now : Time) (reply : AuthReply) :
    ((c.Refresh now reply).1.err = some Error.ErrNotAuthenticated ↔
      (c.authResponse = none ∨ ∃ a, c.authResponse = some a ∧ a.Authorized = false)) ∧
    ((c.authResponse = none ∨ ∃ a, c.authResponse = some a ∧ a.Authorized = false) →
      c.Refresh now reply = (Ret.returned {} (some Error.ErrNotAuthenticated), c, [])) ∧
    (∀ a doc, c.authResponse = some a → a.Authorized = true → doc.Authorized = some false →
      (c.Refresh now (AuthReply.response (AuthBody.object doc false))).1
        = Ret.returned {} (some Error.ErrAuthenticationFailed)) := by
  refine ⟨Refresh_err_notAuthenticated_iff c now reply, ?_, ?_⟩
  · intro h
    rcases h with h | ⟨a, h, ha⟩
    · simp [Client.Refresh, h]
    · simp [Client.Refresh, h, ha]
  · intro a doc hc ha hdoc
    rw [Refresh_object c a now doc false hc ha]
    simp [store_Authorized, hdoc]

/-- Claim C8 on a concrete input: a client that never logged in gets NotAuthenticated with
no request sent; a rejected renewal gets AuthenticationFailed. -/
theorem Refresh_notAuthenticated_witness :
    ((({} : Client).authResponse = none ∨
        ∃ a, ({} : Client).authResponse = some a ∧ a.Authorized = false)) ∧
    ({} : Client).Refresh clock (AuthReply.response (AuthBody.object docNewToken false))
      = (Ret.returned {} (some Error.ErrNotAuthenticated), {}, []) ∧
    (ownerClient.Refresh clock (AuthReply.response (AuthBody.object docRejected false))).1
      = Ret.returned {} (some Error.ErrAuthenticationFailed) := by
  have h := Refresh_notAuthenticated {} clock
    (AuthReply.response (AuthBody.object docNewToken false))
  have h2 := Refresh_notAuthenticated ownerClient clock AuthReply.transportError
  exact ⟨Or.inl rfl, h.2.1 (Or.inl rfl), h2.2.2 credOwner docRejected rfl rfl rfl⟩

/-- Claim C9 (Login and the snapshot). When the login response decodes with
authorized false (or without the member), Login returns AuthenticationFailed,
sends only the authentication request and leaves the registry as it was.
When the response decodes with authorized true, the result of Login, the
client afterwards and the requests sent after the authentication request are
exactly those of loadDevices on the client holding the new credential. -/
theorem Login_unauthorized (c : Client) (username password : String) (now : Time)
    (doc : AuthDoc) (devicesReply : DevicesReply) :
    (doc.Authorized.getD false = false →
      c.Login username password now (AuthReply.response (AuthBody.object doc false)) devicesReply
        = (Ret.returned () (some Error.ErrAuthenticationFailed),
           { c with authResponse := some (doc.store { Expires := now.Add defaultTokenExpiry }) },
           [Request.authenticate username password])) ∧
    (doc.Authorized = some true →
      c.Login username password now (AuthReply.response (AuthBody.object doc false)) devicesReply
        = ((({ c with authResponse := some (doc.store { Expires := now.Add defaultTokenExpiry }) }
              : Client).loadDevices devicesReply).1,
           (({ c with authResponse := some (doc.store { Expires := now.Add defaultTokenExpiry }) }
              : Client).loadDevices devicesReply).2.1,
           Request.authenticate username password ::
             (({ c with authResponse := some (doc.store { Expires := now.Add defaultTokenExpiry }) }
              : Client).loadDevices devicesReply).2.2)) := by
  constructor
  · intro h
    rw [Login_object]
    have : (doc.store { Expires := now.Add defaultTokenExpiry }).Authorized = false := by
      rw [store_Authorized]; exact h
    simp [this]
  · exact Login_authorized c username password now doc devicesReply

/-- Claim C9 on a concrete input: a denied login fails with AuthenticationFailed and loads
no registry; an authorized login with a good snapshot returns nil. -/
theorem Login_unauthorized_witness :
    docDenied.Authorized.getD false = false ∧ docLogin.Authorized = some true ∧
    (({} : Client).Login "user" "pass" clock (AuthReply.response (AuthBody.object docDenied false))
      replyThreeDevices).1 = Ret.returned () (some Error.ErrAuthenticationFailed) ∧
    (({} : Client).Login "user" "pass" clock (AuthReply.response (AuthBody.object docDenied false))
      replyThreeDevices).2.1.devices = none ∧
    (({} : Client).Login "user" "pass" clock (AuthReply.response (AuthBody.object docLogin false))
      replyThreeDevices).1 = Ret.returned () none := by
  have h := Login_unauthorized {} "user" "pass" clock docDenied replyThreeDevices
  have h2 := Login_unauthorized {} "user" "pass" clock docLogin replyThreeDevices
  refine ⟨rfl, rfl, ?_, ?_, ?_⟩
  · rw [h.1 rfl]
  · rw [h.1 rfl]
  · rw [h2.2 rfl]; decide

/-- Claim C10, counterexample. The login response is authorized and the
device-overview request is answered with status 500: Login returns the
load-devices error, yet afterwards the token expiry is the clock reading plus
24 hours, not the zero time, Refresh succeeds, and GetRealtimeUpdate hands
out the sample it receives. -/
theorem Login_snapshot_failure_leaves_session_usable :
    docLogin.Authorized = some true ∧
    (({} : Client).Login "user" "pass" clock (AuthReply.response (AuthBody.object docLogin false))
      replyServerError).1 = Ret.returned () (some (Error.ErrFailedToLoadDevices 500)) ∧
    (({} : Client).Login "user" "pass" clock (AuthReply.response (AuthBody.object docLogin false))
      replyServerError).2.1.TokenExpiry = clock.Add defaultTokenExpiry ∧
    clock.Add defaultTokenExpiry ≠ ({} : Time) ∧
    ((({} : Client).Login "user" "pass" clock (AuthReply.response (AuthBody.object docLogin false))
      replyServerError).2.1.Refresh clock
        (AuthReply.response (AuthBody.object docNewToken false))).1
      = Ret.returned (clock.Add defaultTokenExpiry) none ∧
    ((({} : Client).Login "user" "pass" clock (AuthReply.response (AuthBody.object docLogin false))
      replyServerError).2.1.GetRealtimeUpdate true (some sampleT)).1
      = Ret.returned (some sampleT) none := by
  decide

/-- Claim C10, as amended. When the login response is authorized and Login
does not return nil, Login returns an error (or panics), namely the outcome
of loadDevices; the credential it received stays stored and authorized, so
the token expiry is the response's expiry or the clock reading plus 24
hours, and neither Refresh nor GetRealtimeUpdate fails with
NotAuthenticated. -/
theorem Login_snapshot_failure_keeps_credential (c : Client) (username password : String)
    (now : Time) (doc : AuthDoc) (devicesReply : DevicesReply)
    (hauth : doc.Authorized = some true)
    (hfail : (c.Login username password now (AuthReply.response (AuthBody.object doc false))
      devicesReply).1 ≠ Ret.returned () none) :
    ((c.Login username password now (AuthReply.response (AuthBody.object doc false))
        devicesReply).1 = Ret.panicked ∨
      ∃ e, (c.Login username password now (AuthReply.response (AuthBody.object doc false))
        devicesReply).1 = Ret.returned () (some e)) ∧
    (c.Login username password now (AuthReply.response (AuthBody.object doc false))
        devicesReply).1
      = (({ c with authResponse := some (doc.store { Expires := now.Add defaultTokenExpiry }) }
            : Client).loadDevices devicesReply).1 ∧
    (∃ a, (c.Login username password now (AuthReply.response (AuthBody.object doc false))
        devicesReply).2.1.authResponse = some a ∧ a.Authorized = true) ∧
    (c.Login username password now (AuthReply.response (AuthBody.object doc false))
        devicesReply).2.1.TokenExpiry = doc.Expires.getD (now.Add defaultTokenExpiry) ∧
    (∀ now2 reply, ((c.Login username password now
        (AuthReply.response (AuthBody.object doc false)) devicesReply).2.1.Refresh now2 reply).1.err
        ≠ some Error.ErrNotAuthenticated) ∧
    (∀ dialOk received, ((c.Login username password now
        (AuthReply.response (AuthBody.object doc false))
        devicesReply).2.1.GetRealtimeUpdate dialOk received).1.err
        ≠ some Error.ErrNotAuthenticated) := by
  have hL := Login_authorized c username password now doc devicesReply hauth
  have hA : (doc.store { Expires := now.Add defaultTokenExpiry }).Authorized = true := by
    rw [store_Authorized, hauth]; rfl
  have hcred : (c.Login username password now (AuthReply.response (AuthBody.object doc false))
      devicesReply).2.1.authResponse
      = some (doc.store { Expires := now.Add defaultTokenExpiry }) := by
    rw [hL]; exact loadDevices_authResponse _ _
  have hres : (c.Login username password now (AuthReply.response (AuthBody.object doc false))
      devicesReply).1 = Ret.panicked ∨
      ∃ e, (c.Login username password now (AuthReply.response (AuthBody.object doc false))
        devicesReply).1 = Ret.returned () (some e) := by
    generalize (c.Login username password now (AuthReply.response (AuthBody.object doc false))
      devicesReply).1 = r at hfail
    cases r with
    | panicked => exact Or.inl rfl
    | returned v e =>
      cases e with
      | none => exact absurd rfl hfail
      | some e => exact Or.inr ⟨e, rfl⟩
  generalize (c.Login username password now (AuthReply.response (AuthBody.object doc false))
      devicesReply).2.1 = c' at hcred
  refine ⟨hres, by rw [hL], ⟨_, hcred, hA⟩, ?_, ?_, ?_⟩
  · simp only [Client.TokenExpiry, hcred, hA, Bool.not_true, Bool.false_eq_true, if_false]
    rw [store_Expires]
  · intro now2 reply
    have := Refresh_err_notAuthenticated_iff c' now2 reply
    intro h
    rcases this.1 h with h1 | ⟨a, h1, h2⟩
    · rw [hcred] at h1; cases h1
    · rw [hcred] at h1
      cases h1
      rw [hA] at h2; cases h2
  · intro dialOk received
    unfold Client.GetRealtimeUpdate
    have hn : c'.notAuthenticated = false := by
      simp [Client.notAuthenticated, hcred, hA]
    simp only [hn, Bool.false_eq_true, if_false]
    unfold Client.startRealtimeUpdates
    simp only [hcred, hA, Bool.not_true, Bool.false_eq_true, if_false]
    cases c'.conn <;> cases (doc.store { Expires := now.Add defaultTokenExpiry }).Monitors <;>
      cases dialOk <;> cases received <;> simp [Ret.err]

/-- Claim C10 as amended, on a concrete input: an authorized login whose snapshot request
is answered with status 500. -/
theorem Login_snapshot_failure_keeps_credential_witness :
    docLogin.Authorized = some true ∧
    (({} : Client).Login "user" "pass" clock (AuthReply.response (AuthBody.object docLogin false))
      replyServerError).1 ≠ Ret.returned () none ∧
    (({} : Client).Login "user" "pass" clock (AuthReply.response (AuthBody.object docLogin false))
      replyServerError).2.1.TokenExpiry = clock.Add defaultTokenExpiry :=
  ⟨rfl, by decide,
    (Login_snapshot_failure_keeps_credential {} "user" "pass" clock docLogin replyServerError
      rfl (by decide)).2.2.2.1⟩

/-! ## The registry and the stream merge -/

theorem startRealtimeUpdates_devices (c : Client) (dialOk : Bool) :
    (c.startRealtimeUpdates dialOk).2.devices = c.devices := by
  unfold Client.startRealtimeUpdates
  repeat' split
  all_goals rfl

theorem mergeRecord_congr (c1 c2 : Client) (h : c1.devices = c2.devices) :
    c1.mergeRecord = c2.mergeRecord := by
  funext record
  simp [Client.mergeRecord, Client.GetDeviceByID, h]

theorem GetRealtimeUpdate_devices (c : Client) (dialOk : Bool)
    (received : Option RealtimeUpdate) :
    (c.GetRealtimeUpdate dialOk received).2.devices = c.devices := by
  unfold Client.GetRealtimeUpdate
  have hs := startRealtimeUpdates_devices c dialOk
  generalize c.startRealtimeUpdates dialOk = r at hs
  obtain ⟨o, c1⟩ := r
  simp only at hs
  cases c.notAuthenticated
  · cases c.conn
    · cases o with
      | panicked => simpa using hs
      | returned v e =>
        cases e with
        | none => cases received <;> simpa using hs
        | some e => simpa using hs
    · cases received <;> simp
  · simp

theorem GetRealtimeUpdate_ready (c : Client) (dialOk : Bool) (update : RealtimeUpdate)
    (hauth : c.notAuthenticated = false) (hconn : c.conn = true) :
    c.GetRealtimeUpdate dialOk (some update) =
      (Ret.returned (some { update with
          Payload := { update.Payload with
            Devices := update.Payload.Devices.map c.mergeRecord } }) none, c) := by
  unfold Client.GetRealtimeUpdate
  simp [hauth, hconn]

theorem GetDeviceByID_absent (c : Client) (id : String)
    (h : c.devices = none ∨ ∃ d, c.devices = some d ∧ ∀ dev ∈ d.Devices, dev.ID ≠ id) :
    ∃ e, c.GetDeviceByID id = Except.error e := by
  unfold Client.GetDeviceByID
  rcases h with h | ⟨d, h, hd⟩
  · rw [h]; exact ⟨_, rfl⟩
  · rw [h]
    have : d.GetDeviceByID id = none := by
      unfold Devices.GetDeviceByID
      rw [List.find?_eq_none]
      intro dev hdev
      simpa using hd dev hdev
    simp only [this]
    exact ⟨_, rfl⟩

theorem mergeRecord_unknown (c : Client) (record : Device)
    (h : record.ID = "" ∨ c.devices = none ∨
      ∃ d, c.devices = some d ∧ ∀ dev ∈ d.Devices, dev.ID ≠ record.ID) :
    c.mergeRecord record = record := by
  unfold Client.mergeRecord
  rcases h with h | h
  · simp [h]
  · obtain ⟨e, he⟩ := GetDeviceByID_absent c record.ID h
    rw [he]
    split <;> rfl

theorem mergeRecord_known (c : Client) (record device : Device) (hid : record.ID ≠ "")
    (h : c.GetDeviceByID record.ID = Except.ok device) :
    c.mergeRecord record =
      { device with
        Attrs := record.Attrs,
        Watts := record.Watts,
        Cirumference := record.Cirumference,
        StatusDetails := record.StatusDetails,
        AlwaysOnState := record.AlwaysOnState,
        AlwaysOnWatts := record.AlwaysOnWatts } := by
  unfold Client.mergeRecord
  rw [if_neg hid, h]

/-- Claim C11, evaluated. The registry holds device A with no wattage; the
stream delivers a sample whose record for A reads 150 W. GetRealtimeUpdate
returns the sample with that reading, yet the lookup of A in the registry
afterwards still gives the entry with no wattage and no attributes: the merge
wrote to the copy that GetDeviceByID handed out, not to the registry. -/
theorem registry_entry_keeps_old_readings :
    (∃ u, (registryClient.GetRealtimeUpdate true (some sampleMixed)).1
        = Ret.returned (some u) none ∧
      (u.Payload.Devices[0]?).map Device.Watts = some (some watts150)) ∧
    (((registryClient.GetRealtimeUpdate true (some sampleMixed)).2.GetDeviceByID "A").toOption.map
      Device.Watts) = some none ∧
    (((registryClient.GetRealtimeUpdate true (some sampleMixed)).2.GetDeviceByID "A").toOption.map
      Device.Attrs) = some [] := by
  refine ⟨⟨_, rfl, ?_⟩, ?_, ?_⟩ <;> decide

/-- Claim C12 (registry merge frame, P3). Whatever GetRealtimeUpdate does,
the registry is the same before and after: every field of every entry, so in
particular every field other than the five volatile ones of the device a
record names, and every other entry. A lookup by id gives the same result
before and after. The record handed out in the sample for a known device is
the registry entry with the realtime fields of the streamed record written
over it (the five volatile fields and the circumference); its id, name, tags
and descriptive fields are the entry's. -/
theorem merge_leaves_registry (c : Client) (dialOk : Bool) (received : Option RealtimeUpdate)
    (id : String) :
    (c.GetRealtimeUpdate dialOk received).2.devices = c.devices ∧
    (c.GetRealtimeUpdate dialOk received).2.GetDeviceByID id = c.GetDeviceByID id ∧
    (∀ record entry : Device, record.ID ≠ "" → c.GetDeviceByID record.ID = Except.ok entry →
      c.mergeRecord record =
        { entry with
          Attrs := record.Attrs,
          Watts := record.Watts,
          Cirumference := record.Cirumference,
          StatusDetails := record.StatusDetails,
          AlwaysOnState := record.AlwaysOnState,
          AlwaysOnWatts := record.AlwaysOnWatts }) := by
  have h := GetRealtimeUpdate_devices c dialOk received
  exact ⟨h, by unfold Client.GetDeviceByID; rw [h],
    fun record entry hid hentry => mergeRecord_known c record entry hid hentry⟩

/-- Claim C12 on a concrete input: after a sample naming the known device A
the registry is the one loaded at login, and the lookup of B gives the same
entry as before. -/
theorem merge_leaves_registry_witness :
    (registryClient.GetRealtimeUpdate true (some sampleMixed)).2.devices = some registryABC ∧
    (registryClient.GetRealtimeUpdate true (some sampleMixed)).2.GetDeviceByID "B" =
      registryClient.GetDeviceByID "B" :=
  ⟨(merge_leaves_registry registryClient true (some sampleMixed) "B").1,
   (merge_leaves_registry registryClient true (some sampleMixed) "B").2.1⟩

/-- Claim C13 (unknown-device merge is a no-op, P4). For a record whose id is
empty or names no registry entry (also when no registry is loaded), the merge
step raises nothing and gives the record back unchanged, the registry is left
as it was, and the sample is still returned: when the client is authorized
and connected GetRealtimeUpdate returns the sample with nil error, with as
many records as received and with that record unchanged at its position. -/
theorem unknown_device_merge_is_noop (c : Client) (dialOk : Bool) (update : RealtimeUpdate)
    (record : Device)
    (hunknown : record.ID = "" ∨ c.devices = none ∨
      ∃ d, c.devices = some d ∧ ∀ dev ∈ d.Devices, dev.ID ≠ record.ID) :
    c.mergeRecord record = record ∧
    (c.GetRealtimeUpdate dialOk (some update)).2.devices = c.devices ∧
    (c.notAuthenticated = false → c.conn = true →
      ∃ u, (c.GetRealtimeUpdate dialOk (some update)).1 = Ret.returned (some u) none ∧
        u.Payload.Devices.length = update.Payload.Devices.length ∧
        ∀ i : Nat, update.Payload.Devices[i]? = some record →
          u.Payload.Devices[i]? = some record) := by
  have hm := mergeRecord_unknown c record hunknown
  refine ⟨hm, GetRealtimeUpdate_devices c dialOk (some update), ?_⟩
  intro hauth hconn
  rw [GetRealtimeUpdate_ready c dialOk update hauth hconn]
  refine ⟨_, rfl, by simp, ?_⟩
  intro i hi
  simp [hi, hm]

/-- Claim C13 on a concrete input: the record with the empty id and the
record for the unknown device Z come back unchanged, and the registry is the
one loaded at login. -/
theorem unknown_device_merge_is_noop_witness :
    (ghostRecord.ID = "" ∨ registryClient.devices = none ∨
      ∃ d, registryClient.devices = some d ∧ ∀ dev ∈ d.Devices, dev.ID ≠ ghostRecord.ID) ∧
    registryClient.mergeRecord ghostRecord = ghostRecord ∧
    (registryClient.GetRealtimeUpdate true (some sampleMixed)).2.devices = some registryABC := by
  have hz : ghostRecord.ID = "" ∨ registryClient.devices = none ∨
      ∃ d, registryClient.devices = some d ∧ ∀ dev ∈ d.Devices, dev.ID ≠ ghostRecord.ID :=
    Or.inr (Or.inr ⟨registryABC, rfl, by decide⟩)
  have h := unknown_device_merge_is_noop registryClient true sampleMixed ghostRecord hz
  exact ⟨hz, h.1, h.2.1⟩

/-- Claim C14, evaluated. For the known device A the returned sample has as
many records as the wire payload, in the same order, and its record for A
carries the registry's name and location with the streamed wattage; but the
registry's entry for A after the call still has no wattage, so the record is
not equal to that entry. -/
theorem returned_record_differs_from_registry_entry :
    ∃ u entry,
      (registryClient.GetRealtimeUpdate true (some sampleMixed)).1
        = Ret.returned (some u) none ∧
      u.Payload.Devices.map Device.ID = sampleMixed.Payload.Devices.map Device.ID ∧
      ((registryClient.GetRealtimeUpdate true (some sampleMixed)).2.GetDeviceByID "A").toOption
        = some entry ∧
      (u.Payload.Devices[0]?).map Device.Name = some "Kettle" ∧
      (u.Payload.Devices[0]?).map Device.Location = some (some "kitchen") ∧
      (u.Payload.Devices[0]?).map Device.Watts = some (some watts150) ∧
      entry.Watts = none ∧
      u.Payload.Devices[0]? ≠ some entry := by
  refine ⟨_, _, rfl, ?_, rfl, ?_, ?_, ?_, ?_, ?_⟩ <;> decide

/-! ## The device name table -/

theorem overlayNames_cons (T : NameTable) (d : Device) (rest : List Device) :
    overlayNames (upsertName T d) rest = overlayNames T (d :: rest) := by
  funext id
  unfold overlayNames
  by_cases hd : d.ID = id
  · simp only [List.filter_cons, hd, decide_True, if_true]
    cases hr : List.filter (fun d => decide (d.ID = id)) rest with
    | nil => simp [upsertName, hd]
    | cons x xs =>
      have hl : (x :: xs).getLast? = some ((x :: xs).getLast (List.cons_ne_nil x xs)) :=
        List.getLast?_eq_getLast _ _
      have hl2 : (d :: x :: xs).getLast? = some ((x :: xs).getLast (List.cons_ne_nil x xs)) := by
        rw [List.getLast?_cons_cons, hl]
      rw [hl, hl2]
  · have hd' : ¬ id = d.ID := fun h => hd h.symm
    simp only [List.filter_cons, hd, decide_False, Bool.false_eq_true, if_false]
    cases (List.filter (fun d => decide (d.ID = id)) rest).getLast? <;> simp [upsertName, hd']

theorem foldl_upsertName (D : List Device) :
    ∀ T : NameTable, D.foldl upsertName T = overlayNames T D := by
  induction D with
  | nil => intro T; funext id; simp [overlayNames]
  | cons d rest ih =>
    intro T
    rw [List.foldl_cons, ih, overlayNames_cons]

theorem overlayNames_idem (T : NameTable) (D : List Device) :
    overlayNames (overlayNames T D) D = overlayNames T D := by
  funext id
  unfold overlayNames
  cases (List.filter (fun d => decide (d.ID = id)) D).getLast? <;> rfl

theorem UpdateDeviceNames_object (T : NameTable) (D : List Device) (createOk encodeOk : Bool) :
    UpdateDeviceNames D (Opened.file (NameFileContent.object T)) createOk encodeOk =
      if createOk = true then
        if encodeOk = true then (NamesOutcome.ok, Written.table (some (overlayNames T D)))
        else (NamesOutcome.encodeError, Written.truncated)
      else (NamesOutcome.createError, Written.untouched) := by
  simp [UpdateDeviceNames, loadNames, upsertNames, foldl_upsertName]

/-- Claim C15, evaluated. An absent file is an empty table and the call
proceeds; a file that is opened and does not decode gives the decoding error
and the file is left untouched. But when os.Open fails with any other error,
the call also proceeds from an empty table: with os.Create and Encode
succeeding it returns nil and the file is rewritten with the given devices
alone, so whatever the table held is gone. -/
theorem UpdateDeviceNames_swallows_open_failure :
    (∀ D createOk encodeOk, UpdateDeviceNames D Opened.notExist createOk encodeOk
      = UpdateDeviceNames D (Opened.file (NameFileContent.object NameTable.empty))
          createOk encodeOk) ∧
    (∀ D createOk encodeOk,
      UpdateDeviceNames D (Opened.file NameFileContent.undecodable) createOk encodeOk
        = (NamesOutcome.decodeError, Written.untouched)) ∧
    (UpdateDeviceNames [{ ID := "A", Name := "Kettle" }] Opened.failed true true).1
      = NamesOutcome.ok ∧
    (∃ T, (UpdateDeviceNames [{ ID := "A", Name := "Kettle" }] Opened.failed true true).2
        = Written.table (some T) ∧
      T "A" = some (JValue.str "Kettle") ∧ ∀ id, id ≠ "A" → T id = none) := by
  refine ⟨fun D c e => rfl, fun D c e => rfl, rfl, ⟨_, rfl, ?_, ?_⟩⟩
  · simp [upsertName]
  · intro id hid
    simp [upsertName, NameTable.empty, hid]

/-- Claim C16, evaluated. When the file is opened and holds the table T, a
call that returns nil has written T overlaid with the devices (an id of the
list has the name of its last occurrence, every other id keeps what T held),
and a second call with the same list, reading what the first wrote, writes
the same table again; from an absent file the same holds with T empty. But
when the file holds the table with the entry X and os.Open fails with an
error other than not-exist, the call with the list naming A twice and B once
also returns nil, and the table it stores is the overlay of the empty table:
the entry X of the existing table is gone, where T overlaid with the list
keeps it. -/
theorem UpdateDeviceNames_overlay_lost_when_open_fails :
    (∀ (T : NameTable) (D : List Device) (createOk encodeOk : Bool),
      (UpdateDeviceNames D (Opened.file (NameFileContent.object T)) createOk encodeOk).1
        = NamesOutcome.ok →
      (UpdateDeviceNames D (Opened.file (NameFileContent.object T)) createOk encodeOk).2
        = Written.table (some (overlayNames T D)) ∧
      UpdateDeviceNames D (Opened.file (NameFileContent.object (overlayNames T D))) true true
        = (NamesOutcome.ok, Written.table (some (overlayNames T D)))) ∧
    (∀ D : List Device, UpdateDeviceNames D Opened.notExist true true
      = (NamesOutcome.ok, Written.table (some (overlayNames NameTable.empty D)))) ∧
    UpdateDeviceNames devicesAA Opened.failed true true
      = (NamesOutcome.ok, Written.table (some (overlayNames NameTable.empty devicesAA))) ∧
    overlayNames NameTable.empty devicesAA "X" = none ∧
    overlayNames NameTable.empty devicesAA "A" = some (JValue.str "Teapot") ∧
    tableX "X" = some (JValue.str "Heater") ∧
    overlayNames tableX devicesAA "X" = some (JValue.str "Heater") ∧
    overlayNames NameTable.empty devicesAA ≠ overlayNames tableX devicesAA := by
  have hempty : ∀ D : List Device, ∀ o : Opened,
      loadNames o = some (some NameTable.empty) →
      UpdateDeviceNames D o true true
        = (NamesOutcome.ok, Written.table (some (overlayNames NameTable.empty D))) := by
    intro D o ho
    have h := UpdateDeviceNames_object NameTable.empty D true true
    simp only [UpdateDeviceNames, loadNames, if_true] at h
    simp only [UpdateDeviceNames, ho, if_true]
    exact h
  refine ⟨?_, fun D => hempty D _ rfl, hempty _ _ rfl, by decide, by decide, by decide,
    by decide, ?_⟩
  · intro T D createOk encodeOk hok
    refine ⟨?_, ?_⟩
    · rw [UpdateDeviceNames_object] at hok ⊢
      cases createOk <;> cases encodeOk <;> simp_all
    · rw [UpdateDeviceNames_object, overlayNames_idem]
      simp
  · intro h
    have h1 := congrFun h "X"
    have h2 : overlayNames NameTable.empty devicesAA "X" = none := by decide
    have h3 : overlayNames tableX devicesAA "X" = some (JValue.str "Heater") := by decide
    rw [h2, h3] at h1
    cases h1

/-! ## The stream manager -/

theorem Stream.run_cons (s : Stream) (st : Step) (rest : List Step) :
    s.run (st :: rest) = (s.step st).bind (fun s1 => s1.run rest) := rfl

theorem Stream.connected_streaming : Stream.connected.streaming := by
  simp [Stream.streaming, Stream.connected]

theorem handleFrame_streaming (s s1 : Stream) (frame : Inbound) (hs : s.streaming)
    (h : s.handleFrame frame = some s1) :
    s1.streaming ∧ s1.delivered = s.delivered ∧
      s1.queue = s.queue ++ (sampleOf frame).toList := by
  obtain ⟨hp, hc, hr, hcl, hw, hq, hqc⟩ := hs
  cases frame with
  | malformed =>
    simp only [Stream.handleFrame, Option.some.injEq] at h
    subst h
    exact ⟨⟨hp, hc, hr, hcl, hw, hq, hqc⟩, rfl, by simp [sampleOf]⟩
  | decoded update =>
    by_cases ht : update.Type_ = "realtime_update"
    · obtain ⟨t, hwt⟩ := Option.ne_none_iff_exists'.1 hw
      simp only [Stream.handleFrame, ht, ne_eq, not_true_eq_false, if_false, hwt] at h
      by_cases hd : update.Payload.Devices.length > 0
      · simp only [hd, if_true, hp, Option.isSome_none, Bool.false_eq_true, if_false, hq,
          Bool.not_true, hqc] at h
        by_cases hcap : s.queue.length < queueCapacity
        · simp only [hcap, if_true, Option.some.injEq] at h
          subst h
          exact ⟨by simp [Stream.streaming, hp, hc, hr, hcl, hq, hqc], rfl, by simp [sampleOf, ht]⟩
        · simp [hcap] at h
      · simp only [hd, if_false, hp, Option.isSome_none, Bool.false_eq_true, hq,
          Bool.not_true, hqc] at h
        by_cases hcap : s.queue.length < queueCapacity
        · simp only [hcap, if_true, Option.some.injEq] at h
          subst h
          exact ⟨by simp [Stream.streaming, hp, hc, hr, hcl, hq, hqc, hwt], rfl,
            by simp [sampleOf, ht]⟩
        · simp [hcap] at h
    · simp only [Stream.handleFrame, ne_eq, ht, not_false_eq_true, if_true,
        Option.some.injEq] at h
      subst h
      exact ⟨⟨hp, hc, hr, hcl, hw, hq, hqc⟩, rfl, by simp [sampleOf, ht]⟩

theorem step_receive_streaming (s s1 : Stream) (frame : Inbound) (hs : s.streaming)
    (h : s.step (Step.receive 0 frame) = some s1) :
    s1.streaming ∧ s1.delivered = s.delivered ∧
      s1.queue = s.queue ++ (sampleOf frame).toList := by
  have hp := hs.1
  have hr := hs.2.2.1
  have hcl := hs.2.2.2.1
  simp only [Stream.step, hp, Option.isSome_none, Bool.false_eq_true, if_false, hr, hcl,
    not_false_eq_true, and_self, if_true] at h
  exact handleFrame_streaming s s1 frame hs h

theorem step_take_streaming (s s1 : Stream) (hs : s.streaming)
    (h : s.step Step.take = some s1) :
    s1.streaming ∧ s1.delivered ++ s1.queue = s.delivered ++ s.queue := by
  obtain ⟨hp, hc, hr, hcl, hw, hq, hqc⟩ := hs
  simp only [Stream.step, hp, Option.isSome_none, Bool.false_eq_true, if_false] at h
  cases hqu : s.queue with
  | nil => simp [hqu, hqc] at h
  | cons u rest =>
    simp only [hqu, Option.some.injEq] at h
    subst h
    exact ⟨by simp [Stream.streaming, hp, hc, hr, hcl, hq, hqc, hw], by simp [hqu]⟩

theorem run_streaming (trace : List Step) :
    ∀ s s1 : Stream, s.streaming →
      (∀ st ∈ trace, st = Step.take ∨ ∃ frame, st = Step.receive 0 frame) →
      s.run trace = some s1 →
      s1.streaming ∧
        s1.delivered ++ s1.queue = s.delivered ++ s.queue ++ (framesOf trace).filterMap sampleOf := by
  induction trace with
  | nil =>
    intro s s1 hs _ h
    simp only [Stream.run, Option.some.injEq] at h
    subst h
    exact ⟨hs, by simp [framesOf]⟩
  | cons st rest ih =>
    intro s s1 hs htrace h
    rw [Stream.run_cons] at h
    cases hstep : s.step st with
    | none => simp [hstep] at h
    | some s2 =>
      simp only [hstep, Option.some_bind] at h
      have hrest : ∀ x ∈ rest, x = Step.take ∨ ∃ frame, x = Step.receive 0 frame :=
        fun x hx => htrace x (List.mem_cons_of_mem _ hx)
      rcases htrace st (List.mem_cons_self _ _) with rfl | ⟨frame, rfl⟩
      · obtain ⟨hs2, heq⟩ := step_take_streaming s s2 hs hstep
        obtain ⟨hs1, h1⟩ := ih s2 s1 hs2 hrest h
        exact ⟨hs1, by rw [h1, heq]; simp [framesOf]⟩
      · obtain ⟨hs2, hd, hq⟩ := step_receive_streaming s s2 frame hs hstep
        obtain ⟨hs1, h1⟩ := ih s2 s1 hs2 hrest h
        refine ⟨hs1, ?_⟩
        rw [h1, hd, hq]
        cases hsf : sampleOf frame <;> simp [framesOf, hsf]

/-- Claim C17 (the reader filters and keeps order). Take any run on the first
connection made of frames received by its reader and of receives by
GetRealtimeUpdate. The samples handed out so far followed by the samples
still queued are exactly the received frames that decode and have type
realtime_update, in arrival order. The stream has not ended: no panic, the
reader runs, the connection and the channel are open. A frame that is
malformed or of another type can always be received and changes neither the
queue nor what was handed out; a sample frame is queued at the end whenever
the channel has room. -/
theorem queue_is_filtered_frames (trace : List Step) (s : Stream)
    (htrace : ∀ st ∈ trace, st = Step.take ∨ ∃ frame, st = Step.receive 0 frame)
    (hrun : Stream.connected.run trace = some s) :
    s.delivered ++ s.queue = (framesOf trace).filterMap sampleOf ∧
    s.panic = none ∧ 0 ∈ s.readers ∧ s.conn = some 0 ∧ s.queueClosed = false ∧
    (∀ frame, sampleOf frame = none →
      ∃ s1, s.step (Step.receive 0 frame) = some s1 ∧ s1.queue = s.queue ∧
        s1.delivered = s.delivered ∧ 0 ∈ s1.readers ∧ s1.queueClosed = false) ∧
    (∀ frame update, sampleOf frame = some update → s.queue.length < queueCapacity →
      ∃ s1, s.step (Step.receive 0 frame) = some s1 ∧ s1.queue = s.queue ++ [update] ∧
        s1.delivered = s.delivered) := by
  obtain ⟨hs, heq⟩ := run_streaming trace Stream.connected s Stream.connected_streaming
    htrace hrun
  have hs' := hs
  obtain ⟨hp, hc, hr, hcl, hw, hq, hqc⟩ := hs
  refine ⟨by simpa [Stream.connected] using heq, hp, hr, hc, hqc, ?_, ?_⟩
  · intro frame hf
    have hstep : s.step (Step.receive 0 frame) = some s := by
      simp only [Stream.step, hp, Option.isSome_none, Bool.false_eq_true, if_false, hr, hcl,
        not_false_eq_true, and_self, if_true]
      cases frame with
      | malformed => rfl
      | decoded update =>
        have ht : update.Type_ ≠ "realtime_update" := by
          intro ht
          simp [sampleOf, ht] at hf
        simp [Stream.handleFrame, ht]
    exact ⟨s, hstep, rfl, rfl, hr, hqc⟩
  · intro frame update hf hcap
    cases frame with
    | malformed => simp [sampleOf] at hf
    | decoded u =>
      have ht : u.Type_ = "realtime_update" := by
        by_contra ht
        simp [sampleOf, ht] at hf
      have hu : u = update := by simpa [sampleOf, ht] using hf
      subst hu
      obtain ⟨t, hwt⟩ := Option.ne_none_iff_exists'.1 hw
      have hex : ∃ s1, s.step (Step.receive 0 (Inbound.decoded u)) = some s1 := by
        simp only [Stream.step, hp, Option.isSome_none, Bool.false_eq_true, if_false, hr, hcl,
          not_false_eq_true, and_self, if_true, Stream.handleFrame, ht, ne_eq,
          not_true_eq_false, hwt]
        by_cases hd : u.Payload.Devices.length > 0
        · simp [hd, hp, hq, hqc, hcap]
        · simp [hd, hp, hq, hqc, hcap]
      obtain ⟨s1, hs1⟩ := hex
      obtain ⟨_, hd1, hq1⟩ := step_receive_streaming s s1 _ hs' hs1
      exact ⟨s1, hs1, by simpa [sampleOf, ht] using hq1, hd1⟩

/-- Claim C17 on a concrete input: a sample, a malformed frame, a frame of
another type and a second sample arrive, with one receive in between; the
first sample is handed out and the second is queued. -/
theorem queue_is_filtered_frames_witness :
    (∀ st ∈ [Step.receive 0 (Inbound.decoded sampleT), Step.receive 0 Inbound.malformed,
        Step.take, Step.receive 0 frameHello, Step.receive 0 (Inbound.decoded sampleT1)],
      st = Step.take ∨ ∃ frame, st = Step.receive 0 frame) ∧
    ∃ s, Stream.connected.run [Step.receive 0 (Inbound.decoded sampleT),
        Step.receive 0 Inbound.malformed, Step.take, Step.receive 0 frameHello,
        Step.receive 0 (Inbound.decoded sampleT1)] = some s ∧
      s.delivered ++ s.queue = [sampleT, sampleT1] ∧ s.delivered = [sampleT] := by
  have htrace : ∀ st ∈ [Step.receive 0 (Inbound.decoded sampleT),
      Step.receive 0 Inbound.malformed, Step.take, Step.receive 0 frameHello,
      Step.receive 0 (Inbound.decoded sampleT1)],
      st = Step.take ∨ ∃ frame, st = Step.receive 0 frame := by
    intro st hst
    simp only [List.mem_cons, List.mem_singleton, List.not_mem_nil, or_false] at hst
    rcases hst with rfl | rfl | rfl | rfl | rfl
    · exact Or.inr ⟨_, rfl⟩
    · exact Or.inr ⟨_, rfl⟩
    · exact Or.inl rfl
    · exact Or.inr ⟨_, rfl⟩
    · exact Or.inr ⟨_, rfl⟩
  refine ⟨htrace, _, rfl, ?_, by decide⟩
  exact (queue_is_filtered_frames _ _ htrace rfl).1.trans (by decide)

/-- Claim C18, evaluated. From the start: a connection is opened, so a reader
runs and a receive by GetRealtimeUpdate is pending (it cannot complete).
Close, or the watchdog callback, closes the connection and sets the handle
to nil. The reader's ReadMessage then fails and its teardown closes the
channel and calls Close on the handle, which is nil: the process panics, and
the pending receive never completes. Without the forced close the same
teardown is sound and the receive returns the end of the stream. Close
itself never panics. -/
theorem teardown_after_close_hits_nil_conn :
    ({} : Stream).run [Step.connect] = some Stream.connected ∧
    Stream.connected.step Step.take = none ∧
    (Stream.connected.run [Step.close, Step.teardown 0]).map
      (fun s => (s.conn, s.queueClosed, s.panic)) = some (none, true, some StreamPanic.nilConn) ∧
    Stream.connected.run [Step.close, Step.teardown 0, Step.take] = none ∧
    (Stream.connected.run [Step.watchdogFires 0, Step.teardown 0]).map
      (fun s => (s.conn, s.queueClosed, s.panic)) = some (none, true, some StreamPanic.nilConn) ∧
    Stream.connected.run [Step.watchdogFires 0, Step.teardown 0, Step.take] = none ∧
    (Stream.connected.run [Step.teardown 0, Step.take]).map
      (fun s => (s.conn, s.queueClosed, s.panic, s.endOfStream)) = some (none, true, none, 1) ∧
    (∀ s : Stream, s.panic = none →
      ∃ s1, s.step Step.close = some s1 ∧ s1.panic = none ∧ s1.conn = none ∧
        s1.watchdog = none) := by
  refine ⟨by decide, by decide, by decide, by decide, by decide, by decide, by decide, ?_⟩
  intro s hp
  refine ⟨s.closeBody, by simp [Stream.step, hp], ?_, ?_, ?_⟩ <;>
    (unfold Stream.closeBody; cases hc : s.conn <;> cases hw : s.watchdog <;> simp [hp, hw, hc])

/-! ## The streaming client identifier -/

theorem charset_index_lt (b : Nat) : (b % 256) % (charset.length % 256) < charset.data.length := by
  have h : charset.length % 256 = 36 := by decide
  have h2 : charset.data.length = 36 := by decide
  rw [h, h2]
  exact Nat.mod_lt _ (by decide)

theorem charset_alnum : ∀ ch ∈ charset.data, isLowerAlnum ch := by decide

theorem randomChars_spec (random : Nat → Option Nat) (n : Nat) :
    ∀ i, (∀ j, i ≤ j → j < i + n → ∃ b, random j = some b) →
      ∃ cs, randomChars random i n = some cs ∧ cs.length = n ∧ ∀ ch ∈ cs, isLowerAlnum ch := by
  induction n with
  | zero => intro i _; exact ⟨[], rfl, rfl, by simp⟩
  | succ n ih =>
    intro i h
    obtain ⟨b, hb⟩ := h i (Nat.le_refl i) (by omega)
    obtain ⟨cs, hcs, hlen, hal⟩ := ih (i + 1) (fun j h1 h2 => h j (by omega) (by omega))
    have hlt := charset_index_lt b
    have hget : charset.data[(b % 256) % (charset.length % 256)]?
        = some (charset.data[(b % 256) % (charset.length % 256)]) :=
      List.getElem?_eq_getElem hlt
    refine ⟨charset.data[(b % 256) % (charset.length % 256)] :: cs, ?_, by simp [hlen], ?_⟩
    · rw [randomChars, hb]
      simp only [hget, hcs, Option.map_some']
    · intro ch hch
      rcases List.mem_cons.1 hch with rfl | hch
      · exact charset_alnum _ (List.getElem_mem _)
      · exact hal ch hch

/-- Claim C19 (client identifier). For every length n and every random source
that yields a byte at each of the n reads, generateRandomClientID returns a
string of exactly n characters, each a lowercase letter or a digit; the
charset index, the byte modulo 36, is in range for every byte. NewClient asks
for 128 characters, so when the source yields 128 bytes the client it returns
has an identifier of 128 lowercase letters and digits. -/
theorem generateRandomClientID_alnum (n : Nat) (random : Nat → Option Nat)
    (hsrc : ∀ i, i < n → ∃ b, random i = some b) :
    (∃ s, generateRandomClientID (n : Int) random = some s ∧ s.length = n ∧
      ∀ ch ∈ s.data, isLowerAlnum ch) ∧
    (∀ b : Nat, (b % 256) % (charset.length % 256) < charset.data.length) ∧
    (n = 128 → ∃ c, NewClient random = some c ∧ c.clientId.length = 128 ∧
      ∀ ch ∈ c.clientId.data, isLowerAlnum ch) := by
  obtain ⟨cs, hcs, hlen, hal⟩ := randomChars_spec random n 0
    (fun j _ h2 => hsrc j (by omega))
  have hgen : generateRandomClientID (n : Int) random = some (String.mk cs) := by
    simp [generateRandomClientID, hcs]
  refine ⟨⟨String.mk cs, hgen, by simp [String.length, hlen], hal⟩, charset_index_lt, ?_⟩
  intro hn
  subst hn
  refine ⟨{ clientId := String.mk cs }, ?_, by simp [String.length, hlen], hal⟩
  have : generateRandomClientID 128 random = some (String.mk cs) := by
    simpa using hgen
  simp [NewClient, this]

/-- Claim C19 on a concrete input: a source whose i-th byte is 37 times i,
asked for 128 characters. -/
theorem generateRandomClientID_alnum_witness :
    (∀ i, i < 128 → ∃ b, (fun i : Nat => some (37 * i)) i = some b) ∧
    ∃ c, NewClient (fun i => some (37 * i)) = some c ∧ c.clientId.length = 128 ∧
      ∀ ch ∈ c.clientId.data, isLowerAlnum ch :=
  ⟨fun i _ => ⟨37 * i, rfl⟩,
    (generateRandomClientID_alnum 128 (fun i => some (37 * i))
      (fun i _ => ⟨37 * i, rfl⟩)).2.2 rfl⟩

/-! ## Update times of a store -/

theorem updateTimes_append {F : Type} [DecidableEq F] (file : String → F) (store : F)
    (l1 l2 : List Event) :
    updateTimes file store (l1 ++ l2) = updateTimes file store l1 ++ updateTimes file store l2 := by
  simp [updateTimes, List.filterMap_append]

theorem call_create_updateTimes {F : Type} [DecidableEq F] (file : String → F) (store : F)
    (E : Engine) (d : Disk) (c : Creator) (o : Bool) :
    updateTimes file store (d.call E (Op.create c o)).2.log = updateTimes file store d.log := by
  rw [Disk.call_log, updateTimes_append]
  simp [updateTimes, Event.updateTimeOf]

theorem call_update_updateTimes {F : Type} [DecidableEq F] (file : String → F) (store : F)
    (E : Engine) (hE : ∀ d op, E.succeeds d op = true) (d : Disk)
    (f : String) (t : Time) (v : List Value) :
    updateTimes file store (d.call E (Op.update f t v)).2.log =
      updateTimes file store d.log ++ (if file f = store then [t] else []) := by
  rw [Disk.call_log, updateTimes_append]
  by_cases hf : file f = store <;> simp [updateTimes, Event.updateTimeOf, Disk.call, hE, hf]

theorem writeDevice_allSucceed (E : Engine) (hE : ∀ d op, E.succeeds d op = true)
    (w : Writer) (t : Time) (d : Disk) (dev : Device) :
    (writeDevice E w t d dev).1 = Outcome.ok := by
  unfold writeDevice
  by_cases hex : E.notExist d (deviceFilePath w dev.ID) = true <;>
    simp [hex, Disk.call, hE]

theorem writeDevice_updateTimes {F : Type} [DecidableEq F] (file : String → F) (store : F)
    (E : Engine) (hE : ∀ d op, E.succeeds d op = true)
    (w : Writer) (t : Time) (d : Disk) (dev : Device) :
    updateTimes file store (writeDevice E w t d dev).2.log =
      updateTimes file store d.log ++
        (if file (deviceFilePath w dev.ID) = store then [t] else []) := by
  unfold writeDevice
  simp only []
  have hc : (if E.notExist d (deviceFilePath w dev.ID) = true
      then d.call E (Op.create (deviceCreator (deviceFilePath w dev.ID) (E.now d)) true)
      else (true, d)).1 = true := by
    by_cases hex : E.notExist d (deviceFilePath w dev.ID) = true <;> simp [hex, Disk.call, hE]
  have hl : updateTimes file store (if E.notExist d (deviceFilePath w dev.ID) = true
      then d.call E (Op.create (deviceCreator (deviceFilePath w dev.ID) (E.now d)) true)
      else (true, d)).2.log = updateTimes file store d.log := by
    by_cases hex : E.notExist d (deviceFilePath w dev.ID) = true
    · simp only [hex, if_true]
      exact call_create_updateTimes file store E d _ _
    · simp [hex]
  generalize (if E.notExist d (deviceFilePath w dev.ID) = true
      then d.call E (Op.create (deviceCreator (deviceFilePath w dev.ID) (E.now d)) true)
      else (true, d)) = cr at hc hl
  obtain ⟨c1, d1⟩ := cr
  simp only at hc hl
  subst hc
  have hu : (d1.call E (Op.update (deviceFilePath w dev.ID) t (deviceValues dev))).1 = true := by
    simp [Disk.call, hE]
  simp only [if_true, hu]
  rw [call_update_updateTimes file store E hE, hl]

theorem writeDevices_updateTimes {F : Type} [DecidableEq F] (file : String → F) (store : F)
    (E : Engine) (hE : ∀ d op, E.succeeds d op = true)
    (w : Writer) (t : Time) (devs : List Device) :
    ∀ d : Disk, updateTimes file store (writeDevices E w t d devs).2.log =
      updateTimes file store d.log ++
        List.replicate
          (devs.countP (fun dev => decide (file (deviceFilePath w dev.ID) = store))) t := by
  induction devs with
  | nil => intro d; simp [writeDevices]
  | cons dev rest ih =>
    intro d
    rw [writeDevices_cons_ok E w t d dev rest (writeDevice_allSucceed E hE w t d dev), ih,
      writeDevice_updateTimes file store E hE, List.countP_cons]
    by_cases hp : file (deviceFilePath w dev.ID) = store
    · simp only [hp, decide_True, if_true, List.append_assoc]
      rw [List.replicate_succ']
      congr 1
      rw [← List.replicate_succ']
      rfl
    · simp [hp]

theorem deviceFilePath_injective (w : Writer) (a b : String)
    (h : deviceFilePath w a = deviceFilePath w b) : a = b := by
  have h1 := congrArg String.data h
  simp only [deviceFilePath, String.data_append, List.append_assoc] at h1
  have h2 := List.append_cancel_left (List.append_cancel_left h1)
  exact String.ext (List.append_cancel_right h2)

theorem countP_store_le_one {F : Type} [DecidableEq F] (file : String → F) (store : F)
    (w : Writer) (devs : List Device)
    (hids : (devs.map (fun dev => file (deviceFilePath w dev.ID))).Nodup) :
    devs.countP (fun dev => decide (file (deviceFilePath w dev.ID) = store)) ≤ 1 := by
  induction devs with
  | nil => simp
  | cons dev rest ih =>
    rw [List.map_cons, List.nodup_cons] at hids
    rw [List.countP_cons]
    by_cases hp : file (deviceFilePath w dev.ID) = store
    · have hz : rest.countP (fun dev => decide (file (deviceFilePath w dev.ID) = store)) = 0 := by
        rw [List.countP_eq_zero]
        intro x hx hpx
        have hxp : file (deviceFilePath w x.ID) = store := by simpa using hpx
        apply hids.1
        rw [hp, ← hxp]
        exact List.mem_map_of_mem (fun dev => file (deviceFilePath w dev.ID)) hx
      simp [hz, hp]
    · have := ih hids.2
      simp [hp, this]

theorem countP_main_eq_zero {F : Type} [DecidableEq F] (file : String → F)
    (w : Writer) (devs : List Device)
    (hmon : file (mainFilePath w) ∉ devs.map (fun dev => file (deviceFilePath w dev.ID))) :
    devs.countP (fun dev => decide (file (deviceFilePath w dev.ID) = file (mainFilePath w)))
      = 0 := by
  rw [List.countP_eq_zero]
  intro x hx hpx
  have hxp : file (deviceFilePath w x.ID) = file (mainFilePath w) := by simpa using hpx
  apply hmon
  rw [← hxp]
  exact List.mem_map_of_mem (fun dev => file (deviceFilePath w dev.ID)) hx

theorem Write_updateTimes {F : Type} [DecidableEq F] (file : String → F) (store : F)
    (E : Engine) (hE : ∀ d op, E.succeeds d op = true)
    (w : Writer) (d : Disk) (u : RealtimeUpdate)
    (hids : (u.Payload.Devices.map (fun dev => file (deviceFilePath w dev.ID))).Nodup ∧
      file (mainFilePath w) ∉ u.Payload.Devices.map (fun dev => file (deviceFilePath w dev.ID))) :
    ∃ k, k ≤ 1 ∧
      updateTimes file store (Write E w d u).2.2.log =
        updateTimes file store d.log ++ List.replicate k (Time.Unix u.Payload.EpochTimestamp) ∧
      (((Write E w d u).2.1 = w ∧ k = 0) ∨
       ((Write E w d u).2.1 = { w with lastReport := Time.Unix u.Payload.EpochTimestamp } ∧
        w.lastReport.nanos + Second ≤ (Time.Unix u.Payload.EpochTimestamp).nanos)) := by
  cases ht : throttled w u
  · have hc : (if E.notExist d (mainFilePath w) = true
        then d.call E (Op.create (mainCreator (mainFilePath w) (E.now d)) true)
        else (true, d)).1 = true := by
      by_cases hex : E.notExist d (mainFilePath w) = true <;> simp [hex, Disk.call, hE]
    have hl : updateTimes file store (if E.notExist d (mainFilePath w) = true
        then d.call E (Op.create (mainCreator (mainFilePath w) (E.now d)) true)
        else (true, d)).2.log = updateTimes file store d.log := by
      by_cases hex : E.notExist d (mainFilePath w) = true
      · simp only [hex, if_true]
        exact call_create_updateTimes file store E d _ _
      · simp [hex]
    cases hv : mainValues u.Payload with
    | none =>
      refine ⟨0, by omega, ?_, Or.inl ⟨?_, rfl⟩⟩
      · unfold Write
        simp only [ht, Bool.false_eq_true, if_false, hv]
        generalize (if E.notExist d (mainFilePath w) = true
          then d.call E (Op.create (mainCreator (mainFilePath w) (E.now d)) true)
          else (true, d)) = cr at hc hl
        obtain ⟨c1, d1⟩ := cr
        simp only at hc hl
        subst hc
        simpa using hl
      · unfold Write
        simp only [ht, Bool.false_eq_true, if_false, hv]
        generalize (if E.notExist d (mainFilePath w) = true
          then d.call E (Op.create (mainCreator (mainFilePath w) (E.now d)) true)
          else (true, d)) = cr
        obtain ⟨c1, d1⟩ := cr
        cases c1 <;> rfl
    | some values =>
      have hw : Write E w d u =
          (Outcome.ok, { w with lastReport := Time.Unix u.Payload.EpochTimestamp },
            (writeDevices E w (Time.Unix u.Payload.EpochTimestamp)
              ((if E.notExist d (mainFilePath w) = true
                then d.call E (Op.create (mainCreator (mainFilePath w) (E.now d)) true)
                else (true, d)).2.call E (Op.update (mainFilePath w)
                  (Time.Unix u.Payload.EpochTimestamp) values)).2 u.Payload.Devices).2) := by
        unfold Write
        simp only [ht, Bool.false_eq_true, if_false, hv]
        generalize (if E.notExist d (mainFilePath w) = true
          then d.call E (Op.create (mainCreator (mainFilePath w) (E.now d)) true)
          else (true, d)) = cr at hc
        obtain ⟨c1, d1⟩ := cr
        simp only at hc
        subst hc
        simp only [if_true]
        have hu : (d1.call E (Op.update (mainFilePath w)
            (Time.Unix u.Payload.EpochTimestamp) values)).1 = true := by simp [Disk.call, hE]
        simp only [hu, if_true]
        have hd := writeDevices_allSucceed E hE w (Time.Unix u.Payload.EpochTimestamp)
          u.Payload.Devices (d1.call E (Op.update (mainFilePath w)
            (Time.Unix u.Payload.EpochTimestamp) values)).2
        generalize writeDevices E w (Time.Unix u.Payload.EpochTimestamp)
          (d1.call E (Op.update (mainFilePath w) (Time.Unix u.Payload.EpochTimestamp) values)).2
          u.Payload.Devices = r at hd
        obtain ⟨o, d3⟩ := r
        simp only at hd
        subst hd
        rfl
      have hlog : updateTimes file store (Write E w d u).2.2.log =
          updateTimes file store d.log ++
            ((if file (mainFilePath w) = store then [Time.Unix u.Payload.EpochTimestamp] else []) ++
             List.replicate (u.Payload.Devices.countP
               (fun dev => decide (file (deviceFilePath w dev.ID) = store)))
               (Time.Unix u.Payload.EpochTimestamp)) := by
        rw [hw]
        simp only []
        rw [writeDevices_updateTimes file store E hE, call_update_updateTimes file store E hE, hl,
          List.append_assoc]
      have hacc := (throttled_false_iff w u).1 ht
      by_cases hp : file (mainFilePath w) = store
      · refine ⟨1, Nat.le_refl 1, ?_, Or.inr ⟨by rw [hw], hacc⟩⟩
        rw [hlog, ← hp, countP_main_eq_zero file w _ hids.2]
        simp
      · refine ⟨_, countP_store_le_one file store w _ hids.1, ?_, Or.inr ⟨by rw [hw], hacc⟩⟩
        rw [hlog]
        simp [hp]
  · refine ⟨0, by omega, ?_, Or.inl ⟨?_, rfl⟩⟩ <;> simp [Write, ht]

theorem StrictlyIncreasing_snoc (ts : List Time) (t : Time) (bound : Int)
    (hinc : StrictlyIncreasing ts) (hle : ∀ a ∈ ts, a.nanos ≤ bound) (hlt : bound < t.nanos) :
    StrictlyIncreasing (ts ++ [t]) := by
  unfold StrictlyIncreasing at *
  rw [List.pairwise_append]
  refine ⟨hinc, List.pairwise_singleton _ _, ?_⟩
  intro a ha b hb
  rw [List.mem_singleton] at hb
  subst hb
  have := hle a ha
  omega

theorem Write_accepts_or_keeps (E : Engine) (w : Writer) (d : Disk) (u : RealtimeUpdate) :
    (Write E w d u).2.1 = w ∨
    ((Write E w d u).2.1 = { w with lastReport := Time.Unix u.Payload.EpochTimestamp } ∧
      w.lastReport.nanos + Second ≤ (Time.Unix u.Payload.EpochTimestamp).nanos) := by
  cases ht : throttled w u
  · obtain ⟨evs, _, h⟩ := Write_trace E w d u ht
    rcases h with ⟨_, hw, _⟩ | ⟨_, hw, _⟩ | ⟨_, hw, _⟩
    · exact Or.inr ⟨hw, (throttled_false_iff w u).1 ht⟩
    · exact Or.inl hw
    · exact Or.inl hw
  · left
    rw [Write_throttled E w d u ht]

theorem Write_directory (E : Engine) (w : Writer) (d : Disk) (u : RealtimeUpdate) :
    (Write E w d u).2.1.directory = w.directory := by
  rcases Write_accepts_or_keeps E w d u with h | ⟨h, _⟩ <;> rw [h]

theorem deviceFilePath_congr (w0 w : Writer) (h : w0.directory = w.directory) :
    deviceFilePath w0 = deviceFilePath w := by
  funext id
  simp [deviceFilePath, h]

theorem mainFilePath_congr (w0 w : Writer) (h : w0.directory = w.directory) :
    mainFilePath w0 = mainFilePath w := by
  simp [mainFilePath, h]

theorem Write_preserves_order {F : Type} [DecidableEq F] (file : String → F)
    (E : Engine) (hE : ∀ d op, E.succeeds d op = true)
    (w : Writer) (d : Disk) (u : RealtimeUpdate)
    (hids : (u.Payload.Devices.map (fun dev => file (deviceFilePath w dev.ID))).Nodup ∧
      file (mainFilePath w) ∉ u.Payload.Devices.map (fun dev => file (deviceFilePath w dev.ID)))
    (hinv : ∀ store, StrictlyIncreasing (updateTimes file store d.log) ∧
      ∀ t ∈ updateTimes file store d.log, t.nanos ≤ w.lastReport.nanos) :
    w.lastReport.nanos ≤ (Write E w d u).2.1.lastReport.nanos ∧
    ∀ store, StrictlyIncreasing (updateTimes file store (Write E w d u).2.2.log) ∧
      ∀ t ∈ updateTimes file store (Write E w d u).2.2.log,
        t.nanos ≤ (Write E w d u).2.1.lastReport.nanos := by
  constructor
  · rcases Write_accepts_or_keeps E w d u with h | ⟨h, hacc⟩
    · rw [h]
    · rw [h]
      simp only [Second] at hacc
      simp only []
      omega
  · intro store
    obtain ⟨k, hk, hlog, h⟩ := Write_updateTimes file store E hE w d u hids
    obtain ⟨hinc, hle⟩ := hinv store
    rcases h with ⟨hw, hk0⟩ | ⟨hw, hacc⟩
    · subst hk0
      rw [hlog, hw]
      simpa using ⟨hinc, hle⟩
    · rw [hlog, hw]
      simp only [Second] at hacc
      have hk01 : k = 0 ∨ k = 1 := by omega
      rcases hk01 with rfl | rfl
      · simp only [List.replicate_zero, List.append_nil]
        refine ⟨hinc, fun t ht => ?_⟩
        have := hle t ht
        omega
      · simp only [List.replicate_one]
        refine ⟨StrictlyIncreasing_snoc _ _ w.lastReport.nanos hinc hle (by omega), ?_⟩
        intro t ht
        rcases List.mem_append.1 ht with ht | ht
        · have := hle t ht
          omega
        · rw [List.mem_singleton] at ht
          subst ht
          exact Int.le_refl _

theorem writeAll_preserves_order {F : Type} [DecidableEq F] (file : String → F)
    (E : Engine) (hE : ∀ d op, E.succeeds d op = true) (w : Writer)
    (samples : List RealtimeUpdate) :
    ∀ (w0 : Writer) (d : Disk), w0.directory = w.directory →
      (∀ u ∈ samples,
        (u.Payload.Devices.map (fun dev => file (deviceFilePath w dev.ID))).Nodup ∧
        file (mainFilePath w)
          ∉ u.Payload.Devices.map (fun dev => file (deviceFilePath w dev.ID))) →
      (∀ store, StrictlyIncreasing (updateTimes file store d.log) ∧
        ∀ t ∈ updateTimes file store d.log, t.nanos ≤ w0.lastReport.nanos) →
      w0.lastReport.nanos ≤ (writeAll E w0 d samples).2.1.lastReport.nanos ∧
      ∀ store, StrictlyIncreasing (updateTimes file store (writeAll E w0 d samples).2.2.log) ∧
        ∀ t ∈ updateTimes file store (writeAll E w0 d samples).2.2.log,
          t.nanos ≤ (writeAll E w0 d samples).2.1.lastReport.nanos := by
  induction samples with
  | nil => intro w0 d _ _ hinv; exact ⟨Int.le_refl _, hinv⟩
  | cons u rest ih =>
    intro w0 d hdir hids hinv
    have hu := hids u (List.mem_cons_self _ _)
    rw [← deviceFilePath_congr w0 w hdir, ← mainFilePath_congr w0 w hdir] at hu
    have h1 := Write_preserves_order file E hE w0 d u hu hinv
    by_cases hok : (Write E w0 d u).1 = Outcome.ok
    · rw [writeAll_cons_ok E w0 d u rest hok]
      have h2 := ih (Write E w0 d u).2.1 (Write E w0 d u).2.2
        ((Write_directory E w0 d u).trans hdir)
        (fun v hv => hids v (List.mem_cons_of_mem _ hv)) h1.2
      exact ⟨Int.le_trans h1.1 h2.1, h2.2⟩
    · rw [writeAll_cons_stop E w0 d u rest hok]
      exact h1

theorem mainValues_ne_none_iff (p : RealtimeUpdatePayload) :
    mainValues p ≠ none ↔ 2 ≤ p.Voltage.length ∧ 2 ≤ p.Channels.length := by
  unfold mainValues
  generalize p.Voltage = V
  generalize p.Channels = C
  rcases V with _ | ⟨v0, _ | ⟨v1, vs⟩⟩ <;> rcases C with _ | ⟨c0, _ | ⟨c1, cs⟩⟩ <;> simp

theorem reads_in_range_iff (p : RealtimeUpdatePayload) :
    ((p.Voltage[0]?).isSome = true ∧ (p.Voltage[1]?).isSome = true ∧
      (p.Channels[0]?).isSome = true ∧ (p.Channels[1]?).isSome = true) ↔
      2 ≤ p.Voltage.length ∧ 2 ≤ p.Channels.length := by
  generalize p.Voltage = V
  generalize p.Channels = C
  rcases V with _ | ⟨v0, _ | ⟨v1, vs⟩⟩ <;> rcases C with _ | ⟨c0, _ | ⟨c1, cs⟩⟩ <;> simp

theorem Write_indexPanic_iff (E : Engine) (w : Writer) (d : Disk) (u : RealtimeUpdate) :
    (Write E w d u).1 = Outcome.indexPanic ↔
      throttled w u = false ∧ mainValues u.Payload = none ∧
      (E.notExist d (mainFilePath w) = true →
        E.succeeds d (Op.create (mainCreator (mainFilePath w) (E.now d)) true) = true) := by
  constructor
  · intro h
    cases ht : throttled w u
    · obtain ⟨evs, _, h3⟩ := Write_trace E w d u ht
      have hv : mainValues u.Payload = none := by
        rcases h3 with ⟨hok, _⟩ | ⟨herr, _⟩ | ⟨_, _, hv, _⟩
        · rw [h] at hok; cases hok
        · rw [h] at herr; simp [Outcome.isError] at herr
        · exact hv
      refine ⟨rfl, hv, ?_⟩
      intro hex
      cases hs : E.succeeds d (Op.create (mainCreator (mainFilePath w) (E.now d)) true)
      · have hce : (Write E w d u).1 = Outcome.createError (mainFilePath w) := by
          unfold Write
          simp [ht, hex, Disk.call, hs]
        rw [hce] at h
        cases h
      · rfl
    · rw [Write_throttled E w d u ht] at h
      cases h
  · rintro ⟨ht, hv, hc⟩
    unfold Write
    by_cases hex : E.notExist d (mainFilePath w) = true
    · simp [ht, hv, hex, Disk.call, hc hex]
    · simp [ht, hv, hex]

/-- Claim C21 (index safety of Write). The four reads Voltage[0], Voltage[1],
Channels[0] and Channels[1] are all in range exactly when the sample carries
at least two voltage entries and at least two channel entries, which is when
the values of the aggregate update exist. Write ends in the out-of-range
panic exactly when the sample passes the throttle, that shape fails and the
aggregate store exists or its creation succeeds, so that the update is
reached; no other step of Write gives that outcome. For a sample of the
right shape the panic is unreachable, whatever the engine, the writer and the
disk. -/
theorem Write_index_safe_iff_shape (E : Engine) (w : Writer) (d : Disk) (u : RealtimeUpdate) :
    (((u.Payload.Voltage[0]?).isSome = true ∧ (u.Payload.Voltage[1]?).isSome = true ∧
      (u.Payload.Channels[0]?).isSome = true ∧ (u.Payload.Channels[1]?).isSome = true) ↔
      2 ≤ u.Payload.Voltage.length ∧ 2 ≤ u.Payload.Channels.length) ∧
    (mainValues u.Payload ≠ none ↔
      2 ≤ u.Payload.Voltage.length ∧ 2 ≤ u.Payload.Channels.length) ∧
    ((Write E w d u).1 = Outcome.indexPanic ↔
      throttled w u = false ∧
      ¬ (2 ≤ u.Payload.Voltage.length ∧ 2 ≤ u.Payload.Channels.length) ∧
      (E.notExist d (mainFilePath w) = true →
        E.succeeds d (Op.create (mainCreator (mainFilePath w) (E.now d)) true) = true)) ∧
    (2 ≤ u.Payload.Voltage.length ∧ 2 ≤ u.Payload.Channels.length →
      (Write E w d u).1 ≠ Outcome.indexPanic) := by
  have hshape := mainValues_ne_none_iff u.Payload
  have hnone : mainValues u.Payload = none ↔
      ¬ (2 ≤ u.Payload.Voltage.length ∧ 2 ≤ u.Payload.Channels.length) := by
    rw [← hshape]
    exact not_ne_iff.symm
  have hiff := Write_indexPanic_iff E w d u
  refine ⟨reads_in_range_iff u.Payload, hshape, ?_, ?_⟩
  · rw [hiff, hnone]
  · intro hs hp
    exact (hnone.1 (hiff.1 hp).2.1) hs

/-- Claim C21 on concrete inputs: a sample with a single voltage entry that
passes the throttle of a fresh writer ends Write in the out-of-range panic;
the sample of the end-to-end scenario, with two voltage and two channel
entries, cannot. -/
theorem Write_index_safe_iff_shape_witness :
    (Write exampleEngine freshWriter {} sampleShort).1 = Outcome.indexPanic ∧
    (2 ≤ sampleT.Payload.Voltage.length ∧ 2 ≤ sampleT.Payload.Channels.length) ∧
    (Write exampleEngine freshWriter {} sampleT).1 ≠ Outcome.indexPanic :=
  ⟨(Write_index_safe_iff_shape exampleEngine freshWriter {} sampleShort).2.2.1.2
      ⟨by decide, by decide, fun _ => rfl⟩,
   by decide,
   (Write_index_safe_iff_shape exampleEngine freshWriter {} sampleT).2.2.2 (by decide)⟩

/-! ## A rejected renewal -/

theorem Refresh_unauthorized (c : Client) (now : Time) (reply : AuthReply)
    (h : c.notAuthenticated = true) :
    c.Refresh now reply = (Ret.returned {} (some Error.ErrNotAuthenticated), c, []) := by
  unfold Client.notAuthenticated at h
  unfold Client.Refresh
  cases hc : c.authResponse with
  | none => rfl
  | some a =>
    rw [hc] at h
    simp only at h
    simp [h]

theorem refreshAll_unauthorized (c : Client) (h : c.notAuthenticated = true)
    (calls : List (Time × AuthReply)) :
    c.refreshAll calls =
      (calls.map (fun _ => (Ret.returned {} (some Error.ErrNotAuthenticated), [])), c) := by
  induction calls with
  | nil => rfl
  | cons call rest ih =>
    rw [Client.refreshAll]
    simp only [Refresh_unauthorized c call.1 call.2 h, ih, List.map_cons]

/-- Claim C22 (a rejected renewal is not rolled back). For every client that
holds an authorized credential a and every renewal response that decodes
without error and sets authorized to false, Refresh sends its one request and
returns AuthenticationFailed, and the client then holds the credential
overlaid with the response: not authorized, with the expiry of the response
when it sets one and the clock reading plus 24 hours otherwise, and with the
tokens of the response where it sets them; so the client is not the one
before the call. Afterwards TokenExpiry returns the zero time, and every
further Refresh, whatever the clock and the reply would be, returns
NotAuthenticated, sends no request and leaves the client as it is, also over
any run of further calls. -/
theorem Refresh_rejection_is_kept (c : Client) (a : AuthResponse) (now : Time) (doc : AuthDoc)
    (hc : c.authResponse = some a) (ha : a.Authorized = true)
    (hdoc : doc.Authorized = some false) :
    ∃ c1 a1,
      c.Refresh now (AuthReply.response (AuthBody.object doc false)) =
        (Ret.returned {} (some Error.ErrAuthenticationFailed), c1,
          [Request.renew a.UserID a.RefreshToken]) ∧
      c1 = { c with authResponse := some a1 } ∧
      a1 = doc.store { a with Expires := now.Add defaultTokenExpiry } ∧
      a1.Authorized = false ∧
      a1.Expires = doc.Expires.getD (now.Add defaultTokenExpiry) ∧
      a1.AccessToken = doc.AccessToken.getD a.AccessToken ∧
      a1.RefreshToken = doc.RefreshToken.getD a.RefreshToken ∧
      c1 ≠ c ∧
      c1.TokenExpiry = {} ∧
      (∀ now2 reply2, c1.Refresh now2 reply2 =
        (Ret.returned {} (some Error.ErrNotAuthenticated), c1, [])) ∧
      (∀ calls, c1.refreshAll calls =
        (calls.map (fun _ => (Ret.returned {} (some Error.ErrNotAuthenticated), [])), c1)) := by
  have hA : (doc.store { a with Expires := now.Add defaultTokenExpiry }).Authorized = false := by
    rw [store_Authorized, hdoc]
    rfl
  have hn : ({ c with authResponse := some (doc.store
      { a with Expires := now.Add defaultTokenExpiry }) } : Client).notAuthenticated = true := by
    simp [Client.notAuthenticated, hA]
  refine ⟨{ c with authResponse := some (doc.store
      { a with Expires := now.Add defaultTokenExpiry }) },
    doc.store { a with Expires := now.Add defaultTokenExpiry }, ?_, rfl, rfl, hA, ?_, ?_, ?_, ?_, ?_,
    fun now2 reply2 => Refresh_unauthorized _ now2 reply2 hn,
    fun calls => refreshAll_unauthorized _ hn calls⟩
  · rw [Refresh_object c a now doc false hc ha]
    simp [hA]
  · rw [store_Expires]
  · unfold AuthDoc.store
    cases doc.AccessToken <;> rfl
  · unfold AuthDoc.store
    cases doc.RefreshToken <;> rfl
  · intro he
    have h1 := congrArg Client.authResponse he
    rw [hc] at h1
    simp only [Option.some.injEq] at h1
    rw [h1, ha] at hA
    cases hA
  · simp [Client.TokenExpiry, hA]

/-- Claim C22 on a concrete input: the owner's credential and a response that
only sets authorized to false. The client afterwards holds the credential
with authorized false and the expiry one day after the clock reading. -/
theorem Refresh_rejection_is_kept_witness :
    ownerClient.authResponse = some credOwner ∧ credOwner.Authorized = true ∧
    docRejected.Authorized = some false ∧
    ∃ c1 a1,
      ownerClient.Refresh clock (AuthReply.response (AuthBody.object docRejected false)) =
        (Ret.returned {} (some Error.ErrAuthenticationFailed), c1,
          [Request.renew credOwner.UserID credOwner.RefreshToken]) ∧
      c1 = { ownerClient with authResponse := some a1 } ∧
      a1.Authorized = false ∧
      a1.Expires = clock.Add defaultTokenExpiry ∧
      c1.TokenExpiry = {} ∧
      c1.Refresh clock (AuthReply.response (AuthBody.object docNewToken false)) =
        (Ret.returned {} (some Error.ErrNotAuthenticated), c1, []) := by
  obtain ⟨c1, a1, h1, h2, _, h4, h5, _, _, _, h9, h10, _⟩ :=
    Refresh_rejection_is_kept ownerClient credOwner clock docRejected rfl rfl rfl
  exact ⟨rfl, rfl, rfl, c1, a1, h1, h2, h4, h5, h9, h10 _ _⟩
end SenseLogger
